import Mathlib

/-!
# static/js/dashboard.js : the polling dashboard, embedded

The class `TradingDashboard` of `static/js/dashboard.js` is embedded as pure
functions over an explicit `World`: the fields of `this`, the page (which
elements exist and their `textContent`), the active `setInterval` timers, and
logs of the requests issued and of the `showNotification` calls.

Conventions of the embedding.

* `null` and `undefined` are both `none`.
* An `async` method is cut at its `await`s into synchronous segments; the
  outcome of each awaited request is an argument of the segment that resumes
  after it.  `await fetch(..)` and the following `await response.json()` are one
  suspension point.
* A segment that can raise returns `Res`: `ok w` on normal completion, `threw w`
  when an exception propagates, with the world as it was at the `throw`.
* Response bodies are typed after the wire format (strings, booleans, integers,
  lists, each field optional).  CSS classes and the renderings of numbers
  (`toFixed`) are not tracked; a write of such a text only needs its element.
-/

namespace TradingDashboard

/-! ## Values -/

/-- Truthiness of an optional string: absent and `''` are falsy. -/
def truthy : Option String → Bool
  | some s => s != ""
  | none => false

/-- The expression `s.split(sep)[0]` for a one-character separator. -/
def splitFirst (sep : Char) (s : String) : String :=
  String.mk (s.data.takeWhile (fun c => c != sep))

/-- The expression `s.toUpperCase()` (ASCII letters). -/
def toUpperCase (s : String) : String :=
  String.mk (s.data.map Char.toUpper)

/-- The `position` object of a status snapshot. -/
structure Position where
  id : Option String := none
  symbol : Option String := none
  side : Option String := none
  entry_time : Option String := none
  entry_price : Option Int := none
  notional : Option Int := none
  size : Option Int := none
  open_timestamp : Option Int := none
  unrealized_pnl : Option Int := none
  top1_display : Option String := none
  deriving DecidableEq, Repr

/-- One entry of the `trades` list of a status snapshot. -/
structure Trade where
  side : Option String := none
  symbol : Option String := none
  pnl : Option Int := none
  duration : Option String := none
  deriving DecidableEq, Repr

/-- The JSON body of `GET /api/status`. -/
structure Status where
  api_connected : Option Bool := none
  trading_mode : Option String := none
  in_position : Bool := false
  current_symbol : Option String := none
  bot_running : Bool := false
  balance : Option Int := none
  available : Option Int := none
  current_price : Option Int := none
  sar_directions : Option (List (String × String)) := none
  position : Option Position := none
  trades : Option (List Trade) := none
  top1_display : Option String := none
  deriving DecidableEq, Repr

/-- One row of the leaderboard. -/
structure Gainer where
  symbol : Option String := none
  price : Option Int := none
  change : Option Int := none
  deriving DecidableEq, Repr

/-- The JSON body of `GET /api/top_gainers`. -/
structure GainersData where
  gainers : Option (List Gainer) := none
  deriving DecidableEq, Repr

/-- The JSON body answering a command (`{message}`, `{error}`, and for
`toggle_rebalance` the field `rebalance_enabled`; for `set_trading_mode` the
field `balance`). -/
structure CommandData where
  message : Option String := none
  error : Option String := none
  rebalance_enabled : Bool := false
  balance : Option Int := none
  deriving DecidableEq, Repr

/-- Outcome of `await fetch(url)` followed by `await response.json()`:
the fetch rejects, or a response arrives with its `ok` flag and its body
(`none` when `json()` rejects). -/
inductive Fetch (α : Type) where
  | networkError
  | response (ok : Bool) (json : Option α)
  deriving DecidableEq, Repr

/-- The value `new Date(x)` stored in `positionStartTime`. -/
inductive StartTime where
  | ofTimestamp (ms : Int)
  | ofIso (text : String)
  deriving DecidableEq, Repr

/-- The callback of a `setInterval` timer. -/
inductive TimerTask where
  | updateDashboard
  | updateChart
  | updateTopGainers
  | updateOnlineUsers
  | sendHeartbeat
  | updatePositionTimer
  | updateCurrentSymbol
  deriving DecidableEq, Repr

/-- An active `setInterval` timer. -/
structure Timer where
  id : Nat
  task : TimerTask
  period : Nat
  deriving DecidableEq, Repr

/-! ## The world -/

/-- The fields of `this` (initial values as in the constructor), the page, the
timers and the logs. -/
structure World where
  lastUpdateTime : Option Nat := none
  isUpdating : Bool := false
  currentTimeframe : String := "5m"
  currentSymbol : String := "TOP1/USDT"
  topPairPrice : Int := 0
  topPairSymbol : Option String := none
  positionSymbolLocked : Bool := false
  lockedSymbol : Option String := none
  openLevels : List String := []
  closeLevels : List String := []
  apiConnected : Bool := false
  lastPosition : Option Position := none
  rebalanceActive : Bool := false
  positionStartTime : Option StartTime := none
  positionTimerInterval : Option Nat := none
  lastPositionId : Option String := none
  dataUpdateInterval : Option Nat := none
  /-- `document.getElementById(id)`: `none` when the page has no such element,
  else its `textContent`. -/
  page : String → Option String := fun _ => none
  /-- The `.btn-mode-toggle` buttons: their `data-mode` and whether they carry
  the class `active`. -/
  modeButtons : List (String × Bool) := []
  /-- The host's `Date` parsing of an ISO text, in milliseconds. -/
  dateParse : String → Int := fun _ => 0
  /-- The items rendered in `trades-container`. -/
  tradeItems : List Trade := []
  timers : List Timer := []
  nextTimer : Nat := 1
  /-- Every `fetch` issued, oldest first. -/
  requests : List String := []
  /-- Every `showNotification(type, message)` call, oldest first. -/
  notifications : List (String × String) := []
  /-- The clock read by `new Date()`. -/
  now : Nat := 0

/-- Result of a synchronous segment. -/
inductive Res where
  | ok (w : World)
  | threw (w : World)

/-- The world a segment ends in, however it ends. -/
def Res.world : Res → World
  | .ok w => w
  | .threw w => w

/-- Sequencing: a raised exception skips the rest. -/
def Res.andThen (r : Res) (f : World → Res) : Res :=
  match r with
  | .ok w => f w
  | .threw w => .threw w

/-- The statement `if (el) el.textContent = text` (also the plain assignment
when `el` is known to exist): an absent element is left absent. -/
def setText (id text : String) (w : World) : World :=
  { w with page := fun j => if j = id then (w.page j).map (fun _ => text) else w.page j }

/-- The statement `document.getElementById(id).textContent = text`, which
raises a `TypeError` when the element is missing. -/
def setTextStrict (id text : String) (w : World) : Res :=
  match w.page id with
  | none => .threw w
  | some _ => .ok (setText id text w)

/-- The statement `document.getElementById(id).textContent = <number rendering>`:
raises when the element is missing; the rendering is not tracked. -/
def touchStrict (id : String) (w : World) : Res :=
  match w.page id with
  | none => .threw w
  | some _ => .ok w

/-- The call `fetch(url)`. -/
def fetch (url : String) (w : World) : World :=
  { w with requests := w.requests ++ [url] }

/-- The call `setInterval(task, period)`: returns the fresh handle. -/
def setInterval (task : TimerTask) (period : Nat) (w : World) : Nat × World :=
  (w.nextTimer,
   { w with timers := w.timers ++ [{ id := w.nextTimer, task := task, period := period }],
            nextTimer := w.nextTimer + 1 })

/-- The call `clearInterval(id)`. -/
def clearInterval (id : Nat) (w : World) : World :=
  { w with timers := w.timers.filter (fun t => t.id != id) }

/-- The method `showNotification(type, message)`. -/
def showNotification (type message : String) (w : World) : World :=
  { w with notifications := w.notifications ++ [(type, message)] }

/-! ## updateSARDirections -/

/-- The constant `timeframes` of `updateSARDirections`. -/
def timeframes : List String := ["1m", "5m", "15m", "30m", "1h", "60m"]

/-- The locals `allMatch` and `matchDirection` of `updateSARDirections`. -/
structure SarAcc where
  allMatch : Bool := true
  matchDirection : Option String := none
  deriving DecidableEq, Repr

/-- Body of the `timeframes.forEach` callback of `updateSARDirections`. -/
def sarStep (directions : List (String × String)) (st : SarAcc × World) (tf : String) :
    SarAcc × World :=
  let acc := st.1
  let w := st.2
  let element := w.page ("sar-" ++ tf)
  let container := w.page ("sar-" ++ tf ++ "-container")
  let direction := directions.lookup tf
  if element.isSome && container.isSome then
    if direction = some "long" then
      let w := setText ("sar-" ++ tf) "LONG" w
      if acc.matchDirection = none then ({ acc with matchDirection := some "long" }, w)
      else if acc.matchDirection ≠ some "long" then ({ acc with allMatch := false }, w)
      else (acc, w)
    else if direction = some "short" then
      let w := setText ("sar-" ++ tf) "SHORT" w
      if acc.matchDirection = none then ({ acc with matchDirection := some "short" }, w)
      else if acc.matchDirection ≠ some "short" then ({ acc with allMatch := false }, w)
      else (acc, w)
    else
      ({ acc with allMatch := false }, setText ("sar-" ++ tf) "N/A" w)
  else (acc, w)

/-- The method `updateSARDirections(directions)`. -/
def updateSARDirections (directions : List (String × String)) (w : World) : World :=
  let st := timeframes.foldl (sarStep directions) ({}, w)
  let acc := st.1
  let w := st.2
  if acc.allMatch && truthy acc.matchDirection then
    if acc.matchDirection = some "long" then setText "signal-status" "LONG SIGNAL" w
    else setText "signal-status" "SHORT SIGNAL" w
  else setText "signal-status" "NO SIGNAL" w

/-- A direction of the consensus contract. -/
inductive Direction where
  | long
  | short
  deriving DecidableEq, Repr

/-- Reading of one entry of the directions map: `'long'`, `'short'`, and `None`
for a missing key or any other value. -/
def directionOf (directions : List (String × String)) (tf : String) : Option Direction :=
  match directions.lookup tf with
  | some "long" => some .long
  | some "short" => some .short
  | _ => none

/-- The loop of the reference algorithm: return `None` as soon as a timeframe is
`None` or differs from `D`, otherwise `D`. -/
def consensusLoop (dirs : String → Option Direction) (D : Option Direction) :
    List String → Option Direction
  | [] => D
  | tf :: rest =>
    if dirs tf = none ∨ dirs tf ≠ D then none else consensusLoop dirs D rest

/-- The reference algorithm of the consensus contract: `D` is the direction of
the first timeframe in canonical order. -/
def consensus (dirs : String → Option Direction) : Option Direction :=
  match timeframes with
  | [] => none
  | first :: _ => consensusLoop dirs (dirs first) timeframes

/-- The text `updateSARDirections` shows for a consensus. -/
def signalText : Option Direction → String
  | some .long => "LONG SIGNAL"
  | some .short => "SHORT SIGNAL"
  | none => "NO SIGNAL"

/-! ## The position panel -/

/-- The expression `a || b` on strings. -/
def orElse (a : Option String) (b : String) : String :=
  match a with
  | some s => if s != "" then s else b
  | none => b

/-- The value `now - this.positionStartTime` of `updatePositionTimer`, in
milliseconds. -/
def elapsedMs (w : World) : StartTime → Int
  | .ofTimestamp ms => (w.now : Int) - ms
  | .ofIso text => (w.now : Int) - w.dateParse text

/-- The text `updatePositionTimer` renders for `elapsed` seconds: `Math.floor`
is `Int.fdiv`, `%` is the truncating `Int.tmod`. -/
def timerText (elapsed : Int) : String :=
  let hours := Int.fdiv elapsed 3600
  let minutes := Int.fdiv (Int.tmod elapsed 3600) 60
  let seconds := Int.tmod elapsed 60
  if hours > 0 then toString hours ++ "ч " ++ toString minutes ++ "м " ++ toString seconds ++ "с"
  else toString minutes ++ "м " ++ toString seconds ++ "с"

/-- The method `updatePositionTimer(timeElement, colorClass)`, with
`timeElement` the element `pos-time`. -/
def updatePositionTimer (w : World) : World :=
  match w.positionStartTime, w.page "pos-time" with
  | some start, some _ => setText "pos-time" (timerText (Int.fdiv (elapsedMs w start) 1000)) w
  | _, _ => w

/-- The method `startPositionTimer(timeElement, colorClass)`. -/
def startPositionTimer (w : World) : World :=
  let w := match w.positionTimerInterval with
    | some id => clearInterval id w
    | none => w
  let r := setInterval .updatePositionTimer 1000 w
  { r.2 with positionTimerInterval := some r.1 }

/-- The method `clearPosition()`.  The chart marker and the `d-none` classes are
not tracked. -/
def clearPosition (w : World) : World :=
  let w := match w.positionTimerInterval with
    | some id => { clearInterval id w with positionTimerInterval := none }
    | none => w
  { w with positionStartTime := none, lastPositionId := none }

/-- The statement `if (!entryTime.endsWith('Z') && !entryTime.includes('+'))
entryTime = entryTime + 'Z'` of `updatePosition`. -/
def asUtc (entryTime : String) : String :=
  if !(entryTime.data.getLast? == some 'Z') && !(entryTime.data.elem '+')
  then entryTime ++ "Z" else entryTime

/-- The `pos-time` block of `updatePosition`, run when the element exists. -/
def updatePositionTime (position : Position) (w : World) : World :=
  let openTimestamp := position.open_timestamp.getD 0
  let w :=
    if openTimestamp > 0 then
      { w with positionStartTime := some (.ofTimestamp openTimestamp) }
    else
      match position.entry_time with
      | some entryTime =>
        if entryTime != "" then
          { w with positionStartTime := some (.ofIso (asUtc entryTime)) }
        else w
      | none => w
  match w.positionStartTime with
  | some _ =>
    let w := updatePositionTimer w
    if w.positionTimerInterval.isNone then startPositionTimer w else w
  | none => setText "pos-time" "N/A" w

/-- The value `pnl` of `updatePosition`: `parseFloat(position.unrealized_pnl || 0)`. -/
def unrealizedPnl (position : Position) : Int :=
  position.unrealized_pnl.getD 0

/-- The text written to `pos-pnl`: the sign, `$`, and `pnl.toFixed(2)` (numbers
are integers here, so the two decimals are zeros). -/
def pnlText (pnl : Int) : String :=
  (if pnl ≥ 0 then "+" else "") ++ "$" ++ toString pnl ++ ".00"

/-- The value `unrealizedPnL` of `updatePositionInfo` in
`attached_assets/dashboard_1759392864593.js`, which recomputes it from the price
difference on every call. -/
def updatePositionInfoPnL (side : String) (currentPrice entryPrice sizeBase : Int) : Int :=
  if side = "long" then (currentPrice - entryPrice) * sizeBase
  else (entryPrice - currentPrice) * sizeBase

/-- The method `updatePosition(position, currentPrice, statusData)`.  It raises
when `pos-side` exists and `position.side` is missing (`toUpperCase` of
`undefined`). -/
def updatePosition (position : Position) (statusData : Status) (w : World) : Res :=
  let w := { w with lastPosition := some position }
  let w := setText "pos-symbol" (orElse position.symbol (orElse (some w.currentSymbol) "UNKNOWN")) w
  let sideBadge : Res :=
    match w.page "pos-side", position.side with
    | some _, some side => .ok (setText "pos-side" (toUpperCase side) w)
    | some _, none => .threw w
    | none, _ => .ok w
  sideBadge.andThen fun w =>
    let w := setText "pos-size" (orElse statusData.top1_display (orElse position.top1_display "N/A")) w
    let w := match w.page "pos-time" with
      | some _ => updatePositionTime position w
      | none => w
    .ok (setText "pos-pnl" (pnlText (unrealizedPnl position)) w)

/-- Arrays of trades live in a store and are passed by reference: the entry at
index `ref` is the contents of the array with that reference. -/
abbrev TradeArrays := List (List Trade)

/-- The contents of the array `ref`. -/
def arrayContents (ref : Nat) (store : TradeArrays) : List Trade :=
  store.getD ref []

/-- The expression `[...a]`: a new array with the elements of `a`; returns its
reference. -/
def arraySpread (ref : Nat) (store : TradeArrays) : Nat × TradeArrays :=
  (store.length, store ++ [arrayContents ref store])

/-- The call `a.reverse()`: reverses `a` in place and returns `a`. -/
def arrayReverse (ref : Nat) (store : TradeArrays) : Nat × TradeArrays :=
  (ref, store.set ref (arrayContents ref store).reverse)

/-- The statement `const reversedTrades = [...trades].reverse()`: returns the
reference held by `reversedTrades`. -/
def spreadReverse (trades : Nat) (store : TradeArrays) : Nat × TradeArrays :=
  let copy := arraySpread trades store
  arrayReverse copy.1 copy.2

/-- The method `updateTrades(trades)`, with `trades` a reference into the store.
The `map` callback reads the fields of each trade and assigns none; it raises on
a trade without `side`, before `innerHTML` is assigned. -/
def updateTrades (trades : Nat) (store : TradeArrays) (w : World) : Res × TradeArrays :=
  match w.page "trades-container" with
  | none => (.ok w, store)
  | some _ =>
    if (arrayContents trades store).length = 0 then (.ok { w with tradeItems := [] }, store)
    else
      let reversedTrades := spreadReverse trades store
      let store := reversedTrades.2
      if (arrayContents reversedTrades.1 store).all (fun trade => trade.side.isSome) then
        (.ok { w with tradeItems := arrayContents reversedTrades.1 store }, store)
      else (.threw w, store)

/-- The method `updateModeButtons(mode)`. -/
def updateModeButtons (mode : String) (w : World) : World :=
  { w with modeButtons := w.modeButtons.map (fun btn => (btn.1, btn.1 == mode)) }

/-! ## updateDashboard -/

/-- First segment of `updateDashboard`: the re-entrancy guard, the flag and the
leaderboard request.  The boolean tells whether a run was started. -/
def updateDashboardBegin (w : World) : World × Bool :=
  if w.isUpdating then (w, false)
  else (fetch "/api/top_gainers" { w with isUpdating := true }, true)

/-- Second segment of `updateDashboard`: the inner `try`/`catch` around the
leaderboard response, then the status request. -/
def updateDashboardGainers (gainers : Fetch GainersData) (w : World) : World :=
  let w :=
    match gainers with
    | .response true (some gainersData) =>
      match gainersData.gainers with
      | some (topPair :: _) =>
        let w := { w with topPairPrice := topPair.price.getD 0 }
        let topPairSymbol :=
          match topPair.symbol with
          | some symbol => if symbol != "" then splitFirst '_' symbol else "TOP1"
          | none => "TOP1"
        let w := { w with topPairSymbol := some topPairSymbol }
        let w := if !w.positionSymbolLocked then setText "symbol-display" topPairSymbol w else w
        let w := if !w.positionSymbolLocked then setText "chart-symbol" topPairSymbol w else w
        w
      | _ => w
    | _ => w
  fetch "/api/status" w

/-- The statement `if (data.position.symbol) ..` of `updateDashboard`: lock the
symbol on the first snapshot of a position, then show the locked symbol. -/
def lockSymbol (position : Position) (w : World) : World :=
  match position.symbol with
  | some symbol =>
    if symbol != "" then
      let positionSymbol := splitFirst '_' symbol
      let w :=
        if !w.positionSymbolLocked then
          { w with positionSymbolLocked := true, lockedSymbol := some positionSymbol }
        else w
      let w := setText "symbol-display" (w.lockedSymbol.getD "") w
      setText "chart-symbol" (w.lockedSymbol.getD "") w
    else w
  | none => w

/-- The `if (data.in_position && data.position)` statement of `updateDashboard`,
positive branch.  The first statement raises when `position-status` is missing
or `position.side` is. -/
def statusOpenPosition (position : Position) (data : Status) (w : World) : Res :=
  let positionStatus : Res :=
    match w.page "position-status", position.side with
    | some _, some side => .ok (setText "position-status" (toUpperCase side) w)
    | _, _ => .threw w
  positionStatus.andThen fun w => updatePosition position data (lockSymbol position w)

/-- The `else` branch of the same statement. -/
def statusNoPosition (w : World) : Res :=
  (setTextStrict "position-status" "No Position" w).andThen fun w =>
    let w := { w with positionSymbolLocked := false, lockedSymbol := none }
    .ok (clearPosition w)

/-- The statements of `updateDashboard` from `const data = await response.json()`
to the `bot-status` badge: `apiConnected`, the mode buttons, `currentSymbol`. -/
def statusSync (data : Status) (w : World) : World :=
  let w := match data.api_connected with
    | some b => { w with apiConnected := b }
    | none => w
  let w := if truthy data.trading_mode then updateModeButtons (data.trading_mode.getD "") w else w
  if data.in_position then
    match w.lockedSymbol with
    | some locked => if locked != "" then { w with currentSymbol := locked } else w
    | none => w
  else if truthy w.topPairSymbol then { w with currentSymbol := w.topPairSymbol.getD "" }
  else if truthy data.current_symbol then { w with currentSymbol := data.current_symbol.getD "" }
  else w

/-- The next statements of `updateDashboard`: the `bot-status` badge, `balance`,
`available` (none of the three lookups is null-checked) and the SAR badges. -/
def statusBadges (data : Status) (w : World) : Res :=
  (setTextStrict "bot-status" (if data.bot_running then "RUNNING" else "STOPPED") w).andThen fun w =>
  (touchStrict "balance" w).andThen fun w =>
  (touchStrict "available" w).andThen fun w =>
    match data.sar_directions with
    | some directions => .ok (updateSARDirections directions w)
    | none => .ok w

/-- The statement `if (data.in_position && data.position) .. else ..` of
`updateDashboard`. -/
def statusPosition (data : Status) (w : World) : Res :=
  match data.in_position, data.position with
  | true, some position => statusOpenPosition position data w
  | _, _ => statusNoPosition w

/-- The last statements of the `try` block of `updateDashboard`: the trades
list and `lastUpdateTime`.  The array `data.trades` comes out of `response.json()`
and is the one array of the store. -/
def statusTrades (data : Status) (w : World) : Res :=
  let tradesBlock : Res :=
    match data.trades with
    | some trades => (updateTrades 0 [trades] w).1
    | none => .ok w
  tradesBlock.andThen fun w => .ok { w with lastUpdateTime := some w.now }

/-- The statements of `updateDashboard` that follow
`const data = await response.json()`, to the end of the `try` block. -/
def applyStatus (data : Status) (w : World) : Res :=
  (statusBadges data (statusSync data w)).andThen fun w =>
  (statusPosition data w).andThen fun w =>
  statusTrades data w

/-- Third segment of `updateDashboard`: the status response, the `catch`
(`console.error`) and the `finally`. -/
def updateDashboardStatus (status : Fetch Status) (w : World) : Res :=
  let body : Res :=
    match status with
    | .networkError => .threw w
    | .response false _ => .ok w
    | .response true none => .threw w
    | .response true (some data) => applyStatus data w
  match body with
  | .ok w => .ok { w with isUpdating := false }
  | .threw w => .ok { w with isUpdating := false }

/-- The method `updateDashboard()` run from its call to its end, with the
outcomes of its two requests. -/
def updateDashboard (gainers : Fetch GainersData) (status : Fetch Status) (w : World) : Res :=
  match updateDashboardBegin w with
  | (w, false) => .ok w
  | (w, true) => updateDashboardStatus status (updateDashboardGainers gainers w)

/-- One status snapshot processed: a run of `updateDashboard` whose status
request is answered 2xx with `data`. -/
def processSnapshot (w : World) (tick : Fetch GainersData × Status) : World :=
  (updateDashboard tick.1 (.response true (some tick.2)) w).world

/-! ## Timers and the mode switch -/

/-- The method `startAutoUpdate()`. -/
def startAutoUpdate (w : World) : World :=
  match w.dataUpdateInterval with
  | none =>
    let r := setInterval .updateDashboard 2000 w
    { r.2 with dataUpdateInterval := some r.1 }
  | some _ => w

/-- The call `updateTopGainers()` up to its request. -/
def updateTopGainersBegin (w : World) : World :=
  fetch "/api/top_gainers" w

/-- The method `startDataUpdates()`: the five handles are dropped. -/
def startDataUpdates (w : World) : World :=
  let w := (setInterval .updateDashboard 5000 w).2
  let w := (setInterval .updateChart 5000 w).2
  let w := (setInterval .updateTopGainers 15000 w).2
  let w := (setInterval .updateOnlineUsers 5000 w).2
  let w := (setInterval .sendHeartbeat 30000 w).2
  updateTopGainersBegin w

/-- The page load: the script-level `setInterval(updateCurrentSymbol, 15000)`,
then the synchronous part of `new TradingDashboard()`; each loader runs up to
its first request. -/
def pageLoad (w : World) : World :=
  let w := (setInterval .updateCurrentSymbol 15000 w).2
  let w := fetch "/api/get_strategy_config" w
  let w := fetch "/api/get_leverage" w
  let w := fetch "/api/get_trading_mode" w
  let w := fetch "/api/get_trading_mode" w
  let w := startDataUpdates w
  let w := (updateDashboardBegin w).1
  fetch ("/api/chart_data?timeframe=" ++ w.currentTimeframe) w

/-- First segment of `setTradingMode(mode)`: stop the auto-update held in
`dataUpdateInterval`, then send the request. -/
def setTradingModeBegin (w : World) : World :=
  let w := match w.dataUpdateInterval with
    | some id => { clearInterval id w with dataUpdateInterval := none }
    | none => w
  fetch "/api/set_trading_mode" w

/-- Second segment of `setTradingMode(mode)`: from the response to the first
`setTimeout` wait, or to the end of the call on a failure.  The boolean tells
whether the call goes on (2xx). -/
def setTradingModeResponse (mode : String) (r : Fetch CommandData) (w : World) : World × Bool :=
  match r with
  | .response true (some _) =>
    let w := updateModeButtons mode w
    let modeText := if mode = "demo" then "DEMO ($100)" else "REAL (Gate.io)"
    (showNotification "success" ("Режим: " ++ modeText) w, true)
  | .response false (some data) =>
    (startAutoUpdate (showNotification "error" (orElse data.error "Ошибка переключения режима") w),
     false)
  | _ =>
    (startAutoUpdate (showNotification "error" "Ошибка переключения режима" w), false)

/-- The method `setTradingMode(mode)` run from its call to its end: the outcome
of its request and, on a 2xx, the outcomes of the two requests of the forced
`updateDashboard()` between the two waits. -/
def setTradingMode (mode : String) (r : Fetch CommandData) (gainers : Fetch GainersData)
    (status : Fetch Status) (w : World) : World :=
  match setTradingModeResponse mode r (setTradingModeBegin w) with
  | (w, false) => w
  | (w, true) => startAutoUpdate (updateDashboard gainers status w).world

/-! ## Commands -/

/-- The shared body of `startBot`, `stopBot`, `closePosition`,
`deleteLastTrade`, `resetBalance`, `openLong` and `openShort`: one POST, a
notification for each outcome, and on success of the last four an un-awaited
`this.updateDashboard()`. -/
def postCommand (url okText failText : String) (refresh : Bool) (r : Fetch CommandData)
    (w : World) : World :=
  let w := fetch url w
  match r with
  | .response true (some data) =>
    let w := showNotification "success" (orElse data.message okText) w
    if refresh then (updateDashboardBegin w).1 else w
  | .response false (some data) => showNotification "error" (orElse data.error failText) w
  | _ => showNotification "error" "Server connection error" w

/-- The method `startBot()`. -/
def startBot : Fetch CommandData → World → World :=
  postCommand "/api/start_bot" "Bot started successfully" "Failed to start bot" false

/-- The method `stopBot()`. -/
def stopBot : Fetch CommandData → World → World :=
  postCommand "/api/stop_bot" "Bot stopped successfully" "Failed to stop bot" false

/-- The method `closePosition()`. -/
def closePosition : Fetch CommandData → World → World :=
  postCommand "/api/close_position" "Position closed successfully" "Failed to close position" false

/-- The method `deleteLastTrade()`. -/
def deleteLastTrade : Fetch CommandData → World → World :=
  postCommand "/api/delete_last_trade" "Last trade deleted successfully"
    "Failed to delete last trade" true

/-- The method `resetBalance()`. -/
def resetBalance : Fetch CommandData → World → World :=
  postCommand "/api/reset_balance" "Balance reset to $100" "Failed to reset balance" true

/-- The method `openLong()`. -/
def openLong : Fetch CommandData → World → World :=
  postCommand "/api/open_long" "LONG position opened successfully"
    "Failed to open LONG position" true

/-- The method `openShort()`. -/
def openShort : Fetch CommandData → World → World :=
  postCommand "/api/open_short" "SHORT position opened successfully"
    "Failed to open SHORT position" true

/-- The method `setLeverage(leverage)`. -/
def setLeverage (leverage : String) (r : Fetch CommandData) (w : World) : World :=
  let w := fetch "/api/set_leverage" w
  match r with
  | .response true (some _) => showNotification "success" ("Leverage set to " ++ leverage ++ "x") w
  | .response false (some data) =>
    showNotification "error" (orElse data.error "Failed to set leverage") w
  | _ => showNotification "error" "Error setting leverage" w

/-- The method `saveStrategyConfig()`: both failures end in `console.error`. -/
def saveStrategyConfig (_r : Fetch CommandData) (w : World) : World :=
  fetch "/api/set_strategy_config" w

/-- The method `toggleOpenLevel(level, button)`. -/
def toggleOpenLevel (level : String) (r : Fetch CommandData) (w : World) : World :=
  let w :=
    if w.openLevels.elem level then { w with openLevels := w.openLevels.filter (fun l => l != level) }
    else { w with openLevels := w.openLevels ++ [level] }
  saveStrategyConfig r w

/-- The method `toggleCloseLevel(level, button)`. -/
def toggleCloseLevel (level : String) (r : Fetch CommandData) (w : World) : World :=
  let w :=
    if w.closeLevels.elem level then
      { w with closeLevels := w.closeLevels.filter (fun l => l != level) }
    else { w with closeLevels := w.closeLevels ++ [level] }
  saveStrategyConfig r w

/-- The method `toggleRebalance()`. -/
def toggleRebalance (r : Fetch CommandData) (w : World) : World :=
  let w := { w with rebalanceActive := !w.rebalanceActive }
  let w := fetch "/api/toggle_rebalance" w
  let body : Res :=
    match r with
    | .response true (some data) =>
      let w := { w with rebalanceActive := data.rebalance_enabled }
      (setTextStrict "rebalance-status" (if data.rebalance_enabled then "ACTIVE" else "Auto 20/80")
        w).andThen fun w =>
      (touchStrict "rebalance-indicator" w).andThen fun w =>
        .ok (showNotification "success"
          ("Balance rebalance " ++ (if data.rebalance_enabled then "ENABLED" else "DISABLED")
            ++ ". Maintains 20% futures / 80% spot.") w)
    | .response false (some data) =>
      let w := { w with rebalanceActive := !w.rebalanceActive }
      .ok (showNotification "error" (orElse data.error "Failed to toggle rebalance") w)
    | _ => .threw w
  match body with
  | .ok w => w
  | .threw w =>
    showNotification "error" "Error toggling rebalance"
      { w with rebalanceActive := !w.rebalanceActive }

/-- The user commands of the dashboard. -/
inductive Command where
  | startBot
  | stopBot
  | openLong
  | openShort
  | closePosition
  | deleteLastTrade
  | resetBalance
  | setLeverage (leverage : String)
  | toggleOpenLevel (level : String)
  | toggleCloseLevel (level : String)
  | toggleRebalance
  deriving DecidableEq, Repr

/-- The handler bound to each command in `bindEvents`. -/
def Command.run : Command → Fetch CommandData → World → World
  | .startBot => TradingDashboard.startBot
  | .stopBot => TradingDashboard.stopBot
  | .openLong => TradingDashboard.openLong
  | .openShort => TradingDashboard.openShort
  | .closePosition => TradingDashboard.closePosition
  | .deleteLastTrade => TradingDashboard.deleteLastTrade
  | .resetBalance => TradingDashboard.resetBalance
  | .setLeverage leverage => TradingDashboard.setLeverage leverage
  | .toggleOpenLevel level => TradingDashboard.toggleOpenLevel level
  | .toggleCloseLevel level => TradingDashboard.toggleCloseLevel level
  | .toggleRebalance => TradingDashboard.toggleRebalance

/-- The endpoint a command posts to. -/
def Command.url : Command → String
  | .startBot => "/api/start_bot"
  | .stopBot => "/api/stop_bot"
  | .openLong => "/api/open_long"
  | .openShort => "/api/open_short"
  | .closePosition => "/api/close_position"
  | .deleteLastTrade => "/api/delete_last_trade"
  | .resetBalance => "/api/reset_balance"
  | .setLeverage _ => "/api/set_leverage"
  | .toggleOpenLevel _ => "/api/set_strategy_config"
  | .toggleCloseLevel _ => "/api/set_strategy_config"
  | .toggleRebalance => "/api/toggle_rebalance"

/-- A failed exchange: the request rejects, the response is not 2xx, or its body
cannot be read. -/
def Fetch.failed {α : Type} : Fetch α → Bool
  | .response true (some _) => false
  | _ => true

/-- The update of `allMatch` and `matchDirection` made by one pass of the
`forEach` callback when both badge elements exist, as a function of
`directions[tf]`. -/
def sarAccStep (direction : Option String) (acc : SarAcc) : SarAcc :=
  if direction = some "long" then
    if acc.matchDirection = none then { acc with matchDirection := some "long" }
    else if acc.matchDirection ≠ some "long" then { acc with allMatch := false }
    else acc
  else if direction = some "short" then
    if acc.matchDirection = none then { acc with matchDirection := some "short" }
    else if acc.matchDirection ≠ some "short" then { acc with allMatch := false }
    else acc
  else { acc with allMatch := false }

/-- The periodic tasks that poll the service: `updateDashboard`, `updateChart`,
`updateTopGainers` and `updateOnlineUsers`. -/
def TimerTask.polls : TimerTask → Bool
  | .updateDashboard => true
  | .updateChart => true
  | .updateTopGainers => true
  | .updateOnlineUsers => true
  | _ => false

/-- The commands whose failures `saveStrategyConfig` handles. -/
def Command.isLevelToggle : Command → Bool
  | .toggleOpenLevel _ => true
  | .toggleCloseLevel _ => true
  | _ => false

/-! ## Page load, the symbol poll, the chart and the leaderboard -/

/-- The JSON body of `GET /api/get_trading_mode`. -/
structure ModeData where
  mode : Option String := none
  deriving DecidableEq, Repr

/-- The item `gateio_api_data` of `localStorage` as `checkSavedAPIConnection`
reads it: no item, an item that `JSON.parse` rejects, or an object with its
`connected` flag. -/
inductive SavedItem where
  | absent
  | unreadable
  | data (connected : Bool)
  deriving DecidableEq, Repr

/-- The method `showAPIConnectedIndicator()`: the flag is set first, then the
indicator and its text are written without a null check.  The `disabled`,
`style` and `title` of the null-checked buttons are not tracked. -/
def showAPIConnectedIndicator (w : World) : Res :=
  let w := { w with apiConnected := true }
  (touchStrict "api-status-indicator" w).andThen fun w =>
  setTextStrict "api-status-text" "Connected" w

/-- The method `checkSavedAPIConnection()` run from its call to its end, with
the outcome of the trading-mode request, the saved item and the outcome of the
status request.  `enableDEMOButtons()` changes only untracked button attributes;
the status response is read for `balance` alone, whose rendering is not
tracked. -/
def checkSavedAPIConnection (modeResponse : Fetch ModeData) (saved : SavedItem)
    (_status : Fetch Status) (w : World) : World :=
  let w := fetch "/api/get_trading_mode" w
  let currentMode :=
    match modeResponse with
    | .response true (some modeData) => orElse modeData.mode "demo"
    | _ => "demo"
  if currentMode = "demo" then w
  else
    match saved with
    | .data true =>
      match showAPIConnectedIndicator w with
      | .ok w => fetch "/api/status" w
      | .threw w => w
    | _ => w

/-- The JSON body of `GET /api/current_trading_symbol`. -/
structure SymbolData where
  symbol : Option String := none
  deriving DecidableEq, Repr

/-- The script-level function `updateCurrentSymbol()`, polled every 15 s. -/
def updateCurrentSymbol (r : Fetch SymbolData) (w : World) : World :=
  let w := fetch "/api/current_trading_symbol" w
  match r with
  | .response true (some data) =>
    let symbol := orElse data.symbol "TOP1/USDT"
    setText "chart-symbol" symbol (setText "header-symbol" symbol w)
  | _ => w

/-- One candle of a `chart_data` response. -/
structure Candle where
  open_ : Option Int := none
  high : Option Int := none
  low : Option Int := none
  close : Option Int := none
  deriving DecidableEq, Repr

/-- One entry of `sar_points`. -/
structure SarPoint where
  value : Option Int := none
  trend : Option String := none
  color : Option String := none
  deriving DecidableEq, Repr

/-- The JSON body of `GET /api/chart_data`. -/
structure ChartData where
  candles : Option (List Candle) := none
  sar_points : Option (List SarPoint) := none
  deriving DecidableEq, Repr

/-- An element of the array `candles` that `updateChart` builds. -/
structure ChartCandle where
  time : Int
  candle : Candle
  deriving DecidableEq, Repr

/-- An element of the array `sarData`. -/
structure SarDatum where
  time : Int
  value : Option Int
  deriving DecidableEq, Repr

/-- An element of the array `markers`. -/
structure Marker where
  time : Int
  position : String
  color : Option String
  deriving DecidableEq, Repr

/-- The chart objects of the dashboard: whether the two series exist, what was
last passed to `setData` and `setMarkers`, the calls of `fitContent`, and the
`Chart update error` lines logged by the `catch`. -/
structure Chart where
  candlestickSeries : Bool := true
  sarSeries : Bool := true
  chartManuallyAdjusted : Bool := false
  candleData : List ChartCandle := []
  sarData : List SarDatum := []
  markers : List Marker := []
  fitContentCalls : Nat := 0
  errorsLogged : Nat := 0
  deriving DecidableEq, Repr

/-- The array `candles` of `updateChart`: candle `idx` gets the time
`Math.floor(Date.now() / 1000) - (data.candles.length - idx) * 60`. -/
def chartCandles (nowSeconds : Int) (candles : List Candle) : List ChartCandle :=
  candles.enum.map fun entry =>
    { time := nowSeconds - ((candles.length : Int) - (entry.1 : Int)) * 60, candle := entry.2 }

/-- The expression `data.sar_points.map((point, idx) => ..)`, whose callback
reads `candles[idx].time`, from index `idx` on: `none` when `candles[idx]` is `undefined` for some point,
where reading `.time` raises a `TypeError`. -/
def sarMarkers (candles : List ChartCandle) : Nat → List SarPoint → Option (List Marker)
  | _, [] => some []
  | idx, point :: rest =>
    match candles[idx]? with
    | none => none
    | some candle =>
      (sarMarkers candles (idx + 1) rest).map fun markers =>
        { time := candle.time,
          position := if point.trend = some "up" then "belowBar" else "aboveBar",
          color := point.color } :: markers

/-- The expression `data.sar_points.filter((point, idx) => idx < candles.length)
.map((point, idx) => ..)`: the filter keeps the first `candles.length` points,
so every kept point has its candle. -/
def sarSeriesData (candles : List ChartCandle) (sar_points : List SarPoint) : List SarDatum :=
  List.zipWith (fun point candle => { time := candle.time, value := point.value })
    (sar_points.take candles.length) candles

/-- The end of the `try` block of `updateChart`. -/
def fitContent (c : Chart) : Chart :=
  if !c.chartManuallyAdjusted then { c with fitContentCalls := c.fitContentCalls + 1 } else c

/-- The method `updateChart()` from the response of its request to its end. -/
def updateChartResponse (now : Nat) (r : Fetch ChartData) (c : Chart) : Chart :=
  match r with
  | .networkError => { c with errorsLogged := c.errorsLogged + 1 }
  | .response false _ => c
  | .response true none => { c with errorsLogged := c.errorsLogged + 1 }
  | .response true (some data) =>
    match data.candles with
    | none => c
    | some [] => c
    | some (first :: more) =>
      if !c.candlestickSeries then c
      else
        let candles := chartCandles ((now : Int) / 1000) (first :: more)
        let c := { c with candleData := candles }
        match data.sar_points with
        | some (point :: points) =>
          if c.sarSeries then
            let sarData := sarSeriesData candles (point :: points)
            let c := if sarData.length > 0 then { c with sarData := sarData } else c
            match sarMarkers candles 0 (point :: points) with
            | some markers => fitContent { c with markers := markers }
            | none => { c with errorsLogged := c.errorsLogged + 1 }
          else fitContent c
        | _ => fitContent c

/-- The rows `updateTopGainers()` renders into `top-gainers-list` for a
response: each coin with whether its row carries `pair-locked`; `none` when no
row is rendered (no data, the loading placeholder, or an exception: a coin
without `change`, a missing container). -/
def updateTopGainersRows (r : Fetch GainersData) (w : World) : Option (List (Gainer × Bool)) :=
  match r with
  | .response _ (some data) =>
    match data.gainers with
    | some (coin :: coins) =>
      let lockedSymbol :=
        match w.lastPosition with
        | some position => if truthy position.symbol then position.symbol else none
        | none => none
      if (coin :: coins).all (fun coin => coin.change.isSome)
          && (w.page "top-gainers-list").isSome then
        some ((coin :: coins).map fun coin =>
          (coin, lockedSymbol.isSome && coin.symbol == lockedSymbol))
      else none
    | _ => none
  | _ => none

/-- The active timers that run the once-per-second position clock. -/
def positionTimers (w : World) : List Timer :=
  w.timers.filter fun t => t.task = .updatePositionTimer

/-- The active timers that invoke `updateDashboard`. -/
def statusPollTimers (w : World) : List Timer :=
  w.timers.filter fun t => t.task = .updateDashboard

/-- The states reached from a dashboard without position clock through
`updatePosition`, `startPositionTimer` and `clearPosition`. -/
inductive PanelReachable : World → Prop where
  | start (w : World) (h1 : w.positionTimerInterval = none) (h2 : positionTimers w = []) :
      PanelReachable w
  | updatePosition (position : Position) (data : Status) (w : World) :
      PanelReachable w → PanelReachable (updatePosition position data w).world
  | startPositionTimer (w : World) : PanelReachable w → PanelReachable (startPositionTimer w)
  | clearPosition (w : World) : PanelReachable w → PanelReachable (clearPosition w)

/-- The stored handle is the handle of the one position clock, if any. -/
def PanelInv (w : World) : Prop :=
  match w.positionTimerInterval with
  | none => positionTimers w = []
  | some id => ∃ t, positionTimers w = [t] ∧ t.id = id

/-- What `updateSARDirections` writes to `signal-status` for the final values of
`allMatch` and `matchDirection`. -/
def sarSignal (acc : SarAcc) : String :=
  if acc.allMatch && truthy acc.matchDirection then
    if acc.matchDirection = some "long" then "LONG SIGNAL" else "SHORT SIGNAL"
  else "NO SIGNAL"

/-! ## Sample inputs -/

/-- A freshly constructed dashboard on a page that has every element. -/
def sampleWorld : World := { page := fun _ => some "" }

/-- A leaderboard answer whose top pair is `AAA`. -/
def sampleGainers : Fetch GainersData :=
  .response true (some { gainers := some [{ symbol := some "AAA_USDT", price := some 3 }] })

/-- A snapshot that opens a long position on `BBB`. -/
def sampleOpen : Status :=
  { in_position := true, position := some { symbol := some "BBB_USDT", side := some "long" } }

/-- A later snapshot of an open position, now carrying the symbol `DDD`. -/
def sampleHold : Status :=
  { in_position := true, position := some { symbol := some "DDD_USDT", side := some "long" } }

/-- A snapshot without a position. -/
def sampleFlat : Status := { in_position := false }

/-- A directions map on which all six timeframes agree on `'long'`. -/
def sampleDirections : List (String × String) :=
  [("1m", "long"), ("5m", "long"), ("15m", "long"), ("30m", "long"), ("1h", "long"),
   ("60m", "long")]

/-- A rejected command: a non-2xx response with an error text. -/
def sampleRejected : Fetch CommandData :=
  .response false (some { error := some "rejected" })

/-- The sample dashboard with the two mode buttons, `demo` active. -/
def sampleModes : World :=
  { page := fun _ => some "", modeButtons := [("demo", true), ("real", false)] }

/-- A snapshot of position `A` on `BBB`, opened at server time 1000. -/
def samplePositionA : Status :=
  { in_position := true,
    position := some { id := some "A", symbol := some "BBB_USDT", side := some "long",
                       open_timestamp := some 1000 } }

/-- A snapshot of another position, `B` on `DDD`, that carries no timestamp. -/
def samplePositionB : Status :=
  { in_position := true,
    position := some { id := some "B", symbol := some "DDD_USDT", side := some "long" } }

/-- A snapshot that reports a position but carries no position object. -/
def sampleNoObject : Status := { in_position := true, position := none }

/-- A long position without `unrealized_pnl`: entry 10, size 2. -/
def samplePnlPosition : Position :=
  { symbol := some "BBB_USDT", side := some "long", entry_price := some 10, size := some 2 }

/-- The dashboard after the page load and the completion of its first run, on a
snapshot without position. -/
def sampleLoaded : World :=
  (updateDashboardStatus (.response true (some sampleFlat))
    (updateDashboardGainers sampleGainers (pageLoad sampleWorld))).world

/-- A leaderboard answer that lists `BBB_USDT` and `AAA_USDT`. -/
def sampleLeaderboard : Fetch GainersData :=
  .response true (some { gainers := some (
    [{ symbol := some "BBB_USDT", price := some 2, change := some 5 },
     { symbol := some "AAA_USDT", price := some 3, change := some 1 }]) })

/-- A chart answer with one candle and two SAR points. -/
def sampleChartData : Fetch ChartData :=
  .response true (some { candles := some [{ close := some 10 }],
                         sar_points := some [{ value := some 9 }, { value := some 8 }] })

/-- A page that has the signal element and the badge of `1m` only. -/
def sampleNarrowPage : World :=
  { page := fun id =>
      if id = "signal-status" ∨ id = "sar-1m" ∨ id = "sar-1m-container" then some "" else none }

/-- The symbol lock is held on `L`: the flag is set, `lockedSymbol` is `L`, and
the element `symbol-display`, when the page has it, shows `L`. -/
def LockHolds (L : String) (w : World) : Prop :=
  w.positionSymbolLocked = true ∧ w.lockedSymbol = some L ∧
  ∀ text, w.page "symbol-display" = some text → text = L

/-- The lock fields and the text of `symbol-display` are the same in the two
worlds. -/
def LockSame (w w' : World) : Prop :=
  w'.positionSymbolLocked = w.positionSymbolLocked ∧ w'.lockedSymbol = w.lockedSymbol ∧
  w'.page "symbol-display" = w.page "symbol-display"

/-- The position clock fields and the active timers are the same in the two
worlds. -/
def TimerSame (w w' : World) : Prop :=
  w'.positionTimerInterval = w.positionTimerInterval ∧
  w'.positionStartTime = w.positionStartTime ∧
  w'.lastPositionId = w.lastPositionId ∧ w'.timers = w.timers

/-! ## Basic facts -/

section Basics

@[simp] theorem setText_page_self (id text : String) (w : World) :
    (setText id text w).page id = (w.page id).map (fun _ => text) := by
  simp [setText]

theorem setText_page_ne (id text : String) (w : World) (j : String) (h : j ≠ id) :
    (setText id text w).page j = w.page j := by
  simp [setText, h]

theorem setText_isSome (id text : String) (w : World) (j : String) :
    ((setText id text w).page j).isSome = (w.page j).isSome := by
  unfold setText
  by_cases h : j = id
  · simp [h]
  · simp [h]

theorem sarStep_isSome (directions : List (String × String)) (st : SarAcc × World)
    (tf j : String) :
    ((sarStep directions st tf).2.page j).isSome = (st.2.page j).isSome := by
  unfold sarStep
  simp only
  split_ifs <;> simp [setText_isSome]

theorem sarStep_fst (directions : List (String × String)) (st : SarAcc × World) (tf : String)
    (h1 : (st.2.page ("sar-" ++ tf)).isSome = true)
    (h2 : (st.2.page ("sar-" ++ tf ++ "-container")).isSome = true) :
    (sarStep directions st tf).1 = sarAccStep (directions.lookup tf) st.1 := by
  unfold sarStep sarAccStep
  simp only [h1, h2, Bool.and_self, if_true]
  split_ifs <;> rfl

theorem sarFold_isSome (directions : List (String × String)) (l : List String) :
    ∀ (st : SarAcc × World) (j : String),
      ((l.foldl (sarStep directions) st).2.page j).isSome = (st.2.page j).isSome := by
  induction l with
  | nil => intro st j; rfl
  | cons tf rest ih =>
    intro st j
    rw [List.foldl_cons, ih, sarStep_isSome]

theorem sarFold_fst (directions : List (String × String)) (l : List String) :
    ∀ (st : SarAcc × World),
      (∀ tf ∈ l, (st.2.page ("sar-" ++ tf)).isSome = true ∧
        (st.2.page ("sar-" ++ tf ++ "-container")).isSome = true) →
      (l.foldl (sarStep directions) st).1 =
        l.foldl (fun acc tf => sarAccStep (directions.lookup tf) acc) st.1 := by
  induction l with
  | nil => intro st _; rfl
  | cons tf rest ih =>
    intro st h
    rw [List.foldl_cons, List.foldl_cons, ih]
    · rw [sarStep_fst directions st tf (h tf (List.mem_cons_self _ _)).1
        (h tf (List.mem_cons_self _ _)).2]
    · intro tf2 h2
      rw [sarStep_isSome, sarStep_isSome]
      exact h tf2 (List.mem_cons_of_mem _ h2)

theorem sarAccFold_allMatch_false (directions : List (String × String)) (l : List String) :
    ∀ (acc : SarAcc), acc.allMatch = false →
      (l.foldl (fun acc tf => sarAccStep (directions.lookup tf) acc) acc).allMatch = false := by
  induction l with
  | nil => intro acc h; exact h
  | cons tf rest ih =>
    intro acc h
    rw [List.foldl_cons]
    apply ih
    unfold sarAccStep
    split_ifs <;> simp [h]

/-- What the fold of `sarAccStep` ends in, for `D` one of the two directions. -/
theorem sarAccFold_iff (directions : List (String × String)) (D : String)
    (hD : D = "long" ∨ D = "short") (l : List String) :
    ∀ (acc : SarAcc),
      (let fin := l.foldl (fun acc tf => sarAccStep (directions.lookup tf) acc) acc
       (fin.allMatch = true ∧ fin.matchDirection = some D) ↔
        (acc.allMatch = true ∧ (∀ tf ∈ l, directions.lookup tf = some D) ∧
          (acc.matchDirection = some D ∨ (acc.matchDirection = none ∧ l ≠ [])))) := by
  induction l with
  | nil => intro acc; simp
  | cons tf rest ih =>
    intro acc
    simp only [List.foldl_cons]
    have := ih (sarAccStep (directions.lookup tf) acc)
    simp only at this
    rw [this]
    unfold sarAccStep
    rcases hD with rfl | rfl
    · split_ifs with h1 h2 h3 h4 h5 h6 <;> simp_all
    · split_ifs with h1 h2 h3 h4 h5 h6 <;> simp_all

theorem sarAccFold_matchDirection (directions : List (String × String)) (l : List String) :
    ∀ (acc : SarAcc),
      (acc.matchDirection = none ∨ acc.matchDirection = some "long" ∨
        acc.matchDirection = some "short") →
      ((l.foldl (fun acc tf => sarAccStep (directions.lookup tf) acc) acc).matchDirection = none ∨
       (l.foldl (fun acc tf => sarAccStep (directions.lookup tf) acc) acc).matchDirection
          = some "long" ∨
       (l.foldl (fun acc tf => sarAccStep (directions.lookup tf) acc) acc).matchDirection
          = some "short") := by
  induction l with
  | nil => intro acc h; exact h
  | cons tf rest ih =>
    intro acc h
    rw [List.foldl_cons]
    apply ih
    unfold sarAccStep
    split_ifs <;> simp_all

end Basics

section Frames

theorem LockSame.lockRefl (w : World) : LockSame w w := ⟨rfl, rfl, rfl⟩

theorem LockSame.lockTrans {a b c : World} (h1 : LockSame a b) (h2 : LockSame b c) : LockSame a c :=
  ⟨h2.1.trans h1.1, h2.2.1.trans h1.2.1, h2.2.2.trans h1.2.2⟩

theorem LockSame.holds {L : String} {w w' : World} (h : LockSame w w') (hw : LockHolds L w) :
    LockHolds L w' := by
  obtain ⟨h1, h2, h3⟩ := h
  obtain ⟨a, b, c⟩ := hw
  exact ⟨h1.trans a, h2.trans b, fun t ht => c t (h3 ▸ ht)⟩

theorem LockSame.free {w w' : World} (h : LockSame w w') (hw : w.positionSymbolLocked = false) :
    w'.positionSymbolLocked = false := h.1.trans hw

/-- A property kept by a result and by what follows is kept by the sequence. -/
theorem Res.andThen_world (P : World → Prop) (r : Res) (f : World → Res)
    (hr : P r.world) (hf : ∀ w, r = .ok w → P (f w).world) : P (r.andThen f).world := by
  cases r with
  | ok w => exact hf w rfl
  | threw w => exact hr

theorem sarStep_field {α : Type} (g : World → α) (hg : ∀ w p, g { w with page := p } = g w)
    (directions : List (String × String)) (st : SarAcc × World) (tf : String) :
    g (sarStep directions st tf).2 = g st.2 := by
  unfold sarStep setText
  simp only
  split_ifs <;> first | rfl | exact hg _ _

theorem sarFold_field {α : Type} (g : World → α) (hg : ∀ w p, g { w with page := p } = g w)
    (directions : List (String × String)) (l : List String) :
    ∀ st : SarAcc × World, g (l.foldl (sarStep directions) st).2 = g st.2 := by
  induction l with
  | nil => intro st; rfl
  | cons tf rest ih => intro st; rw [List.foldl_cons, ih, sarStep_field g hg]

theorem updateSARDirections_field {α : Type} (g : World → α)
    (hg : ∀ w p, g { w with page := p } = g w) (directions : List (String × String))
    (w : World) : g (updateSARDirections directions w) = g w := by
  unfold updateSARDirections setText
  simp only
  split_ifs <;> (rw [hg]; exact sarFold_field g hg directions timeframes _)

theorem sarStep_page (directions : List (String × String)) (st : SarAcc × World)
    (tf j : String) (h : j ≠ "sar-" ++ tf) :
    (sarStep directions st tf).2.page j = st.2.page j := by
  unfold sarStep
  simp only
  split_ifs <;> first | rfl | exact setText_page_ne _ _ _ _ h

theorem sarFold_page (directions : List (String × String)) (j : String) (l : List String) :
    ∀ st : SarAcc × World, (∀ tf ∈ l, j ≠ "sar-" ++ tf) →
      (l.foldl (sarStep directions) st).2.page j = st.2.page j := by
  induction l with
  | nil => intro st _; rfl
  | cons tf rest ih =>
    intro st h
    rw [List.foldl_cons, ih _ (fun tf2 h2 => h tf2 (List.mem_cons_of_mem _ h2)),
      sarStep_page _ _ _ _ (h tf (List.mem_cons_self _ _))]

theorem updateSARDirections_page (directions : List (String × String)) (w : World) (j : String)
    (h1 : ∀ tf ∈ timeframes, j ≠ "sar-" ++ tf) (h2 : j ≠ "signal-status") :
    (updateSARDirections directions w).page j = w.page j := by
  unfold updateSARDirections
  simp only
  split_ifs <;> (rw [setText_page_ne _ _ _ _ h2]; exact sarFold_page directions j timeframes _ h1)

theorem updateSARDirections_lockSame (directions : List (String × String)) (w : World) :
    LockSame w (updateSARDirections directions w) :=
  ⟨updateSARDirections_field (fun w => w.positionSymbolLocked) (fun _ _ => rfl) directions w,
   updateSARDirections_field (fun w => w.lockedSymbol) (fun _ _ => rfl) directions w,
   updateSARDirections_page directions w "symbol-display" (by decide) (by decide)⟩

theorem setText_lockSame (id text : String) (w : World) (h : "symbol-display" ≠ id) :
    LockSame w (setText id text w) :=
  ⟨rfl, rfl, setText_page_ne _ _ _ _ h⟩

theorem setTextStrict_lockSame (id text : String) (w : World) (h : "symbol-display" ≠ id) :
    LockSame w (setTextStrict id text w).world := by
  unfold setTextStrict
  split
  · exact LockSame.lockRefl w
  · exact setText_lockSame id text w h

theorem touchStrict_world (id : String) (w : World) : (touchStrict id w).world = w := by
  unfold touchStrict
  split <;> rfl

theorem statusSync_lockSame (data : Status) (w : World) : LockSame w (statusSync data w) := by
  unfold statusSync updateModeButtons
  refine ⟨?_, ?_, ?_⟩ <;> (simp only; repeat' split) <;> rfl

theorem statusBadges_lockSame (data : Status) (w : World) :
    LockSame w (statusBadges data w).world := by
  unfold statusBadges
  apply Res.andThen_world (LockSame w)
  · exact setTextStrict_lockSame _ _ _ (by decide)
  · intro w1 h1
    have e1 : LockSame w w1 := by
      have := setTextStrict_lockSame "bot-status"
        (if data.bot_running then "RUNNING" else "STOPPED") w (by decide)
      rw [h1] at this
      exact this
    apply Res.andThen_world (LockSame w)
    · rw [touchStrict_world]; exact e1
    · intro w2 h2
      have e2 : w2 = w1 := by rw [← touchStrict_world "balance" w1, h2]; rfl
      subst e2
      apply Res.andThen_world (LockSame w)
      · rw [touchStrict_world]; exact e1
      · intro w3 h3
        have e3 : w3 = w2 := by rw [← touchStrict_world "available" w2, h3]; rfl
        subst e3
        split
        · exact e1.lockTrans (updateSARDirections_lockSame _ _)
        · exact e1

theorem updatePositionTimer_lockSame (w : World) : LockSame w (updatePositionTimer w) := by
  unfold updatePositionTimer
  split
  · exact setText_lockSame _ _ _ (by decide)
  · exact LockSame.lockRefl w

theorem startPositionTimer_lockSame (w : World) : LockSame w (startPositionTimer w) := by
  unfold startPositionTimer setInterval clearInterval
  refine ⟨?_, ?_, ?_⟩ <;> (simp only; split) <;> rfl

theorem clearPosition_lockSame (w : World) : LockSame w (clearPosition w) := by
  unfold clearPosition clearInterval
  refine ⟨?_, ?_, ?_⟩ <;> (simp only; split) <;> rfl

theorem updatePositionTime_lockSame (position : Position) (w : World) :
    LockSame w (updatePositionTime position w) := by
  unfold updatePositionTime
  simp only
  have key : ∀ w1 : World, LockSame w w1 →
      LockSame w (match w1.positionStartTime with
        | some _ =>
          if (updatePositionTimer w1).positionTimerInterval.isNone = true
          then startPositionTimer (updatePositionTimer w1) else updatePositionTimer w1
        | none => setText "pos-time" "N/A" w1) := by
    intro w1 h1
    split
    · split_ifs
      · exact (h1.lockTrans (updatePositionTimer_lockSame w1)).lockTrans (startPositionTimer_lockSame _)
      · exact h1.lockTrans (updatePositionTimer_lockSame w1)
    · exact h1.lockTrans (setText_lockSame _ _ _ (by decide))
  apply key
  split_ifs
  · exact ⟨rfl, rfl, rfl⟩
  · split
    · split_ifs <;> exact ⟨rfl, rfl, rfl⟩
    · exact LockSame.lockRefl w

theorem updatePosition_lockSame (position : Position) (data : Status) (w : World) :
    LockSame w (updatePosition position data w).world := by
  unfold updatePosition
  simp only
  have e0 : LockSame w (setText "pos-symbol"
      (orElse position.symbol (orElse (some w.currentSymbol) "UNKNOWN"))
      { w with lastPosition := some position }) :=
    LockSame.lockTrans (b := { w with lastPosition := some position }) ⟨rfl, rfl, rfl⟩
      (setText_lockSame _ _ _ (by decide))
  apply Res.andThen_world (LockSame w)
  · split
    · exact e0.lockTrans (setText_lockSame _ _ _ (by decide))
    · exact e0
    · exact e0
  · intro w1 h1
    have e1 : LockSame w w1 := by
      split at h1
      · cases h1; exact e0.lockTrans (setText_lockSame _ _ _ (by decide))
      · cases h1
      · cases h1; exact e0
    show LockSame w (match (setText "pos-size" _ w1).page "pos-time" with
      | some _ => updatePositionTime position (setText "pos-size" _ w1)
      | none => setText "pos-size" _ w1)
    have e2 := e1.lockTrans (setText_lockSame "pos-size"
      (orElse data.top1_display (orElse position.top1_display "N/A")) w1 (by decide))
    split
    · exact e2.lockTrans (updatePositionTime_lockSame _ _)
    · exact e2

theorem arrayContents_spreadReverse (trades : Nat) (store : TradeArrays) :
    arrayContents (spreadReverse trades store).1 (spreadReverse trades store).2
      = (arrayContents trades store).reverse := by
  simp [spreadReverse, arraySpread, arrayReverse, arrayContents, List.getD_eq_getElem?_getD]

theorem arrayContents_spreadReverse_kept (trades : Nat) (store : TradeArrays) (r : Nat)
    (h : r < store.length) :
    arrayContents r (spreadReverse trades store).2 = arrayContents r store := by
  have hne : store.length ≠ r := by omega
  simp [spreadReverse, arraySpread, arrayReverse, arrayContents, List.getD_eq_getElem?_getD,
    List.getElem?_set_ne hne, List.getElem?_append_left h]

/-- What `updateTrades` does to the dashboard, in terms of the contents of the
received array. -/
theorem updateTrades_fst (trades : Nat) (store : TradeArrays) (w : World) :
    (updateTrades trades store w).1 =
      match w.page "trades-container" with
      | none => .ok w
      | some _ =>
        if (arrayContents trades store).length = 0 then .ok { w with tradeItems := [] }
        else if (arrayContents trades store).reverse.all (fun trade => trade.side.isSome) then
          .ok { w with tradeItems := (arrayContents trades store).reverse }
        else .threw w := by
  unfold updateTrades
  simp only [arrayContents_spreadReverse]
  split
  · rfl
  · split_ifs <;> rfl

theorem updateTrades_lockSame (trades : Nat) (store : TradeArrays) (w : World) :
    LockSame w (updateTrades trades store w).1.world := by
  rw [updateTrades_fst]
  split
  · exact LockSame.lockRefl w
  · split_ifs <;> exact ⟨rfl, rfl, rfl⟩

theorem statusTrades_lockSame (data : Status) (w : World) :
    LockSame w (statusTrades data w).world := by
  unfold statusTrades
  simp only
  apply Res.andThen_world (LockSame w)
  · split
    · exact updateTrades_lockSame _ _ _
    · exact LockSame.lockRefl w
  · intro w1 h1
    have e1 : LockSame w w1 := by
      split at h1
      · have h2 : (updateTrades 0 _ w).1.world = w1 := congrArg Res.world h1
        rw [← h2]
        exact updateTrades_lockSame _ _ _
      · cases h1; exact LockSame.lockRefl w
    exact e1.lockTrans ⟨rfl, rfl, rfl⟩

/-- An invariant of a result that what follows keeps is kept by the sequence. -/
theorem Res.andThen_inv (P : World → Prop) (r : Res) (f : World → Res)
    (hr : P r.world) (hf : ∀ w, P w → P (f w).world) : P (r.andThen f).world := by
  cases r with
  | ok w => exact hf w hr
  | threw w => exact hr

theorem lockSymbol_holds (L : String) (position : Position) (w : World) (h : LockHolds L w) :
    LockHolds L (lockSymbol position w) := by
  obtain ⟨h1, h2, h3⟩ := h
  unfold lockSymbol
  simp only [h1, Bool.not_true, Bool.false_eq_true, if_false, h2, Option.getD_some]
  split
  · split_ifs
    · refine ⟨h1, h2, ?_⟩
      intro t ht
      rw [setText_page_ne _ _ _ _ (by decide), setText_page_self] at ht
      cases hp : w.page "symbol-display" with
      | none => rw [hp] at ht; cases ht
      | some t0 => rw [hp] at ht; simp at ht; exact ht.symm
    · exact ⟨h1, h2, h3⟩
  · exact ⟨h1, h2, h3⟩

theorem lockSymbol_acquires (position : Position) (symbol : String) (w : World)
    (hs : position.symbol = some symbol) (hne : symbol ≠ "")
    (h : w.positionSymbolLocked = false) :
    LockHolds (splitFirst '_' symbol) (lockSymbol position w) := by
  unfold lockSymbol
  rw [hs]
  simp only [bne_iff_ne, ne_eq, hne, not_false_eq_true, if_true, h, Bool.not_false,
    Option.getD_some]
  refine ⟨rfl, rfl, ?_⟩
  intro t ht
  rw [setText_page_ne _ _ _ _ (by decide), setText_page_self] at ht
  simp only at ht
  cases hp : w.page "symbol-display" with
  | none => rw [hp] at ht; cases ht
  | some t0 => rw [hp] at ht; simp at ht; exact ht.symm

theorem statusOpenPosition_pre (position : Position) (w : World) :
    LockSame w (match w.page "position-status", position.side with
      | some _, some side => Res.ok (setText "position-status" (toUpperCase side) w)
      | _, _ => Res.threw w).world := by
  split
  · exact setText_lockSame _ _ _ (by decide)
  · exact LockSame.lockRefl w

theorem statusOpenPosition_holds (L : String) (position : Position) (data : Status) (w : World)
    (h : LockHolds L w) : LockHolds L (statusOpenPosition position data w).world := by
  unfold statusOpenPosition
  simp only
  apply Res.andThen_inv (LockHolds L)
  · exact (statusOpenPosition_pre position w).holds h
  · intro w1 h1
    exact (updatePosition_lockSame _ _ _).holds (lockSymbol_holds L position w1 h1)

theorem statusOpenPosition_acquires (position : Position) (symbol : String) (data : Status)
    (w : World) (hs : position.symbol = some symbol) (hne : symbol ≠ "")
    (h : w.positionSymbolLocked = false ∨ LockHolds (splitFirst '_' symbol) w) :
    (statusOpenPosition position data w).world.positionSymbolLocked = false ∨
      LockHolds (splitFirst '_' symbol) (statusOpenPosition position data w).world := by
  rcases h with h | h
  · unfold statusOpenPosition
    simp only
    have hpre := statusOpenPosition_pre position w
    revert hpre
    generalize (match w.page "position-status", position.side with
      | some _, some side => Res.ok (setText "position-status" (toUpperCase side) w)
      | _, _ => Res.threw w) = r
    intro hpre
    cases r with
    | threw w1 => left; exact hpre.free h
    | ok w1 =>
      right
      exact (updatePosition_lockSame _ _ _).holds
        (lockSymbol_acquires position symbol w1 hs hne (hpre.free h))
  · right; exact statusOpenPosition_holds _ position data w h

theorem updateDashboardGainers_locked (gainers : Fetch GainersData) (w : World)
    (h : w.positionSymbolLocked = true) : LockSame w (updateDashboardGainers gainers w) := by
  unfold updateDashboardGainers
  have key : ∀ w1, LockSame w w1 → LockSame w (fetch "/api/status" w1) :=
    fun w1 h1 => h1.lockTrans ⟨rfl, rfl, rfl⟩
  apply key
  split
  · split
    · simp only [h, Bool.not_true, Bool.false_eq_true, if_false]
      exact ⟨h.symm, rfl, rfl⟩
    · exact LockSame.lockRefl w
  · exact LockSame.lockRefl w

theorem updateDashboardGainers_lockFields (gainers : Fetch GainersData) (w : World) :
    (updateDashboardGainers gainers w).positionSymbolLocked = w.positionSymbolLocked ∧
    (updateDashboardGainers gainers w).lockedSymbol = w.lockedSymbol := by
  unfold updateDashboardGainers fetch setText
  refine ⟨?_, ?_⟩ <;> (simp only; repeat' split) <;> rfl

/-- A property of the lock that the leaderboard segment and the position
statement keep is kept by a whole processed snapshot. -/
theorem processSnapshot_inv (P : World → Prop) (tick : Fetch GainersData × Status)
    (hP : ∀ w w', LockSame w w' → P w → P w')
    (hg : ∀ w, P w → P (updateDashboardGainers tick.1 w))
    (hpos : ∀ w, P w → P (statusPosition tick.2 w).world) (w : World) (h : P w) :
    P (processSnapshot w tick) := by
  unfold processSnapshot updateDashboard updateDashboardBegin
  split_ifs with hu
  · exact h
  · simp only
    have h1 : P (updateDashboardGainers tick.1 (fetch "/api/top_gainers"
        { w with isUpdating := true })) :=
      hg _ (hP w _ ⟨rfl, rfl, rfl⟩ h)
    revert h1
    generalize updateDashboardGainers tick.1 (fetch "/api/top_gainers"
        { w with isUpdating := true }) = w1
    intro h1
    unfold updateDashboardStatus
    simp only
    have h2 : P (applyStatus tick.2 w1).world := by
      unfold applyStatus
      apply Res.andThen_inv P
      · exact hP _ _ ((statusSync_lockSame _ _).lockTrans (statusBadges_lockSame _ _)) h1
      · intro w2 h2
        apply Res.andThen_inv P
        · exact hpos w2 h2
        · intro w3 h3
          exact hP _ _ (statusTrades_lockSame _ _) h3
    revert h2
    generalize applyStatus tick.2 w1 = r
    intro h2
    cases r with
    | ok w4 => exact hP w4 _ ⟨rfl, rfl, rfl⟩ h2
    | threw w4 => exact hP w4 _ ⟨rfl, rfl, rfl⟩ h2

theorem processSnapshot_holds (L : String) (tick : Fetch GainersData × Status)
    (hin : tick.2.in_position = true) (hpos : tick.2.position.isSome = true)
    (w : World) (h : LockHolds L w) : LockHolds L (processSnapshot w tick) := by
  apply processSnapshot_inv (LockHolds L) tick (fun _ _ hs hw => hs.holds hw) _ _ w h
  · intro w1 h1
    exact (updateDashboardGainers_locked _ _ h1.1).holds h1
  · intro w1 h1
    obtain ⟨position, hp⟩ := Option.isSome_iff_exists.mp hpos
    unfold statusPosition
    rw [hin, hp]
    exact statusOpenPosition_holds L position _ w1 h1

theorem processSnapshot_acquires (tick : Fetch GainersData × Status) (position : Position)
    (symbol : String) (hin : tick.2.in_position = true) (hpos : tick.2.position = some position)
    (hs : position.symbol = some symbol) (hne : symbol ≠ "") (w : World)
    (h : w.positionSymbolLocked = false ∨ LockHolds (splitFirst '_' symbol) w) :
    (processSnapshot w tick).positionSymbolLocked = false ∨
      LockHolds (splitFirst '_' symbol) (processSnapshot w tick) := by
  apply processSnapshot_inv
    (fun w => w.positionSymbolLocked = false ∨ LockHolds (splitFirst '_' symbol) w) tick _ _ _ w h
  · intro a b hab hq
    rcases hq with hq | hq
    · left; exact hab.free hq
    · right; exact hab.holds hq
  · intro w1 h1
    rcases h1 with h1 | h1
    · left; rw [(updateDashboardGainers_lockFields _ _).1]; exact h1
    · right; exact (updateDashboardGainers_locked _ _ h1.1).holds h1
  · intro w1 h1
    unfold statusPosition
    rw [hin, hpos]
    exact statusOpenPosition_acquires position symbol _ w1 hs hne h1

theorem foldl_processSnapshot_holds (L : String) (ticks : List (Fetch GainersData × Status)) :
    ∀ w : World, LockHolds L w →
      (∀ tick ∈ ticks, tick.2.in_position = true ∧ tick.2.position.isSome = true) →
      LockHolds L (ticks.foldl processSnapshot w) := by
  induction ticks with
  | nil => intro w h _; exact h
  | cons tick rest ih =>
    intro w h hall
    rw [List.foldl_cons]
    apply ih
    · exact processSnapshot_holds L tick (hall tick (List.mem_cons_self _ _)).1
        (hall tick (List.mem_cons_self _ _)).2 w h
    · intro t ht
      exact hall t (List.mem_cons_of_mem _ ht)

theorem updateDashboardGainers_isUpdating (gainers : Fetch GainersData) (w : World) :
    (updateDashboardGainers gainers w).isUpdating = w.isUpdating := by
  unfold updateDashboardGainers fetch setText
  (simp only; repeat' split) <;> rfl

theorem updateDashboardGainers_fields (gainers : Fetch GainersData) (w : World) :
    (updateDashboardGainers gainers w).apiConnected = w.apiConnected ∧
    (updateDashboardGainers gainers w).currentSymbol = w.currentSymbol ∧
    (updateDashboardGainers gainers w).lastPosition = w.lastPosition ∧
    (updateDashboardGainers gainers w).positionStartTime = w.positionStartTime ∧
    (updateDashboardGainers gainers w).positionTimerInterval = w.positionTimerInterval ∧
    (updateDashboardGainers gainers w).timers = w.timers := by
  unfold updateDashboardGainers fetch setText
  refine ⟨?_, ?_, ?_, ?_, ?_, ?_⟩ <;> (simp only; repeat' split) <;> rfl

theorem updateDashboardStatus_ok (status : Fetch Status) (w : World) :
    ∃ w', updateDashboardStatus status w = .ok w' ∧ w'.isUpdating = false := by
  unfold updateDashboardStatus
  simp only
  split
  · exact ⟨_, rfl, rfl⟩
  · exact ⟨_, rfl, rfl⟩

theorem updateDashboard_skip (gainers : Fetch GainersData) (status : Fetch Status) (w : World)
    (h : w.isUpdating = true) : updateDashboard gainers status w = .ok w := by
  unfold updateDashboard updateDashboardBegin
  simp [h]

theorem updateDashboard_run (gainers : Fetch GainersData) (status : Fetch Status) (w : World)
    (h : w.isUpdating = false) :
    updateDashboard gainers status w =
      updateDashboardStatus status (updateDashboardGainers gainers (updateDashboardBegin w).1) := by
  unfold updateDashboard updateDashboardBegin
  simp [h]

theorem TimerSame.timerRefl (w : World) : TimerSame w w := ⟨rfl, rfl, rfl, rfl⟩

theorem TimerSame.timerTrans {a b c : World} (h1 : TimerSame a b) (h2 : TimerSame b c) :
    TimerSame a c :=
  ⟨h2.1.trans h1.1, h2.2.1.trans h1.2.1, h2.2.2.1.trans h1.2.2.1, h2.2.2.2.trans h1.2.2.2⟩

theorem updateDashboardGainers_timerSame (gainers : Fetch GainersData) (w : World) :
    TimerSame w (updateDashboardGainers gainers w) := by
  unfold updateDashboardGainers fetch setText
  refine ⟨?_, ?_, ?_, ?_⟩ <;> (simp only; repeat' split) <;> rfl

theorem updateDashboardGainers_isSome (gainers : Fetch GainersData) (w : World) (j : String) :
    ((updateDashboardGainers gainers w).page j).isSome = (w.page j).isSome := by
  unfold updateDashboardGainers
  have hf : ∀ w1 : World, (fetch "/api/status" w1).page = w1.page := fun _ => rfl
  simp only [hf]
  split
  · split
    · split_ifs <;> simp only [setText_isSome]
    · rfl
  · rfl

theorem statusSync_timerSame (data : Status) (w : World) : TimerSame w (statusSync data w) := by
  unfold statusSync updateModeButtons
  refine ⟨?_, ?_, ?_, ?_⟩ <;> (simp only; repeat' split) <;> rfl

theorem statusSync_page (data : Status) (w : World) : (statusSync data w).page = w.page := by
  unfold statusSync updateModeButtons
  (simp only; repeat' split) <;> rfl

theorem updateSARDirections_isSome (directions : List (String × String)) (w : World)
    (j : String) : ((updateSARDirections directions w).page j).isSome = (w.page j).isSome := by
  unfold updateSARDirections
  simp only
  split_ifs <;> (rw [setText_isSome]; exact sarFold_isSome directions timeframes _ j)

theorem updateSARDirections_timerSame (directions : List (String × String)) (w : World) :
    TimerSame w (updateSARDirections directions w) :=
  ⟨updateSARDirections_field (fun w => w.positionTimerInterval) (fun _ _ => rfl) directions w,
   updateSARDirections_field (fun w => w.positionStartTime) (fun _ _ => rfl) directions w,
   updateSARDirections_field (fun w => w.lastPositionId) (fun _ _ => rfl) directions w,
   updateSARDirections_field (fun w => w.timers) (fun _ _ => rfl) directions w⟩

/-- With `bot-status`, `balance` and `available` in the page, the badge
statements do not raise and only rewrite texts. -/
theorem statusBadges_ok (data : Status) (w : World)
    (h1 : (w.page "bot-status").isSome = true) (h2 : (w.page "balance").isSome = true)
    (h3 : (w.page "available").isSome = true) :
    ∃ w', statusBadges data w = .ok w' ∧ LockSame w w' ∧ TimerSame w w' ∧
      ∀ j, (w'.page j).isSome = (w.page j).isSome := by
  obtain ⟨t1, ht1⟩ := Option.isSome_iff_exists.mp h1
  have h2' : ((setText "bot-status" (if data.bot_running then "RUNNING" else "STOPPED") w).page
      "balance").isSome = true := by rw [setText_isSome]; exact h2
  have h3' : ((setText "bot-status" (if data.bot_running then "RUNNING" else "STOPPED") w).page
      "available").isSome = true := by rw [setText_isSome]; exact h3
  obtain ⟨t2, ht2⟩ := Option.isSome_iff_exists.mp h2'
  obtain ⟨t3, ht3⟩ := Option.isSome_iff_exists.mp h3'
  unfold statusBadges setTextStrict touchStrict
  simp only [ht1, ht2, ht3, Res.andThen]
  have e0 : LockSame w (setText "bot-status" (if data.bot_running then "RUNNING" else "STOPPED") w)
    := setText_lockSame _ _ _ (by decide)
  split
  · exact ⟨_, rfl, e0.lockTrans (updateSARDirections_lockSame _ _),
      TimerSame.timerTrans (b := setText "bot-status" _ w) ⟨rfl, rfl, rfl, rfl⟩
        (updateSARDirections_timerSame _ _),
      fun j => by rw [updateSARDirections_isSome, setText_isSome]⟩
  · exact ⟨_, rfl, e0, ⟨rfl, rfl, rfl, rfl⟩, fun j => setText_isSome _ _ _ _⟩

theorem statusNoPosition_ok (w : World) (h : (w.page "position-status").isSome = true) :
    ∃ w', statusNoPosition w = .ok w' ∧ w'.positionSymbolLocked = false ∧
      w'.lockedSymbol = none ∧ w'.positionTimerInterval = none ∧ w'.positionStartTime = none ∧
      w'.lastPositionId = none ∧
      ∀ id, w.positionTimerInterval = some id → ∀ t ∈ w'.timers, t.id ≠ id := by
  obtain ⟨t0, ht0⟩ := Option.isSome_iff_exists.mp h
  unfold statusNoPosition setTextStrict
  simp only [ht0, Res.andThen]
  refine ⟨_, rfl, ?_⟩
  unfold clearPosition clearInterval setText
  simp only
  cases hti : w.positionTimerInterval with
  | none => simp
  | some id0 =>
    simp only [true_and]
    intro id hid t ht
    cases hid
    simp only [List.mem_filter, bne_iff_ne, ne_eq] at ht
    exact ht.2

theorem updateTrades_timerSame (trades : Nat) (store : TradeArrays) (w : World) :
    TimerSame w (updateTrades trades store w).1.world := by
  rw [updateTrades_fst]
  split
  · exact TimerSame.timerRefl w
  · split_ifs <;> exact ⟨rfl, rfl, rfl, rfl⟩

theorem statusTrades_timerSame (data : Status) (w : World) :
    TimerSame w (statusTrades data w).world := by
  unfold statusTrades
  simp only
  apply Res.andThen_world (TimerSame w)
  · split
    · exact updateTrades_timerSame _ _ _
    · exact TimerSame.timerRefl w
  · intro w1 h1
    have e1 : TimerSame w w1 := by
      split at h1
      · have h2 : (updateTrades 0 _ w).1.world = w1 := congrArg Res.world h1
        rw [← h2]
        exact updateTrades_timerSame _ _ _
      · cases h1; exact TimerSame.timerRefl w
    exact e1.timerTrans ⟨rfl, rfl, rfl, rfl⟩

/-! ### `dataUpdateInterval` is not touched by `updateDashboard` -/

theorem updateDashboardGainers_auto (gainers : Fetch GainersData) (w : World) :
    (updateDashboardGainers gainers w).dataUpdateInterval = w.dataUpdateInterval := by
  unfold updateDashboardGainers fetch setText
  (simp only; repeat' split) <;> rfl

theorem statusSync_auto (data : Status) (w : World) :
    (statusSync data w).dataUpdateInterval = w.dataUpdateInterval := by
  unfold statusSync updateModeButtons
  (simp only; repeat' split) <;> rfl

theorem statusBadges_auto (data : Status) (w : World) :
    (statusBadges data w).world.dataUpdateInterval = w.dataUpdateInterval := by
  unfold statusBadges setTextStrict touchStrict
  apply Res.andThen_inv (fun w' => w'.dataUpdateInterval = w.dataUpdateInterval)
  · split <;> rfl
  · intro w1 h1
    apply Res.andThen_inv (fun w' => w'.dataUpdateInterval = w.dataUpdateInterval)
    · split <;> exact h1
    · intro w2 h2
      apply Res.andThen_inv (fun w' => w'.dataUpdateInterval = w.dataUpdateInterval)
      · split <;> exact h2
      · intro w3 h3
        split
        · exact (updateSARDirections_field (fun w => w.dataUpdateInterval) (fun _ _ => rfl)
            _ w3).trans h3
        · exact h3

theorem lockSymbol_auto (position : Position) (w : World) :
    (lockSymbol position w).dataUpdateInterval = w.dataUpdateInterval := by
  unfold lockSymbol setText
  (simp only; repeat' split) <;> rfl

theorem updatePositionTimer_auto (w : World) :
    (updatePositionTimer w).dataUpdateInterval = w.dataUpdateInterval := by
  unfold updatePositionTimer setText
  (repeat' split) <;> rfl

theorem startPositionTimer_auto (w : World) :
    (startPositionTimer w).dataUpdateInterval = w.dataUpdateInterval := by
  unfold startPositionTimer setInterval clearInterval
  (simp only; repeat' split) <;> rfl

theorem clearPosition_auto (w : World) :
    (clearPosition w).dataUpdateInterval = w.dataUpdateInterval := by
  unfold clearPosition clearInterval
  (simp only; repeat' split) <;> rfl

theorem updatePositionTime_auto (position : Position) (w : World) :
    (updatePositionTime position w).dataUpdateInterval = w.dataUpdateInterval := by
  unfold updatePositionTime
  simp only
  have key : ∀ w1 : World, w1.dataUpdateInterval = w.dataUpdateInterval →
      (match w1.positionStartTime with
        | some _ =>
          if (updatePositionTimer w1).positionTimerInterval.isNone = true
          then startPositionTimer (updatePositionTimer w1) else updatePositionTimer w1
        | none => setText "pos-time" "N/A" w1).dataUpdateInterval = w.dataUpdateInterval := by
    intro w1 h1
    split
    · split_ifs
      · rw [startPositionTimer_auto, updatePositionTimer_auto]; exact h1
      · rw [updatePositionTimer_auto]; exact h1
    · exact h1
  apply key
  split_ifs
  · rfl
  · split
    · split_ifs <;> rfl
    · rfl

theorem updatePosition_auto (position : Position) (data : Status) (w : World) :
    (updatePosition position data w).world.dataUpdateInterval = w.dataUpdateInterval := by
  unfold updatePosition
  simp only
  apply Res.andThen_inv (fun w' => w'.dataUpdateInterval = w.dataUpdateInterval)
  · split <;> rfl
  · intro w1 h1
    show (match (setText "pos-size" _ w1).page "pos-time" with
      | some _ => updatePositionTime position (setText "pos-size" _ w1)
      | none => setText "pos-size" _ w1).dataUpdateInterval = _
    split
    · rw [updatePositionTime_auto]; exact h1
    · exact h1

theorem statusPosition_auto (data : Status) (w : World) :
    (statusPosition data w).world.dataUpdateInterval = w.dataUpdateInterval := by
  unfold statusPosition
  split
  · unfold statusOpenPosition
    simp only
    apply Res.andThen_inv (fun w' => w'.dataUpdateInterval = w.dataUpdateInterval)
    · split <;> rfl
    · intro w1 h1
      rw [updatePosition_auto, lockSymbol_auto]; exact h1
  · unfold statusNoPosition setTextStrict
    apply Res.andThen_inv (fun w' => w'.dataUpdateInterval = w.dataUpdateInterval)
    · split <;> rfl
    · intro w1 h1
      show (clearPosition _).dataUpdateInterval = _
      rw [clearPosition_auto]; exact h1

theorem statusTrades_auto (data : Status) (w : World) :
    (statusTrades data w).world.dataUpdateInterval = w.dataUpdateInterval := by
  unfold statusTrades
  simp only [updateTrades_fst]
  apply Res.andThen_inv (fun w' => w'.dataUpdateInterval = w.dataUpdateInterval)
  · repeat' split
    all_goals rfl
  · intro w1 h1
    exact h1

theorem updateDashboard_auto (gainers : Fetch GainersData) (status : Fetch Status) (w : World) :
    (updateDashboard gainers status w).world.dataUpdateInterval = w.dataUpdateInterval := by
  unfold updateDashboard updateDashboardBegin
  split_ifs with hu
  · rfl
  · simp only
    have h1 : (updateDashboardGainers gainers (fetch "/api/top_gainers"
        { w with isUpdating := true })).dataUpdateInterval = w.dataUpdateInterval := by
      rw [updateDashboardGainers_auto]; rfl
    revert h1
    generalize updateDashboardGainers gainers (fetch "/api/top_gainers"
        { w with isUpdating := true }) = w1
    intro h1
    have h2 : ∀ data, (applyStatus data w1).world.dataUpdateInterval = w.dataUpdateInterval := by
      intro data
      unfold applyStatus
      apply Res.andThen_inv (fun w' => w'.dataUpdateInterval = w.dataUpdateInterval)
      · rw [statusBadges_auto, statusSync_auto]; exact h1
      · intro w2 h2
        apply Res.andThen_inv (fun w' => w'.dataUpdateInterval = w.dataUpdateInterval)
        · rw [statusPosition_auto]; exact h2
        · intro w3 h3
          rw [statusTrades_auto]; exact h3
    unfold updateDashboardStatus
    cases status with
    | networkError => exact h1
    | response ok json =>
      cases ok with
      | false => exact h1
      | true =>
        cases json with
        | none => exact h1
        | some data =>
          have := h2 data
          revert this
          simp only
          generalize applyStatus data w1 = r
          intro this
          cases r <;> exact this

theorem startAutoUpdate_active (w : World) :
    ∃ id, (startAutoUpdate w).dataUpdateInterval = some id ∧
      (w.dataUpdateInterval = none →
        { id := id, task := .updateDashboard, period := 2000 } ∈ (startAutoUpdate w).timers) := by
  unfold startAutoUpdate setInterval
  cases h : w.dataUpdateInterval with
  | none => exact ⟨w.nextTimer, rfl, fun _ => by simp⟩
  | some id => exact ⟨id, h, fun hc => by cases hc⟩

end Frames

section Consensus

theorem consensusLoop_eq (dirs : String → Option Direction) (D : Option Direction)
    (l : List String) :
    consensusLoop dirs D l = if (∀ tf ∈ l, dirs tf ≠ none ∧ dirs tf = D) then D else none := by
  induction l with
  | nil => simp [consensusLoop]
  | cons tf rest ih =>
    unfold consensusLoop
    by_cases h : dirs tf = none ∨ dirs tf ≠ D
    · rw [if_pos h, if_neg]
      intro hall
      have := hall tf (List.mem_cons_self _ _)
      rcases h with h | h
      · exact this.1 h
      · exact h this.2
    · rw [if_neg h, ih]
      push_neg at h
      by_cases hr : ∀ tf ∈ rest, dirs tf ≠ none ∧ dirs tf = D
      · rw [if_pos hr, if_pos]
        intro tf2 h2
        rcases List.mem_cons.mp h2 with rfl | h3
        · exact h
        · exact hr tf2 h3
      · rw [if_neg hr, if_neg]
        intro hall
        exact hr (fun tf2 h2 => hall tf2 (List.mem_cons_of_mem _ h2))

theorem consensus_eq_some (dirs : String → Option Direction) (d : Direction) :
    consensus dirs = some d ↔ ∀ tf ∈ timeframes, dirs tf = some d := by
  unfold consensus
  simp only [timeframes]
  rw [consensusLoop_eq]
  constructor
  · intro h
    split_ifs at h with hall
    intro tf htf
    rw [(hall tf htf).2, h]
  · intro h
    have h1 := h "1m" (by simp)
    rw [if_pos, h1]
    intro tf htf
    rw [h tf htf, h1]
    simp

theorem directionOf_long (directions : List (String × String)) (tf : String) :
    directionOf directions tf = some .long ↔ directions.lookup tf = some "long" := by
  unfold directionOf
  split <;> simp_all

theorem directionOf_short (directions : List (String × String)) (tf : String) :
    directionOf directions tf = some .short ↔ directions.lookup tf = some "short" := by
  unfold directionOf
  split <;> simp_all

end Consensus

/-! ## The claims -/

/-- C2. With the badge and container elements of the six tracked timeframes and
the signal element present, `updateSARDirections` shows `LONG SIGNAL` exactly
when all six timeframes map to `'long'`, `SHORT SIGNAL` exactly when all six map
to `'short'`, `NO SIGNAL` in every other case (a missing key or any other value
included), and what it shows is the rendering of the reference consensus
algorithm. -/
theorem updateSARDirections_consensus (directions : List (String × String)) (w : World)
    (hel : ∀ tf ∈ timeframes, (w.page ("sar-" ++ tf)).isSome = true ∧
      (w.page ("sar-" ++ tf ++ "-container")).isSome = true)
    (hsig : (w.page "signal-status").isSome = true) :
    ((updateSARDirections directions w).page "signal-status" = some "LONG SIGNAL" ↔
      ∀ tf ∈ timeframes, directions.lookup tf = some "long") ∧
    ((updateSARDirections directions w).page "signal-status" = some "SHORT SIGNAL" ↔
      ∀ tf ∈ timeframes, directions.lookup tf = some "short") ∧
    ((updateSARDirections directions w).page "signal-status" = some "NO SIGNAL" ↔
      ¬ (∀ tf ∈ timeframes, directions.lookup tf = some "long") ∧
      ¬ (∀ tf ∈ timeframes, directions.lookup tf = some "short")) ∧
    (updateSARDirections directions w).page "signal-status" =
      some (signalText (consensus (directionOf directions))) := by
  have hfst := sarFold_fst directions timeframes ({}, w) hel
  have hpres : ((timeframes.foldl (sarStep directions) ({}, w)).2.page "signal-status").isSome
      = true := by rw [sarFold_isSome]; exact hsig
  obtain ⟨t0, ht0⟩ := Option.isSome_iff_exists.mp hpres
  have hne : timeframes ≠ [] := by simp [timeframes]
  have hL := sarAccFold_iff directions "long" (Or.inl rfl) timeframes {}
  have hS := sarAccFold_iff directions "short" (Or.inr rfl) timeframes {}
  simp only [hne, ne_eq, not_false_eq_true, and_true, true_and, reduceCtorEq, false_or] at hL hS
  rw [← hfst] at hL hS
  have hLS : ¬ ((∀ tf ∈ timeframes, directions.lookup tf = some "long") ∧
      (∀ tf ∈ timeframes, directions.lookup tf = some "short")) := by
    rintro ⟨h1, h2⟩
    have a := h1 "1m" (by simp [timeframes])
    have b := h2 "1m" (by simp [timeframes])
    rw [a] at b
    simp at b
  have hcL := consensus_eq_some (directionOf directions) .long
  have hcS := consensus_eq_some (directionOf directions) .short
  simp only [directionOf_long] at hcL
  simp only [directionOf_short] at hcS
  by_cases hl : ∀ tf ∈ timeframes, directions.lookup tf = some "long"
  · have hs : ¬ (∀ tf ∈ timeframes, directions.lookup tf = some "short") :=
      fun hs => hLS ⟨hl, hs⟩
    have hacc := hL.mpr hl
    have hshown : (updateSARDirections directions w).page "signal-status" = some "LONG SIGNAL" := by
      unfold updateSARDirections
      simp [hacc.1, hacc.2, truthy, ht0]
    rw [hshown, hcL.mpr hl]
    exact ⟨iff_of_true rfl hl, iff_of_false (by decide) hs,
      iff_of_false (by decide) (fun h => h.1 hl), rfl⟩
  · by_cases hs : ∀ tf ∈ timeframes, directions.lookup tf = some "short"
    · have hacc := hS.mpr hs
      have hshown : (updateSARDirections directions w).page "signal-status"
          = some "SHORT SIGNAL" := by
        unfold updateSARDirections
        simp [hacc.1, hacc.2, truthy, ht0]
      rw [hshown, hcS.mpr hs]
      exact ⟨iff_of_false (by decide) hl, iff_of_true rfl hs,
        iff_of_false (by decide) (fun h => h.2 hs), rfl⟩
    · have hnL := mt hL.mp hl
      have hnS := mt hS.mp hs
      have hshown : (updateSARDirections directions w).page "signal-status"
          = some "NO SIGNAL" := by
        have hmd := sarAccFold_matchDirection directions timeframes {} (Or.inl rfl)
        rw [← hfst] at hmd
        unfold updateSARDirections
        rcases hmd with hmd | hmd | hmd
        · simp [hmd, truthy, ht0]
        · have ha : (timeframes.foldl (sarStep directions) ({}, w)).1.allMatch = false := by
            cases hb : (timeframes.foldl (sarStep directions) ({}, w)).1.allMatch with
            | false => rfl
            | true => exact absurd ⟨hb, hmd⟩ hnL
          simp [ha, ht0]
        · have ha : (timeframes.foldl (sarStep directions) ({}, w)).1.allMatch = false := by
            cases hb : (timeframes.foldl (sarStep directions) ({}, w)).1.allMatch with
            | false => rfl
            | true => exact absurd ⟨hb, hmd⟩ hnS
          simp [ha, ht0]
      have hc : consensus (directionOf directions) = none := by
        cases hcase : consensus (directionOf directions) with
        | none => rfl
        | some d =>
          cases d with
          | long => exact absurd (hcL.mp hcase) hl
          | short => exact absurd (hcS.mp hcase) hs
      rw [hshown, hc]
      exact ⟨iff_of_false (by decide) hl, iff_of_false (by decide) hs,
        iff_of_true rfl ⟨hl, hs⟩, rfl⟩

/-- C1. Once a snapshot with `in_position = true` and a position symbol has
acquired the lock, then after every later snapshot of a run of snapshots that
all have `in_position = true` and carry a position object, the lock is still
set, `lockedSymbol` is the symbol captured at acquisition and `symbol-display`
(when the page has it) shows that symbol, whatever the leaderboard answers and
whatever symbols the later positions carry. -/
theorem symbol_lock_held (w0 : World) (first : Fetch GainersData × Status)
    (position : Position) (symbol : String) (rest : List (Fetch GainersData × Status))
    (hin : first.2.in_position = true) (hpos : first.2.position = some position)
    (hsym : position.symbol = some symbol) (hne : symbol ≠ "")
    (hfree : w0.positionSymbolLocked = false)
    (hacq : (processSnapshot w0 first).positionSymbolLocked = true)
    (hrest : ∀ tick ∈ rest, tick.2.in_position = true ∧ tick.2.position.isSome = true) :
    ∀ k : Nat,
      ((rest.take k).foldl processSnapshot (processSnapshot w0 first)).positionSymbolLocked = true ∧
      ((rest.take k).foldl processSnapshot (processSnapshot w0 first)).lockedSymbol
        = some (splitFirst '_' symbol) ∧
      ∀ text, ((rest.take k).foldl processSnapshot (processSnapshot w0 first)).page
        "symbol-display" = some text → text = splitFirst '_' symbol := by
  intro k
  have h1 : LockHolds (splitFirst '_' symbol) (processSnapshot w0 first) := by
    rcases processSnapshot_acquires first position symbol hin hpos hsym hne w0 (Or.inl hfree)
      with h | h
    · rw [hacq] at h; cases h
    · exact h
  exact foldl_processSnapshot_holds _ (rest.take k) _ h1
    (fun t ht => hrest t (List.mem_of_mem_take ht))

/-- C1 on a sample run: `BBB` is locked, then a snapshot carrying `DDD` arrives
while the leaderboard reports `AAA`. -/
theorem symbol_lock_held_witness :
    (processSnapshot sampleWorld (sampleGainers, sampleOpen)).positionSymbolLocked = true ∧
    (([(sampleGainers, sampleHold)].take 1).foldl processSnapshot
      (processSnapshot sampleWorld (sampleGainers, sampleOpen))).lockedSymbol = some "BBB" :=
  ⟨by decide,
   ((symbol_lock_held sampleWorld (sampleGainers, sampleOpen)
      { symbol := some "BBB_USDT", side := some "long" } "BBB_USDT" [(sampleGainers, sampleHold)]
      rfl rfl rfl (by decide) rfl (by decide) (by decide)) 1).2.1⟩

/-- C2 on a page with every element and a map where all six timeframes are
`'long'`. -/
theorem updateSARDirections_consensus_witness :
    (sampleWorld.page "signal-status").isSome = true ∧
    (updateSARDirections sampleDirections sampleWorld).page "signal-status"
      = some (signalText (consensus (directionOf sampleDirections))) :=
  ⟨rfl, (updateSARDirections_consensus sampleDirections sampleWorld
    (fun _ _ => ⟨rfl, rfl⟩) rfl).2.2.2⟩

/-- C3. An `updateDashboard` invoked while `isUpdating` is true returns at once:
no request is issued and no field changes (the world is the same).  Hence a run
started from an idle dashboard, overlapped by a tick at each of its two
suspension points, ends in the state of the run alone. -/
theorem updateDashboard_reentry_skipped (w w0 : World)
    (gainers gainers1 gainers2 : Fetch GainersData) (status status1 status2 : Fetch Status)
    (h : w.isUpdating = true) (h0 : w0.isUpdating = false) :
    updateDashboardBegin w = (w, false) ∧
    updateDashboard gainers1 status1 w = .ok w ∧
    (updateDashboard gainers1 status1 w).world.requests = w.requests ∧
    updateDashboardStatus status
      (updateDashboard gainers2 status2
        (updateDashboardGainers gainers
          (updateDashboard gainers1 status1 (updateDashboardBegin w0).1).world)).world
      = updateDashboard gainers status w0 := by
  have hb : (updateDashboardBegin w0).1.isUpdating = true := by
    unfold updateDashboardBegin
    simp [h0, fetch]
  refine ⟨?_, updateDashboard_skip _ _ w h, ?_, ?_⟩
  · unfold updateDashboardBegin
    simp [h]
  · rw [updateDashboard_skip _ _ w h]
    rfl
  · rw [updateDashboard_skip _ _ _ hb]
    simp only [Res.world]
    rw [updateDashboard_skip _ _ _ (by rw [updateDashboardGainers_isUpdating]; exact hb)]
    simp only [Res.world]
    rw [updateDashboard_run _ _ w0 h0]

/-- C3 right after the page load, while the first run is waiting. -/
theorem updateDashboard_reentry_skipped_witness :
    (pageLoad sampleWorld).isUpdating = true ∧ sampleWorld.isUpdating = false ∧
    updateDashboard sampleGainers (.response true (some sampleOpen)) (pageLoad sampleWorld)
      = .ok (pageLoad sampleWorld) :=
  ⟨by decide, rfl,
   (updateDashboard_reentry_skipped (pageLoad sampleWorld) sampleWorld sampleGainers sampleGainers
      sampleGainers (.response true (some sampleFlat)) (.response true (some sampleOpen))
      .networkError (by decide) rfl).2.1⟩

/-- C4. An `updateDashboard` that finds the guard idle sets `isUpdating`, keeps
it set while it waits for its two requests, and always ends normally with
`isUpdating` false, whatever the two outcomes are (rejected request, non-ok
response, unreadable body, exception while rendering, normal completion); the
next tick is then not skipped. -/
theorem updateDashboard_guard_released (w : World) (gainers : Fetch GainersData)
    (status : Fetch Status) (h : w.isUpdating = false) :
    (updateDashboardBegin w).2 = true ∧
    (updateDashboardBegin w).1.isUpdating = true ∧
    (updateDashboardGainers gainers (updateDashboardBegin w).1).isUpdating = true ∧
    ∃ w', updateDashboard gainers status w = .ok w' ∧ w'.isUpdating = false ∧
      (updateDashboardBegin w').2 = true := by
  have hb : (updateDashboardBegin w).1.isUpdating = true := by
    unfold updateDashboardBegin
    simp [h, fetch]
  refine ⟨?_, hb, ?_, ?_⟩
  · unfold updateDashboardBegin
    simp [h]
  · rw [updateDashboardGainers_isUpdating]; exact hb
  · obtain ⟨w', hw, hu⟩ := updateDashboardStatus_ok status
      (updateDashboardGainers gainers (updateDashboardBegin w).1)
    refine ⟨w', ?_, hu, ?_⟩
    · rw [updateDashboard_run _ _ w h]; exact hw
    · unfold updateDashboardBegin
      simp [hu]

/-- C4 on a run whose status request is rejected. -/
theorem updateDashboard_guard_released_witness :
    sampleWorld.isUpdating = false ∧
    ∃ w', updateDashboard sampleGainers .networkError sampleWorld = .ok w' ∧
      w'.isUpdating = false ∧ (updateDashboardBegin w').2 = true :=
  ⟨rfl, (updateDashboard_guard_released sampleWorld sampleGainers .networkError rfl).2.2.2⟩

/-- C9. When the status request of `updateDashboard` fails (the fetch rejects,
the response is not ok, or its body cannot be read), the call ends normally and
`apiConnected`, `positionSymbolLocked`, `lockedSymbol`, `currentSymbol`,
`lastPosition`, `positionStartTime`, the position timer handle and the set of
active timers are as they were before the call. -/
theorem updateDashboard_status_failure (w : World) (gainers : Fetch GainersData)
    (status : Fetch Status) (hfail : status.failed = true) :
    ∃ w', updateDashboard gainers status w = .ok w' ∧
      w'.apiConnected = w.apiConnected ∧
      w'.positionSymbolLocked = w.positionSymbolLocked ∧
      w'.lockedSymbol = w.lockedSymbol ∧
      w'.currentSymbol = w.currentSymbol ∧
      w'.lastPosition = w.lastPosition ∧
      w'.positionStartTime = w.positionStartTime ∧
      w'.positionTimerInterval = w.positionTimerInterval ∧
      w'.timers = w.timers := by
  cases hu : w.isUpdating with
  | true =>
    exact ⟨w, updateDashboard_skip _ _ w hu, rfl, rfl, rfl, rfl, rfl, rfl, rfl, rfl⟩
  | false =>
    rw [updateDashboard_run _ _ w hu]
    have hb : (updateDashboardBegin w).1 = fetch "/api/top_gainers" { w with isUpdating := true } := by
      unfold updateDashboardBegin
      simp [hu]
    rw [hb]
    obtain ⟨f1, f2, f3, f4, f5, f6⟩ := updateDashboardGainers_fields gainers
      (fetch "/api/top_gainers" { w with isUpdating := true })
    obtain ⟨l1, l2⟩ := updateDashboardGainers_lockFields gainers
      (fetch "/api/top_gainers" { w with isUpdating := true })
    unfold updateDashboardStatus
    cases status with
    | networkError => exact ⟨_, rfl, f1, l1, l2, f2, f3, f4, f5, f6⟩
    | response ok json =>
      cases ok with
      | false => exact ⟨_, rfl, f1, l1, l2, f2, f3, f4, f5, f6⟩
      | true =>
        cases json with
        | none => exact ⟨_, rfl, f1, l1, l2, f2, f3, f4, f5, f6⟩
        | some data => simp [Fetch.failed] at hfail

/-- C9 on a run whose status response is not ok. -/
theorem updateDashboard_status_failure_witness :
    (Fetch.response false (none : Option Status)).failed = true ∧
    ∃ w', updateDashboard sampleGainers (.response false none) sampleWorld = .ok w' ∧
      w'.positionSymbolLocked = sampleWorld.positionSymbolLocked :=
  ⟨rfl, by
    obtain ⟨w', h1, _, h2, _⟩ :=
      updateDashboard_status_failure sampleWorld sampleGainers (.response false none) rfl
    exact ⟨w', h1, h2⟩⟩

/-- C8. Whatever the prior values of the fields, after `updateDashboard` has
processed a status snapshot with `in_position = false` (the run is started, and
the page has the elements `bot-status`, `balance`, `available` and
`position-status` that the method writes on the way), `positionSymbolLocked` is
false, `lockedSymbol` is null, `positionTimerInterval`, `positionStartTime` and
`lastPositionId` are null, and the interval whose handle was stored is no longer
active. -/
theorem no_position_releases (w : World) (gainers : Fetch GainersData) (data : Status)
    (hidle : w.isUpdating = false) (hflat : data.in_position = false)
    (h1 : (w.page "bot-status").isSome = true) (h2 : (w.page "balance").isSome = true)
    (h3 : (w.page "available").isSome = true)
    (h4 : (w.page "position-status").isSome = true) :
    (processSnapshot w (gainers, data)).positionSymbolLocked = false ∧
    (processSnapshot w (gainers, data)).lockedSymbol = none ∧
    (processSnapshot w (gainers, data)).positionTimerInterval = none ∧
    (processSnapshot w (gainers, data)).positionStartTime = none ∧
    (processSnapshot w (gainers, data)).lastPositionId = none ∧
    ∀ id, w.positionTimerInterval = some id →
      ∀ t ∈ (processSnapshot w (gainers, data)).timers, t.id ≠ id := by
  unfold processSnapshot
  simp only
  rw [updateDashboard_run _ _ w hidle]
  have hb : (updateDashboardBegin w).1 = fetch "/api/top_gainers" { w with isUpdating := true } := by
    unfold updateDashboardBegin
    simp [hidle]
  rw [hb]
  have hpres : ∀ j, ((statusSync data (updateDashboardGainers gainers
      (fetch "/api/top_gainers" { w with isUpdating := true }))).page j).isSome
      = (w.page j).isSome := by
    intro j
    rw [statusSync_page, updateDashboardGainers_isSome]
    rfl
  have htim : TimerSame w (statusSync data (updateDashboardGainers gainers
      (fetch "/api/top_gainers" { w with isUpdating := true }))) :=
    TimerSame.timerTrans (b := fetch "/api/top_gainers" { w with isUpdating := true })
      ⟨rfl, rfl, rfl, rfl⟩
      ((updateDashboardGainers_timerSame _ _).timerTrans (statusSync_timerSame _ _))
  obtain ⟨w3, hw3, -, ht3, hp3⟩ := statusBadges_ok data _ ((hpres _).trans h1)
    ((hpres _).trans h2) ((hpres _).trans h3)
  obtain ⟨w4, hw4, a1, a2, a3, a4, a5, a6⟩ :=
    statusNoPosition_ok w3 (((hp3 _).trans (hpres _)).trans h4)
  have hpos : statusPosition data w3 = .ok w4 := by
    unfold statusPosition
    rw [hflat]
    exact hw4
  have hl5 := statusTrades_lockSame data w4
  have ht5 := statusTrades_timerSame data w4
  unfold updateDashboardStatus applyStatus
  simp only [hw3, hpos, Res.andThen]
  revert hl5 ht5
  generalize statusTrades data w4 = r
  intro hl5 ht5
  have key : ∀ w5 : World, LockSame w4 w5 → TimerSame w4 w5 →
      ({ w5 with isUpdating := false } : World).positionSymbolLocked = false ∧
      ({ w5 with isUpdating := false } : World).lockedSymbol = none ∧
      ({ w5 with isUpdating := false } : World).positionTimerInterval = none ∧
      ({ w5 with isUpdating := false } : World).positionStartTime = none ∧
      ({ w5 with isUpdating := false } : World).lastPositionId = none ∧
      ∀ id, w.positionTimerInterval = some id →
        ∀ t ∈ ({ w5 with isUpdating := false } : World).timers, t.id ≠ id := by
    intro w5 hl ht
    refine ⟨hl.1.trans a1, hl.2.1.trans a2, ht.1.trans a3, ht.2.1.trans a4,
      ht.2.2.1.trans a5, ?_⟩
    intro id hid t hmem
    have hmem' : t ∈ w4.timers := by
      have : ({ w5 with isUpdating := false } : World).timers = w4.timers := ht.2.2.2
      rw [this] at hmem
      exact hmem
    have hid3 : w3.positionTimerInterval = some id := by
      rw [ht3.1, htim.1]; exact hid
    exact a6 id hid3 t hmem'
  cases r with
  | ok w5 => exact key w5 hl5 ht5
  | threw w5 => exact key w5 hl5 ht5

/-- C8 on a dashboard that holds a lock on `BBB`. -/
theorem no_position_releases_witness :
    sampleWorld.isUpdating = false ∧ sampleFlat.in_position = false ∧
    (sampleWorld.page "bot-status").isSome = true ∧
    (processSnapshot (processSnapshot sampleWorld (sampleGainers, sampleOpen))
      (sampleGainers, sampleFlat)).lockedSymbol = none :=
  ⟨rfl, rfl, rfl,
   (no_position_releases (processSnapshot sampleWorld (sampleGainers, sampleOpen)) sampleGainers
      sampleFlat (by decide) rfl (by decide) (by decide) (by decide) (by decide)).2.1⟩

/-- C5. Whatever the outcome of the `set_trading_mode` request (2xx, non-2xx,
rejected, unreadable body) and of the forced refresh, when `setTradingMode`
finishes `dataUpdateInterval` holds the handle of an active timer that calls
`updateDashboard` every 2 s. -/
theorem setTradingMode_resumes (mode : String) (r : Fetch CommandData)
    (gainers : Fetch GainersData) (status : Fetch Status) (w : World) :
    ∃ id, (setTradingMode mode r gainers status w).dataUpdateInterval = some id ∧
      { id := id, task := .updateDashboard, period := 2000 }
        ∈ (setTradingMode mode r gainers status w).timers := by
  have hb : (setTradingModeBegin w).dataUpdateInterval = none := by
    cases h : w.dataUpdateInterval <;> simp [setTradingModeBegin, fetch, clearInterval, h]
  unfold setTradingMode
  revert hb
  generalize setTradingModeBegin w = wb
  intro hb
  have fin : ∀ w1 : World, w1.dataUpdateInterval = none →
      ∃ id, (startAutoUpdate w1).dataUpdateInterval = some id ∧
        { id := id, task := .updateDashboard, period := 2000 } ∈ (startAutoUpdate w1).timers := by
    intro w1 h1
    obtain ⟨id, a, b⟩ := startAutoUpdate_active w1
    exact ⟨id, a, b h1⟩
  rcases r with _ | ⟨_ | _, _ | data⟩
  · exact fin _ hb
  · exact fin _ hb
  · exact fin _ hb
  · exact fin _ hb
  · apply fin
    rw [updateDashboard_auto]
    exact hb

/-- C6, as the code has it.  The first step of `setTradingMode` stops the timer
whose handle is in `dataUpdateInterval` and clears the field, and it stops that
timer only: every other active timer, whatever it calls (`updateChart`,
`updateTopGainers`, `updateOnlineUsers`, and also `updateDashboard`), stays
active, and no timer is started. -/
theorem setTradingModeBegin_stops_auto_update_only (w : World) :
    (setTradingModeBegin w).dataUpdateInterval = none ∧
    (∀ id, w.dataUpdateInterval = some id → ∀ t ∈ (setTradingModeBegin w).timers, t.id ≠ id) ∧
    (∀ t ∈ w.timers, w.dataUpdateInterval ≠ some t.id → t ∈ (setTradingModeBegin w).timers) ∧
    (∀ t ∈ (setTradingModeBegin w).timers, t ∈ w.timers) := by
  unfold setTradingModeBegin fetch clearInterval
  cases h : w.dataUpdateInterval with
  | none => exact ⟨h, fun _ hid => Option.noConfusion hid, fun t ht _ => ht, fun t ht => ht⟩
  | some id0 =>
    refine ⟨rfl, ?_, ?_, ?_⟩
    · intro id hid t ht
      cases hid
      simp only [List.mem_filter, bne_iff_ne, ne_eq] at ht
      exact ht.2
    · intro t ht hne
      simp only [List.mem_filter, bne_iff_ne, ne_eq]
      refine ⟨ht, ?_⟩
      intro hc
      exact hne (by rw [hc])
    · intro t ht
      simp only [List.mem_filter] at ht
      exact ht.1

/-- C6, as the code has it, after a page load followed by `startAutoUpdate`: the
2 s timer is stopped, the chart timer and the 5 s `updateDashboard` timer of
`startDataUpdates` stay. -/
theorem setTradingModeBegin_stops_auto_update_only_witness :
    (startAutoUpdate (pageLoad sampleWorld)).dataUpdateInterval = some 7 ∧
    (∀ t ∈ (setTradingModeBegin (startAutoUpdate (pageLoad sampleWorld))).timers, t.id ≠ 7) ∧
    ({ id := 3, task := .updateChart, period := 5000 } : Timer)
      ∈ (setTradingModeBegin (startAutoUpdate (pageLoad sampleWorld))).timers ∧
    ({ id := 2, task := .updateDashboard, period := 5000 } : Timer)
      ∈ (setTradingModeBegin (startAutoUpdate (pageLoad sampleWorld))).timers :=
  ⟨rfl,
   (setTradingModeBegin_stops_auto_update_only (startAutoUpdate (pageLoad sampleWorld))).2.1 7 rfl,
   (setTradingModeBegin_stops_auto_update_only (startAutoUpdate (pageLoad sampleWorld))).2.2.1
      { id := 3, task := .updateChart, period := 5000 } (by decide) (by decide),
   (setTradingModeBegin_stops_auto_update_only (startAutoUpdate (pageLoad sampleWorld))).2.2.1
      { id := 2, task := .updateDashboard, period := 5000 } (by decide) (by decide)⟩

/-- C6 fails as stated: after the page load, the first step of `setTradingMode`
leaves polling timers active. -/
theorem setTradingModeBegin_leaves_polling :
    ¬ (∀ t ∈ (setTradingModeBegin (pageLoad sampleWorld)).timers, t.task.polls = false) := by
  decide

/-- C7, as the code has it.  `setTradingMode` keeps no in-flight flag: a call
made while an earlier call is waiting for its response sends its own
`set_trading_mode` request, and when it finishes it has started the auto-update
timer, whatever its outcome. -/
theorem setTradingMode_overlap_runs (w : World) (mode : String) (r : Fetch CommandData)
    (gainers : Fetch GainersData) (status : Fetch Status) :
    (setTradingModeBegin (setTradingModeBegin w)).requests
      = w.requests ++ ["/api/set_trading_mode", "/api/set_trading_mode"] ∧
    ∃ id, (setTradingMode mode r gainers status (setTradingModeBegin w)).dataUpdateInterval
        = some id ∧
      { id := id, task := .updateDashboard, period := 2000 }
        ∈ (setTradingMode mode r gainers status (setTradingModeBegin w)).timers := by
  refine ⟨?_, setTradingMode_resumes mode r gainers status _⟩
  cases h : w.dataUpdateInterval <;> simp [setTradingModeBegin, fetch, clearInterval, h]

/-- C7 fails as stated: a second call made while the first waits for its
response sends a request, and on a failure starts a polling timer. -/
theorem setTradingMode_overlap_not_rejected :
    (setTradingModeBegin (setTradingModeBegin (pageLoad sampleWorld))).requests
      ≠ (setTradingModeBegin (pageLoad sampleWorld)).requests ∧
    (setTradingMode "real" .networkError .networkError .networkError
        (setTradingModeBegin (pageLoad sampleWorld))).timers
      ≠ (setTradingModeBegin (pageLoad sampleWorld)).timers := by
  decide

theorem orElse_some (text fallback : String) (h : text ≠ "") :
    orElse (some text) fallback = text := by
  simp [orElse, h]

/-- C10, as the code has it.  A failed command (request rejected, non-2xx
response, unreadable body) sends its one request and nothing more.  For start
bot, stop bot, open long, open short, close position, delete last trade, reset
balance, set leverage and toggle rebalance it makes exactly one
`showNotification` call, of type `'error'`, whose message is the response's
error text when the response carries one.  For the two level toggles the
failure is only logged to the console: no notification is shown. -/
theorem command_failure_surfaced (c : Command) (r : Fetch CommandData) (w : World)
    (hfail : r.failed = true) :
    (c.run r w).requests = w.requests ++ [c.url] ∧
    (c.isLevelToggle = true → (c.run r w).notifications = w.notifications) ∧
    (c.isLevelToggle = false →
      ∃ msg, (c.run r w).notifications = w.notifications ++ [("error", msg)] ∧
        ∀ data text, r = .response false (some data) → data.error = some text → text ≠ "" →
          msg = text) := by
  rcases r with _ | ⟨_ | _, _ | data⟩
  · cases c <;>
      simp [Command.run, Command.url, Command.isLevelToggle, startBot, stopBot, openLong,
        openShort, closePosition, deleteLastTrade, resetBalance, setLeverage, toggleOpenLevel,
        toggleCloseLevel, toggleRebalance, saveStrategyConfig, postCommand, fetch,
        showNotification] <;> split_ifs <;> first | rfl | exact ⟨rfl, rfl⟩
  · cases c <;>
      simp [Command.run, Command.url, Command.isLevelToggle, startBot, stopBot, openLong,
        openShort, closePosition, deleteLastTrade, resetBalance, setLeverage, toggleOpenLevel,
        toggleCloseLevel, toggleRebalance, saveStrategyConfig, postCommand, fetch,
        showNotification] <;> split_ifs <;> first | rfl | exact ⟨rfl, rfl⟩
  · have he : ∀ fallback : String, ∀ text, data.error = some text → text ≠ "" →
        orElse data.error fallback = text := by
      intro fallback text h1 h2
      rw [h1]; exact orElse_some text fallback h2
    cases c <;>
      simp [Command.run, Command.url, Command.isLevelToggle, startBot, stopBot, openLong,
        openShort, closePosition, deleteLastTrade, resetBalance, setLeverage, toggleOpenLevel,
        toggleCloseLevel, toggleRebalance, saveStrategyConfig, postCommand, fetch,
        showNotification]
    all_goals first
      | (intro d text hd h1 h2; subst hd; exact he _ text h1 h2)
      | (split_ifs <;> first | rfl | exact ⟨rfl, rfl⟩)
  · cases c <;>
      simp [Command.run, Command.url, Command.isLevelToggle, startBot, stopBot, openLong,
        openShort, closePosition, deleteLastTrade, resetBalance, setLeverage, toggleOpenLevel,
        toggleCloseLevel, toggleRebalance, saveStrategyConfig, postCommand, fetch,
        showNotification] <;> split_ifs <;> first | rfl | exact ⟨rfl, rfl⟩
  · simp [Fetch.failed] at hfail

/-- C10, as the code has it, on a rejected `startBot`. -/
theorem command_failure_surfaced_witness :
    (Fetch.response false (some ({ error := some "Bot already running" } : CommandData))).failed
      = true ∧
    ∃ msg, (Command.startBot.run
        (.response false (some { error := some "Bot already running" })) sampleWorld).notifications
        = sampleWorld.notifications ++ [("error", msg)] ∧
      ∀ data text,
        Fetch.response false (some ({ error := some "Bot already running" } : CommandData))
          = .response false (some data) → data.error = some text → text ≠ "" → msg = text :=
  ⟨rfl, (command_failure_surfaced .startBot
    (.response false (some { error := some "Bot already running" })) sampleWorld rfl).2.2 rfl⟩

/-- C10 fails as stated: a rejected level toggle shows no notification. -/
theorem toggleOpenLevel_failure_silent :
    (Command.run (.toggleOpenLevel "1")
      (.response false (some { error := some "rejected" })) sampleWorld).notifications = [] := by
  decide

section Panel

theorem updatePositionTimer_isSome (w : World) (j : String) :
    ((updatePositionTimer w).page j).isSome = (w.page j).isSome := by
  unfold updatePositionTimer
  split
  · exact setText_isSome _ _ _ _
  · rfl

theorem updatePositionTimer_start (w : World) :
    (updatePositionTimer w).positionStartTime = w.positionStartTime := by
  unfold updatePositionTimer setText
  split <;> rfl

theorem startPositionTimer_start (w : World) :
    (startPositionTimer w).positionStartTime = w.positionStartTime ∧
    (startPositionTimer w).page = w.page := by
  unfold startPositionTimer setInterval clearInterval
  constructor <;> (simp only; split) <;> rfl

/-- The start time the `pos-time` block leaves, from the position and the
previous value. -/
theorem updatePositionTime_start (position : Position) (w : World) :
    (updatePositionTime position w).positionStartTime =
      if position.open_timestamp.getD 0 > 0 then
        some (.ofTimestamp (position.open_timestamp.getD 0))
      else
        match position.entry_time with
        | some entryTime =>
          if entryTime != "" then some (.ofIso (asUtc entryTime)) else w.positionStartTime
        | none => w.positionStartTime := by
  unfold updatePositionTime
  simp only
  have key : ∀ w1 : World,
      (match w1.positionStartTime with
        | some _ =>
          if (updatePositionTimer w1).positionTimerInterval.isNone = true
          then startPositionTimer (updatePositionTimer w1) else updatePositionTimer w1
        | none => setText "pos-time" "N/A" w1).positionStartTime = w1.positionStartTime := by
    intro w1
    split
    · split_ifs
      · rw [(startPositionTimer_start _).1, updatePositionTimer_start]
      · rw [updatePositionTimer_start]
    · rfl
  rw [key]
  split_ifs
  · rfl
  · split
    · split_ifs <;> rfl
    · rfl

theorem updatePositionTime_isSome (position : Position) (w : World) (j : String) :
    ((updatePositionTime position w).page j).isSome = (w.page j).isSome := by
  unfold updatePositionTime
  simp only
  have key : ∀ w1 : World,
      ((match w1.positionStartTime with
        | some _ =>
          if (updatePositionTimer w1).positionTimerInterval.isNone = true
          then startPositionTimer (updatePositionTimer w1) else updatePositionTimer w1
        | none => setText "pos-time" "N/A" w1).page j).isSome = (w1.page j).isSome := by
    intro w1
    split
    · split_ifs
      · rw [(startPositionTimer_start _).2, updatePositionTimer_isSome]
      · rw [updatePositionTimer_isSome]
    · exact setText_isSome _ _ _ _
  rw [key]
  split_ifs
  · rfl
  · split
    · split_ifs <;> rfl
    · rfl

/-- With `position.side` present, `updatePosition` does not raise; its result is
the `pos-pnl` write on top of the `pos-time` block. -/
theorem updatePosition_ok (position : Position) (data : Status) (w : World) (side : String)
    (hside : position.side = some side) :
    ∃ w1 : World, (∀ j, (w1.page j).isSome = (w.page j).isSome) ∧
      w1.positionStartTime = w.positionStartTime ∧
      updatePosition position data w =
        .ok (setText "pos-pnl" (pnlText (unrealizedPnl position))
          (match w1.page "pos-time" with
            | some _ => updatePositionTime position w1
            | none => w1)) := by
  unfold updatePosition
  simp only [hside]
  cases hp : (setText "pos-symbol"
      (orElse position.symbol (orElse (some w.currentSymbol) "UNKNOWN"))
      { w with lastPosition := some position }).page "pos-side" with
  | none =>
    refine ⟨setText "pos-size" (orElse data.top1_display (orElse position.top1_display "N/A"))
      (setText "pos-symbol" (orElse position.symbol (orElse (some w.currentSymbol) "UNKNOWN"))
        { w with lastPosition := some position }), ?_, rfl, rfl⟩
    intro j
    rw [setText_isSome, setText_isSome]
  | some t =>
    refine ⟨setText "pos-size" (orElse data.top1_display (orElse position.top1_display "N/A"))
      (setText "pos-side" (toUpperCase side)
        (setText "pos-symbol" (orElse position.symbol (orElse (some w.currentSymbol) "UNKNOWN"))
          { w with lastPosition := some position })), ?_, rfl, rfl⟩
    intro j
    rw [setText_isSome, setText_isSome, setText_isSome]

end Panel

/-- C11, as the code has it.  After a rejected (non-2xx) `toggleRebalance`,
`rebalanceActive` has the value it had before the command.  After a rejected
`toggleOpenLevel` the toggle stays applied: the membership of the level in
`openLevels` is flipped and `closeLevels` is unchanged; likewise for
`toggleCloseLevel` with the two sets exchanged. -/
theorem rejected_toggle_state (level : String) (body : Option CommandData) (w : World) :
    (toggleRebalance (.response false body) w).rebalanceActive = w.rebalanceActive ∧
    ((level ∈ (toggleOpenLevel level (.response false body) w).openLevels ↔
        level ∉ w.openLevels) ∧
      (toggleOpenLevel level (.response false body) w).closeLevels = w.closeLevels) ∧
    ((level ∈ (toggleCloseLevel level (.response false body) w).closeLevels ↔
        level ∉ w.closeLevels) ∧
      (toggleCloseLevel level (.response false body) w).openLevels = w.openLevels) := by
  refine ⟨?_, ⟨?_, ?_⟩, ⟨?_, ?_⟩⟩
  · cases body <;> simp [toggleRebalance, fetch, showNotification]
  · unfold toggleOpenLevel saveStrategyConfig fetch
    by_cases h : level ∈ w.openLevels <;> simp [h]
  · unfold toggleOpenLevel saveStrategyConfig fetch
    by_cases h : level ∈ w.openLevels <;> simp [h]
  · unfold toggleCloseLevel saveStrategyConfig fetch
    by_cases h : level ∈ w.closeLevels <;> simp [h]
  · unfold toggleCloseLevel saveStrategyConfig fetch
    by_cases h : level ∈ w.closeLevels <;> simp [h]

/-- C11 fails as stated: a rejected `toggleOpenLevel` leaves the level in
`openLevels`. -/
theorem toggleOpenLevel_rejected_not_restored :
    (toggleOpenLevel "1" sampleRejected sampleWorld).openLevels ≠ sampleWorld.openLevels := by
  decide

/-- C12, as the code has it.  `updatePosition` shows in `pos-pnl` the rendering
of `position.unrealized_pnl` when the field is present, and the rendering of 0
when it is absent; it never recomputes the value from the prices. -/
theorem updatePosition_pnl (position : Position) (data : Status) (w : World) (side : String)
    (hside : position.side = some side) (hel : (w.page "pos-pnl").isSome = true) :
    (∀ v, position.unrealized_pnl = some v →
      (updatePosition position data w).world.page "pos-pnl" = some (pnlText v)) ∧
    (position.unrealized_pnl = none →
      (updatePosition position data w).world.page "pos-pnl" = some (pnlText 0)) := by
  obtain ⟨w1, hp, -, hw⟩ := updatePosition_ok position data w side hside
  have hshown : (updatePosition position data w).world.page "pos-pnl"
      = some (pnlText (unrealizedPnl position)) := by
    rw [hw]
    simp only [Res.world, setText_page_self]
    have : ((match w1.page "pos-time" with
        | some _ => updatePositionTime position w1
        | none => w1).page "pos-pnl").isSome = true := by
      split
      · rw [updatePositionTime_isSome, hp]; exact hel
      · rw [hp]; exact hel
    obtain ⟨t, ht⟩ := Option.isSome_iff_exists.mp this
    rw [ht]
    rfl
  constructor
  · intro v hv
    rw [hshown]
    simp [unrealizedPnl, hv]
  · intro hv
    rw [hshown]
    simp [unrealizedPnl, hv]

/-- C12, as the code has it, on a long position without `unrealized_pnl`. -/
theorem updatePosition_pnl_witness :
    samplePnlPosition.side = some "long" ∧ (sampleWorld.page "pos-pnl").isSome = true ∧
    (updatePosition samplePnlPosition { current_price := some 11 } sampleWorld).world.page
      "pos-pnl" = some (pnlText 0) :=
  ⟨rfl, rfl,
   (updatePosition_pnl samplePnlPosition { current_price := some 11 } sampleWorld "long" rfl
      rfl).2 rfl⟩

/-- C12 fails as stated: for a long position entered at 10 with size 2 and no
`unrealized_pnl`, at the current price 11 `updatePosition` shows the rendering
of 0, not of `(11 - 10) * 2`. -/
theorem updatePosition_pnl_no_fallback :
    (updatePosition samplePnlPosition { current_price := some 11 } sampleWorld).world.page
      "pos-pnl" ≠ some (pnlText (updatePositionInfoPnL "long" 11 10 2)) := by
  decide

/-- C13, as the code has it.  On a page with `trades-container`, for a non-empty
received array: when every trade carries a `side`, `updateTrades` renders one
item per trade, in the reverse of the received order (the last received trade
first); when some trade carries none, the call raises and renders nothing.  In
both cases the received array, like every array that existed before the call,
has the contents it had: only the copy made by the spread is reversed. -/
theorem updateTrades_reversed (trades : Nat) (store : TradeArrays) (w : World)
    (hne : arrayContents trades store ≠ [])
    (hel : (w.page "trades-container").isSome = true) :
    ((∀ trade ∈ arrayContents trades store, trade.side.isSome = true) →
      ∃ w', (updateTrades trades store w).1 = .ok w' ∧
        w'.tradeItems = (arrayContents trades store).reverse ∧
        w'.tradeItems.length = (arrayContents trades store).length ∧
        w'.tradeItems.head? = (arrayContents trades store).getLast?) ∧
    ((∃ trade ∈ arrayContents trades store, trade.side = none) →
      (updateTrades trades store w).1 = .threw w) ∧
    arrayContents trades (updateTrades trades store w).2 = arrayContents trades store ∧
    (∀ ref, ref < store.length →
      arrayContents ref (updateTrades trades store w).2 = arrayContents ref store) := by
  obtain ⟨t, ht⟩ := Option.isSome_iff_exists.mp hel
  have hlen : (arrayContents trades store).length ≠ 0 := fun h =>
    hne (List.length_eq_zero.mp h)
  have hshape := updateTrades_fst trades store w
  simp only [ht, hlen, if_false] at hshape
  have hold : ∀ ref, ref < store.length →
      arrayContents ref (updateTrades trades store w).2 = arrayContents ref store := by
    intro ref href
    unfold updateTrades
    simp only [ht, hlen, if_false]
    split_ifs <;> exact arrayContents_spreadReverse_kept trades store ref href
  have href : trades < store.length := by
    by_contra hge
    apply hne
    unfold arrayContents
    rw [List.getD_eq_getElem?_getD, List.getElem?_eq_none (not_lt.mp hge)]
    rfl
  refine ⟨?_, ?_, hold trades href, hold⟩
  · intro hside
    have hall : (arrayContents trades store).reverse.all (fun trade => trade.side.isSome)
        = true := by
      simp only [List.all_eq_true, List.mem_reverse]
      exact hside
    rw [hshape, if_pos hall]
    exact ⟨_, rfl, rfl, List.length_reverse _, List.head?_reverse _⟩
  · rintro ⟨trade, hmem, hnone⟩
    have hall : ¬ ((arrayContents trades store).reverse.all (fun trade => trade.side.isSome)
        = true) := by
      simp only [List.all_eq_true, List.mem_reverse]
      intro h
      have hs := h trade hmem
      rw [hnone] at hs
      cases hs
    rw [hshape, if_neg hall]

/-- C13, as the code has it, on an array of two trades. -/
theorem updateTrades_reversed_witness :
    arrayContents 0 [[{ side := some "long", pnl := some 1 }, { side := some "short" }]] ≠ [] ∧
    (∃ w', (updateTrades 0 [[{ side := some "long", pnl := some 1 }, { side := some "short" }]]
        sampleWorld).1 = .ok w' ∧
      w'.tradeItems = [{ side := some "short" }, { side := some "long", pnl := some 1 }]) ∧
    arrayContents 0 (updateTrades 0
        [[{ side := some "long", pnl := some 1 }, { side := some "short" }]] sampleWorld).2
      = [{ side := some "long", pnl := some 1 }, { side := some "short" }] :=
  ⟨by decide,
   by
    obtain ⟨w', h1, h2, _⟩ := (updateTrades_reversed 0
      [[{ side := some "long", pnl := some 1 }, { side := some "short" }]] sampleWorld
      (by decide) rfl).1 (by decide)
    exact ⟨w', h1, h2⟩,
   (updateTrades_reversed 0
      [[{ side := some "long", pnl := some 1 }, { side := some "short" }]] sampleWorld
      (by decide) rfl).2.2.1⟩

/-- C13 fails as stated: for the trades list `[{side: 'long', pnl: 1}, {pnl: 2}]`
the template raises on the trade without `side`, and after the run that
received the list no trade item is rendered. -/
theorem updateTrades_missing_side :
    (updateTrades 0 [[{ side := some "long", pnl := some 1 }, { pnl := some 2 }]]
      sampleWorld).1 = .threw sampleWorld ∧
    (processSnapshot sampleWorld
      (sampleGainers,
        { trades := some [{ side := some "long", pnl := some 1 }, { pnl := some 2 }] })).tradeItems
      = [] :=
  ⟨rfl, by decide⟩

/-- C16, as the code has it.  In `updatePosition`, on a page with `pos-time`:
when `position.open_timestamp` is greater than 0, `positionStartTime` is that
server-reported time; otherwise, when `position.entry_time` is present, it is
that server-reported time read as UTC. -/
theorem updatePosition_start_time (position : Position) (data : Status) (w : World)
    (side : String) (hside : position.side = some side)
    (hel : (w.page "pos-time").isSome = true) :
    (∀ t, position.open_timestamp = some t → 0 < t →
      (updatePosition position data w).world.positionStartTime = some (.ofTimestamp t)) ∧
    (∀ entryTime, position.open_timestamp.getD 0 ≤ 0 → position.entry_time = some entryTime →
      entryTime ≠ "" →
      (updatePosition position data w).world.positionStartTime
        = some (.ofIso (asUtc entryTime))) := by
  obtain ⟨w1, hp, -, hw⟩ := updatePosition_ok position data w side hside
  have h1 : (w1.page "pos-time").isSome = true := by rw [hp]; exact hel
  obtain ⟨t0, ht0⟩ := Option.isSome_iff_exists.mp h1
  have hst : (updatePosition position data w).world.positionStartTime
      = (updatePositionTime position w1).positionStartTime := by
    rw [hw, ht0]
    rfl
  rw [hst, updatePositionTime_start]
  constructor
  · intro t ht hpos
    simp [ht, hpos]
  · intro e hle he hne
    have : ¬ (position.open_timestamp.getD 0 > 0) := not_lt.mpr hle
    simp [this, he, hne]

/-- C16, as the code has it, on a position that carries `entry_time` only. -/
theorem updatePosition_start_time_witness :
    (sampleWorld.page "pos-time").isSome = true ∧
    (updatePosition { side := some "long", entry_time := some "2024-01-01T00:00:00" } {}
      sampleWorld).world.positionStartTime = some (.ofIso (asUtc "2024-01-01T00:00:00")) :=
  ⟨rfl,
   (updatePosition_start_time { side := some "long", entry_time := some "2024-01-01T00:00:00" }
      {} sampleWorld "long" rfl rfl).2 "2024-01-01T00:00:00" (by decide) rfl (by decide)⟩

/-- C16 fails as stated: without `open_timestamp`, `positionStartTime` is not
the client clock at the transition: it is the position's `entry_time` when there
is one, and stays null when there is none. -/
theorem updatePosition_start_time_not_client :
    (updatePosition { side := some "long", entry_time := some "2024-01-01T00:00:00" } {}
      { sampleWorld with now := 5000 }).world.positionStartTime
      ≠ some (.ofTimestamp 5000) ∧
    (updatePosition { side := some "long" } {}
      { sampleWorld with now := 5000 }).world.positionStartTime = none := by
  decide

/-- C20, as the code has it.  On a page with `rebalance-status` and
`rebalance-indicator`, after `toggleRebalance` receives a 2xx response,
`rebalanceActive` is the response's `rebalance_enabled`, whether or not it
matches the value requested. -/
theorem toggleRebalance_server_value (data : CommandData) (w : World)
    (h1 : (w.page "rebalance-status").isSome = true)
    (h2 : (w.page "rebalance-indicator").isSome = true) :
    (toggleRebalance (.response true (some data)) w).rebalanceActive
      = data.rebalance_enabled := by
  obtain ⟨t1, ht1⟩ := Option.isSome_iff_exists.mp h1
  have h2' : ((setText "rebalance-status" (if data.rebalance_enabled then "ACTIVE"
      else "Auto 20/80") (fetch "/api/toggle_rebalance"
        { w with rebalanceActive := data.rebalance_enabled })).page
      "rebalance-indicator").isSome = true := by
    rw [setText_isSome]; exact h2
  obtain ⟨t2, ht2⟩ := Option.isSome_iff_exists.mp h2'
  unfold toggleRebalance setTextStrict touchStrict
  simp only [fetch, Res.andThen] at ht2 ⊢
  simp only [ht1, ht2]
  rfl

/-- C20, as the code has it, when the server keeps rebalancing off although it
was asked to turn it on. -/
theorem toggleRebalance_server_value_witness :
    (sampleWorld.page "rebalance-status").isSome = true ∧
    (toggleRebalance (.response true (some { rebalance_enabled := false }))
      sampleWorld).rebalanceActive = false :=
  ⟨rfl, toggleRebalance_server_value { rebalance_enabled := false } sampleWorld rfl rfl⟩

/-- C20 fails as stated: on a page without the rebalance display elements, a
2xx response with `rebalance_enabled = true` leaves `rebalanceActive` false. -/
theorem toggleRebalance_missing_elements :
    (toggleRebalance (.response true (some { rebalance_enabled := true }))
      { }).rebalanceActive ≠ true := by
  decide

section Modes

/-! ### The mode buttons are touched by `statusSync` only -/

theorem updateDashboardGainers_modes (gainers : Fetch GainersData) (w : World) :
    (updateDashboardGainers gainers w).modeButtons = w.modeButtons := by
  unfold updateDashboardGainers fetch setText
  (simp only; repeat' split) <;> rfl

theorem statusBadges_modes (data : Status) (w : World) :
    (statusBadges data w).world.modeButtons = w.modeButtons := by
  unfold statusBadges setTextStrict touchStrict
  apply Res.andThen_inv (fun w' => w'.modeButtons = w.modeButtons)
  · split <;> rfl
  · intro w1 h1
    apply Res.andThen_inv (fun w' => w'.modeButtons = w.modeButtons)
    · split <;> exact h1
    · intro w2 h2
      apply Res.andThen_inv (fun w' => w'.modeButtons = w.modeButtons)
      · split <;> exact h2
      · intro w3 h3
        split
        · exact (updateSARDirections_field (fun w => w.modeButtons) (fun _ _ => rfl)
            _ w3).trans h3
        · exact h3

theorem lockSymbol_modes (position : Position) (w : World) :
    (lockSymbol position w).modeButtons = w.modeButtons := by
  unfold lockSymbol setText
  (simp only; repeat' split) <;> rfl

theorem updatePositionTimer_modes (w : World) :
    (updatePositionTimer w).modeButtons = w.modeButtons := by
  unfold updatePositionTimer setText
  (repeat' split) <;> rfl

theorem startPositionTimer_modes (w : World) :
    (startPositionTimer w).modeButtons = w.modeButtons := by
  unfold startPositionTimer setInterval clearInterval
  (simp only; repeat' split) <;> rfl

theorem clearPosition_modes (w : World) :
    (clearPosition w).modeButtons = w.modeButtons := by
  unfold clearPosition clearInterval
  (simp only; repeat' split) <;> rfl

theorem updatePositionTime_modes (position : Position) (w : World) :
    (updatePositionTime position w).modeButtons = w.modeButtons := by
  unfold updatePositionTime
  simp only
  have key : ∀ w1 : World, w1.modeButtons = w.modeButtons →
      (match w1.positionStartTime with
        | some _ =>
          if (updatePositionTimer w1).positionTimerInterval.isNone = true
          then startPositionTimer (updatePositionTimer w1) else updatePositionTimer w1
        | none => setText "pos-time" "N/A" w1).modeButtons = w.modeButtons := by
    intro w1 h1
    split
    · split_ifs
      · rw [startPositionTimer_modes, updatePositionTimer_modes]; exact h1
      · rw [updatePositionTimer_modes]; exact h1
    · exact h1
  apply key
  split_ifs
  · rfl
  · split
    · split_ifs <;> rfl
    · rfl

theorem updatePosition_modes (position : Position) (data : Status) (w : World) :
    (updatePosition position data w).world.modeButtons = w.modeButtons := by
  unfold updatePosition
  simp only
  apply Res.andThen_inv (fun w' => w'.modeButtons = w.modeButtons)
  · split <;> rfl
  · intro w1 h1
    show (match (setText "pos-size" _ w1).page "pos-time" with
      | some _ => updatePositionTime position (setText "pos-size" _ w1)
      | none => setText "pos-size" _ w1).modeButtons = _
    split
    · rw [updatePositionTime_modes]; exact h1
    · exact h1

theorem statusPosition_modes (data : Status) (w : World) :
    (statusPosition data w).world.modeButtons = w.modeButtons := by
  unfold statusPosition
  split
  · unfold statusOpenPosition
    simp only
    apply Res.andThen_inv (fun w' => w'.modeButtons = w.modeButtons)
    · split <;> rfl
    · intro w1 h1
      rw [updatePosition_modes, lockSymbol_modes]; exact h1
  · unfold statusNoPosition setTextStrict
    apply Res.andThen_inv (fun w' => w'.modeButtons = w.modeButtons)
    · split <;> rfl
    · intro w1 h1
      show (clearPosition _).modeButtons = _
      rw [clearPosition_modes]; exact h1

theorem statusTrades_modes (data : Status) (w : World) :
    (statusTrades data w).world.modeButtons = w.modeButtons := by
  unfold statusTrades
  simp only [updateTrades_fst]
  apply Res.andThen_inv (fun w' => w'.modeButtons = w.modeButtons)
  · repeat' split
    all_goals rfl
  · intro w1 h1
    exact h1

theorem statusSync_modes (data : Status) (w : World) :
    (statusSync data w).modeButtons =
      if truthy data.trading_mode = true then
        (updateModeButtons (data.trading_mode.getD "") w).modeButtons
      else w.modeButtons := by
  unfold statusSync updateModeButtons
  simp only
  split_ifs <;> (repeat' split) <;> rfl

theorem processSnapshot_modes (w : World) (gainers : Fetch GainersData) (data : Status)
    (hidle : w.isUpdating = false) :
    (processSnapshot w (gainers, data)).modeButtons =
      if truthy data.trading_mode = true then
        (updateModeButtons (data.trading_mode.getD "") w).modeButtons
      else w.modeButtons := by
  unfold processSnapshot
  simp only
  rw [updateDashboard_run _ _ w hidle]
  have hb : (updateDashboardBegin w).1 = fetch "/api/top_gainers" { w with isUpdating := true } := by
    unfold updateDashboardBegin
    simp [hidle]
  rw [hb]
  have h1 : (updateDashboardGainers gainers (fetch "/api/top_gainers"
      { w with isUpdating := true })).modeButtons = w.modeButtons := by
    rw [updateDashboardGainers_modes]; rfl
  revert h1
  generalize updateDashboardGainers gainers (fetch "/api/top_gainers"
      { w with isUpdating := true }) = w1
  intro h1
  have h2 : (applyStatus data w1).world.modeButtons = (statusSync data w1).modeButtons := by
    unfold applyStatus
    apply Res.andThen_inv (fun w' => w'.modeButtons = (statusSync data w1).modeButtons)
    · rw [statusBadges_modes]
    · intro w2 h2
      apply Res.andThen_inv (fun w' => w'.modeButtons = (statusSync data w1).modeButtons)
      · rw [statusPosition_modes]; exact h2
      · intro w3 h3
        rw [statusTrades_modes]; exact h3
  have h3 : (statusSync data w1).modeButtons =
      if truthy data.trading_mode = true then
        (updateModeButtons (data.trading_mode.getD "") w).modeButtons
      else w.modeButtons := by
    rw [statusSync_modes]
    unfold updateModeButtons
    simp only [h1]
  rw [← h3, ← h2]
  unfold updateDashboardStatus
  simp only
  generalize applyStatus data w1 = r
  cases r <;> rfl

end Modes

section Presence

/-! ### No method adds or removes an element of the page -/

theorem lockSymbol_isSome (position : Position) (w : World) (j : String) :
    ((lockSymbol position w).page j).isSome = (w.page j).isSome := by
  unfold lockSymbol
  split
  · split_ifs
    all_goals first
      | rfl
      | (simp only; rw [setText_isSome, setText_isSome])
  · rfl

theorem lockSymbol_timerSame (position : Position) (w : World) :
    TimerSame w (lockSymbol position w) := by
  unfold lockSymbol setText
  refine ⟨?_, ?_, ?_, ?_⟩ <;> (simp only; repeat' split) <;> rfl

theorem clearPosition_page (w : World) : (clearPosition w).page = w.page := by
  unfold clearPosition clearInterval
  (simp only; split) <;> rfl

theorem updatePosition_isSome (position : Position) (data : Status) (w : World) (j : String) :
    ((updatePosition position data w).world.page j).isSome = (w.page j).isSome := by
  unfold updatePosition
  simp only
  apply Res.andThen_inv (fun w' => (w'.page j).isSome = (w.page j).isSome)
  · split
    · show ((setText _ _ (setText _ _ _)).page j).isSome = _
      rw [setText_isSome, setText_isSome]
    · show ((setText _ _ _).page j).isSome = _
      rw [setText_isSome]
    · show ((setText _ _ _).page j).isSome = _
      rw [setText_isSome]
  · intro w1 h1
    show ((setText "pos-pnl" _ (match (setText "pos-size" _ w1).page "pos-time" with
      | some _ => updatePositionTime position (setText "pos-size" _ w1)
      | none => setText "pos-size" _ w1)).page j).isSome = _
    rw [setText_isSome]
    split
    · rw [updatePositionTime_isSome, setText_isSome]; exact h1
    · rw [setText_isSome]; exact h1

theorem statusBadges_isSome (data : Status) (w : World) (j : String) :
    ((statusBadges data w).world.page j).isSome = (w.page j).isSome := by
  unfold statusBadges setTextStrict touchStrict
  apply Res.andThen_inv (fun w' => (w'.page j).isSome = (w.page j).isSome)
  · split
    · rfl
    · exact setText_isSome _ _ _ _
  · intro w1 h1
    apply Res.andThen_inv (fun w' => (w'.page j).isSome = (w.page j).isSome)
    · split <;> exact h1
    · intro w2 h2
      apply Res.andThen_inv (fun w' => (w'.page j).isSome = (w.page j).isSome)
      · split <;> exact h2
      · intro w3 h3
        split
        · show ((updateSARDirections _ w3).page j).isSome = _
          rw [updateSARDirections_isSome]; exact h3
        · exact h3

theorem statusPosition_isSome (data : Status) (w : World) (j : String) :
    ((statusPosition data w).world.page j).isSome = (w.page j).isSome := by
  unfold statusPosition
  split
  · unfold statusOpenPosition
    simp only
    apply Res.andThen_inv (fun w' => (w'.page j).isSome = (w.page j).isSome)
    · split
      · exact setText_isSome _ _ _ _
      · rfl
    · intro w1 h1
      rw [updatePosition_isSome, lockSymbol_isSome]; exact h1
  · unfold statusNoPosition setTextStrict
    apply Res.andThen_inv (fun w' => (w'.page j).isSome = (w.page j).isSome)
    · split
      · rfl
      · exact setText_isSome _ _ _ _
    · intro w1 h1
      show ((clearPosition _).page j).isSome = _
      rw [clearPosition_page]; exact h1

theorem statusTrades_page (data : Status) (w : World) :
    (statusTrades data w).world.page = w.page := by
  unfold statusTrades
  simp only [updateTrades_fst]
  apply Res.andThen_inv (fun w' => w'.page = w.page)
  · repeat' split
    all_goals rfl
  · intro w1 h1
    exact h1

theorem processSnapshot_isSome (w : World) (tick : Fetch GainersData × Status) (j : String) :
    ((processSnapshot w tick).page j).isSome = (w.page j).isSome := by
  unfold processSnapshot updateDashboard updateDashboardBegin
  split_ifs with hu
  · rfl
  · simp only
    have h1 : ((updateDashboardGainers tick.1 (fetch "/api/top_gainers"
        { w with isUpdating := true })).page j).isSome = (w.page j).isSome := by
      rw [updateDashboardGainers_isSome]; rfl
    revert h1
    generalize updateDashboardGainers tick.1 (fetch "/api/top_gainers"
        { w with isUpdating := true }) = w1
    intro h1
    have h2 : ((applyStatus tick.2 w1).world.page j).isSome = (w.page j).isSome := by
      unfold applyStatus
      apply Res.andThen_inv (fun w' => (w'.page j).isSome = (w.page j).isSome)
      · rw [statusBadges_isSome, statusSync_page]; exact h1
      · intro w2 h2
        apply Res.andThen_inv (fun w' => (w'.page j).isSome = (w.page j).isSome)
        · rw [statusPosition_isSome]; exact h2
        · intro w3 h3
          rw [statusTrades_page]; exact h3
    unfold updateDashboardStatus
    simp only
    revert h2
    generalize applyStatus tick.2 w1 = r
    intro h2
    cases r <;> exact h2

theorem processSnapshot_idle (w : World) (tick : Fetch GainersData × Status)
    (h : w.isUpdating = false) : (processSnapshot w tick).isUpdating = false := by
  unfold processSnapshot
  rw [updateDashboard_run _ _ w h]
  obtain ⟨w', hw, hu⟩ := updateDashboardStatus_ok (.response true (some tick.2))
    (updateDashboardGainers tick.1 (updateDashboardBegin w).1)
  rw [hw]
  exact hu

end Presence

section Lifecycle

theorem statusPosition_noObject (data : Status) (w : World)
    (h : data.in_position = false ∨ data.position = none) :
    statusPosition data w = statusNoPosition w := by
  unfold statusPosition
  rcases h with h | h
  · rw [h]
  · rw [h]
    cases data.in_position <;> rfl

/-- The state a started run reaches at the position statement, on a page with
the three badge elements. -/
theorem processSnapshot_reaches (w : World) (gainers : Fetch GainersData) (data : Status)
    (hidle : w.isUpdating = false)
    (h1 : (w.page "bot-status").isSome = true) (h2 : (w.page "balance").isSome = true)
    (h3 : (w.page "available").isSome = true) :
    ∃ w3 : World, TimerSame w w3 ∧ (∀ j, (w3.page j).isSome = (w.page j).isSome) ∧
      ∀ w4 : World, statusPosition data w3 = .ok w4 →
        ∃ w5 : World, LockSame w4 w5 ∧ TimerSame w4 w5 ∧
          processSnapshot w (gainers, data) = { w5 with isUpdating := false } := by
  have hb : (updateDashboardBegin w).1 = fetch "/api/top_gainers" { w with isUpdating := true } := by
    unfold updateDashboardBegin
    simp [hidle]
  have hpres : ∀ j, ((statusSync data (updateDashboardGainers gainers
      (fetch "/api/top_gainers" { w with isUpdating := true }))).page j).isSome
      = (w.page j).isSome := by
    intro j
    rw [statusSync_page, updateDashboardGainers_isSome]
    rfl
  have htim : TimerSame w (statusSync data (updateDashboardGainers gainers
      (fetch "/api/top_gainers" { w with isUpdating := true }))) :=
    TimerSame.timerTrans (b := fetch "/api/top_gainers" { w with isUpdating := true })
      ⟨rfl, rfl, rfl, rfl⟩
      ((updateDashboardGainers_timerSame _ _).timerTrans (statusSync_timerSame _ _))
  obtain ⟨w3, hw3, -, ht3, hp3⟩ := statusBadges_ok data _ ((hpres _).trans h1)
    ((hpres _).trans h2) ((hpres _).trans h3)
  refine ⟨w3, htim.timerTrans ht3, fun j => (hp3 j).trans (hpres j), ?_⟩
  intro w4 hpos
  have hl5 := statusTrades_lockSame data w4
  have ht5 := statusTrades_timerSame data w4
  unfold processSnapshot
  simp only
  rw [updateDashboard_run _ _ w hidle, hb]
  unfold updateDashboardStatus applyStatus
  simp only [hw3, hpos, Res.andThen]
  revert hl5 ht5
  generalize statusTrades data w4 = r
  intro hl5 ht5
  cases r with
  | ok w5 => exact ⟨w5, hl5, ht5, rfl⟩
  | threw w5 => exact ⟨w5, hl5, ht5, rfl⟩

/-- A started run on a snapshot without a position, or without a position
object, releases the lock and clears the position clock. -/
theorem processSnapshot_released (w : World) (gainers : Fetch GainersData) (data : Status)
    (hidle : w.isUpdating = false)
    (hno : data.in_position = false ∨ data.position = none)
    (h1 : (w.page "bot-status").isSome = true) (h2 : (w.page "balance").isSome = true)
    (h3 : (w.page "available").isSome = true)
    (h4 : (w.page "position-status").isSome = true) :
    (processSnapshot w (gainers, data)).positionSymbolLocked = false ∧
    (processSnapshot w (gainers, data)).lockedSymbol = none ∧
    (processSnapshot w (gainers, data)).positionTimerInterval = none ∧
    (processSnapshot w (gainers, data)).positionStartTime = none ∧
    ∀ id, w.positionTimerInterval = some id →
      ∀ t ∈ (processSnapshot w (gainers, data)).timers, t.id ≠ id := by
  obtain ⟨w3, ht3, hp3, hrest⟩ := processSnapshot_reaches w gainers data hidle h1 h2 h3
  obtain ⟨w4, hw4, a1, a2, a3, a4, -, a6⟩ := statusNoPosition_ok w3 ((hp3 _).trans h4)
  obtain ⟨w5, hl, ht, hfin⟩ := hrest w4 (by rw [statusPosition_noObject data w3 hno]; exact hw4)
  rw [hfin]
  refine ⟨hl.1.trans a1, hl.2.1.trans a2, ht.1.trans a3, ht.2.1.trans a4, ?_⟩
  intro id hid t hmem
  have hmem' : t ∈ w4.timers := by
    have : ({ w5 with isUpdating := false } : World).timers = w4.timers := ht.2.2.2
    rw [this] at hmem
    exact hmem
  exact a6 id (by rw [ht3.1]; exact hid) t hmem'

/-- A started run on a snapshot with a position leaves the start time that the
`pos-time` block computes from the position and the previous start time. -/
theorem processSnapshot_open_start (w : World) (gainers : Fetch GainersData) (data : Status)
    (position : Position) (side : String)
    (hidle : w.isUpdating = false) (hin : data.in_position = true)
    (hpos : data.position = some position) (hside : position.side = some side)
    (h1 : (w.page "bot-status").isSome = true) (h2 : (w.page "balance").isSome = true)
    (h3 : (w.page "available").isSome = true)
    (h4 : (w.page "position-status").isSome = true)
    (h5 : (w.page "pos-time").isSome = true) :
    ∃ w' : World, w'.positionStartTime = w.positionStartTime ∧
      (processSnapshot w (gainers, data)).positionStartTime
        = (updatePositionTime position w').positionStartTime := by
  obtain ⟨w3, ht3, hp3, hrest⟩ := processSnapshot_reaches w gainers data hidle h1 h2 h3
  obtain ⟨t4, ht4⟩ := Option.isSome_iff_exists.mp ((hp3 "position-status").trans h4)
  obtain ⟨w1, hp1, hs1, hw1⟩ := updatePosition_ok position data
    (lockSymbol position (setText "position-status" (toUpperCase side) w3)) side hside
  have hpt : (w1.page "pos-time").isSome = true := by
    rw [hp1, lockSymbol_isSome, setText_isSome, hp3]; exact h5
  obtain ⟨t5, ht5⟩ := Option.isSome_iff_exists.mp hpt
  have hopen : statusPosition data w3 = .ok (setText "pos-pnl" (pnlText (unrealizedPnl position))
      (updatePositionTime position w1)) := by
    unfold statusPosition
    rw [hin, hpos]
    unfold statusOpenPosition
    simp only [ht4, hside, Res.andThen]
    rw [hw1, ht5]
  obtain ⟨w5, -, ht, hfin⟩ := hrest _ hopen
  refine ⟨w1, ?_, ?_⟩
  · rw [hs1, (lockSymbol_timerSame _ _).2.1]
    exact ht3.2.1
  · rw [hfin]
    exact ht.2.1

/-- A started run on an in-position snapshot whose position carries no `side`
raises at the `position-status` statement: the position clock is as before. -/
theorem processSnapshot_noSide (w : World) (gainers : Fetch GainersData) (data : Status)
    (position : Position)
    (hidle : w.isUpdating = false) (hin : data.in_position = true)
    (hpos : data.position = some position) (hside : position.side = none)
    (h1 : (w.page "bot-status").isSome = true) (h2 : (w.page "balance").isSome = true)
    (h3 : (w.page "available").isSome = true) :
    TimerSame w (processSnapshot w (gainers, data)) := by
  have hb : (updateDashboardBegin w).1 = fetch "/api/top_gainers" { w with isUpdating := true } := by
    unfold updateDashboardBegin
    simp [hidle]
  have hpres : ∀ j, ((statusSync data (updateDashboardGainers gainers
      (fetch "/api/top_gainers" { w with isUpdating := true }))).page j).isSome
      = (w.page j).isSome := by
    intro j
    rw [statusSync_page, updateDashboardGainers_isSome]
    rfl
  have htim : TimerSame w (statusSync data (updateDashboardGainers gainers
      (fetch "/api/top_gainers" { w with isUpdating := true }))) :=
    TimerSame.timerTrans (b := fetch "/api/top_gainers" { w with isUpdating := true })
      ⟨rfl, rfl, rfl, rfl⟩
      ((updateDashboardGainers_timerSame _ _).timerTrans (statusSync_timerSame _ _))
  obtain ⟨w3, hw3, -, ht3, -⟩ := statusBadges_ok data _ ((hpres _).trans h1)
    ((hpres _).trans h2) ((hpres _).trans h3)
  have hthrew : statusPosition data w3 = .threw w3 := by
    unfold statusPosition
    rw [hin, hpos]
    unfold statusOpenPosition
    simp only [hside]
    cases w3.page "position-status" <;> rfl
  unfold processSnapshot
  simp only
  rw [updateDashboard_run _ _ w hidle, hb]
  unfold updateDashboardStatus applyStatus
  simp only [hw3, hthrew, Res.andThen]
  exact (htim.timerTrans ht3).timerTrans (b := w3) ⟨rfl, rfl, rfl, rfl⟩

end Lifecycle

/-- C14, as the code has it.  When two consecutive in-position snapshots carry
different position identifiers, the lock is not re-armed: after the second
snapshot the lock is still set and `lockedSymbol` is still the base symbol locked
for the first position. -/
theorem lock_kept_across_positions (w0 : World) (gainersA gainersB : Fetch GainersData)
    (A B : Status) (positionA positionB : Position) (symbolA : String)
    (hA : A.in_position = true) (hpA : A.position = some positionA)
    (hsA : positionA.symbol = some symbolA) (hne : symbolA ≠ "")
    (hB : B.in_position = true) (hpB : B.position = some positionB)
    (_hid : positionA.id ≠ positionB.id)
    (hfree : w0.positionSymbolLocked = false)
    (hacq : (processSnapshot w0 (gainersA, A)).positionSymbolLocked = true) :
    (processSnapshot (processSnapshot w0 (gainersA, A)) (gainersB, B)).positionSymbolLocked
      = true ∧
    (processSnapshot (processSnapshot w0 (gainersA, A)) (gainersB, B)).lockedSymbol
      = some (splitFirst '_' symbolA) := by
  have h1 : LockHolds (splitFirst '_' symbolA) (processSnapshot w0 (gainersA, A)) := by
    rcases processSnapshot_acquires (gainersA, A) positionA symbolA hA hpA hsA hne w0
      (Or.inl hfree) with h | h
    · rw [hacq] at h; cases h
    · exact h
  have h2 := processSnapshot_holds (splitFirst '_' symbolA) (gainersB, B) hB
    (by rw [hpB]; rfl) _ h1
  exact ⟨h2.1, h2.2.1⟩

/-- C14, as the code has it, on position `A` on `BBB` followed by position `B`
on `DDD`. -/
theorem lock_kept_across_positions_witness :
    (processSnapshot sampleWorld (sampleGainers, samplePositionA)).positionSymbolLocked = true ∧
    (processSnapshot (processSnapshot sampleWorld (sampleGainers, samplePositionA))
      (sampleGainers, samplePositionB)).lockedSymbol = some "BBB" :=
  ⟨by decide,
   (lock_kept_across_positions sampleWorld sampleGainers sampleGainers samplePositionA
      samplePositionB
      { id := some "A", symbol := some "BBB_USDT", side := some "long",
        open_timestamp := some 1000 }
      { id := some "B", symbol := some "DDD_USDT", side := some "long" } "BBB_USDT"
      rfl rfl rfl (by decide) rfl rfl (by decide) rfl (by decide)).2⟩

/-- C14 fails as stated: after position `A` on `BBB` and then position `B` on
`DDD`, `lockedSymbol` is not `DDD`. -/
theorem lock_not_rearmed :
    (processSnapshot (processSnapshot sampleWorld (sampleGainers, samplePositionA))
      (sampleGainers, samplePositionB)).lockedSymbol ≠ some "DDD" := by
  decide

/-- C15, as the code has it.  When an in-position snapshot with position `B`
follows a snapshot with position `A` (the run is started and the page has
`bot-status`, `balance`, `available`, `position-status` and `pos-time`), then:
when `B` carries a `side`, the start time is taken from `B` itself, `B`'s
`open_timestamp` when it is greater than 0, otherwise `B`'s `entry_time` read as
UTC when it has one, and it stays as it was after `A` when `B` has neither; when
`B` carries no `side`, the run raises before the position panel and the start
time stays as it was after `A`.  It is never the moment `B` is observed. -/
theorem start_time_from_position (w0 : World) (gainersA gainersB : Fetch GainersData)
    (A B : Status) (positionB : Position)
    (hidle : w0.isUpdating = false) (hB : B.in_position = true)
    (hpB : B.position = some positionB)
    (h1 : (w0.page "bot-status").isSome = true) (h2 : (w0.page "balance").isSome = true)
    (h3 : (w0.page "available").isSome = true)
    (h4 : (w0.page "position-status").isSome = true)
    (h5 : (w0.page "pos-time").isSome = true) :
    (∀ side, positionB.side = some side →
      (∀ t, positionB.open_timestamp = some t → 0 < t →
        (processSnapshot (processSnapshot w0 (gainersA, A)) (gainersB, B)).positionStartTime
          = some (.ofTimestamp t)) ∧
      (∀ entryTime, positionB.open_timestamp.getD 0 ≤ 0 →
        positionB.entry_time = some entryTime → entryTime ≠ "" →
        (processSnapshot (processSnapshot w0 (gainersA, A)) (gainersB, B)).positionStartTime
          = some (.ofIso (asUtc entryTime))) ∧
      (positionB.open_timestamp.getD 0 ≤ 0 →
        (positionB.entry_time = none ∨ positionB.entry_time = some "") →
        (processSnapshot (processSnapshot w0 (gainersA, A)) (gainersB, B)).positionStartTime
          = (processSnapshot w0 (gainersA, A)).positionStartTime)) ∧
    (positionB.side = none →
      (processSnapshot (processSnapshot w0 (gainersA, A)) (gainersB, B)).positionStartTime
        = (processSnapshot w0 (gainersA, A)).positionStartTime) := by
  have p1 := (processSnapshot_isSome w0 (gainersA, A) "bot-status").trans h1
  have p2 := (processSnapshot_isSome w0 (gainersA, A) "balance").trans h2
  have p3 := (processSnapshot_isSome w0 (gainersA, A) "available").trans h3
  have p4 := (processSnapshot_isSome w0 (gainersA, A) "position-status").trans h4
  have p5 := (processSnapshot_isSome w0 (gainersA, A) "pos-time").trans h5
  constructor
  · intro side hside
    obtain ⟨w', hkeep, hw'⟩ := processSnapshot_open_start (processSnapshot w0 (gainersA, A))
      gainersB B positionB side (processSnapshot_idle _ _ hidle) hB hpB hside p1 p2 p3 p4 p5
    rw [hw', updatePositionTime_start]
    refine ⟨?_, ?_, ?_⟩
    · intro t ht hpos
      simp [ht, hpos]
    · intro e hle he hne
      have : ¬ (positionB.open_timestamp.getD 0 > 0) := not_lt.mpr hle
      simp [this, he, hne]
    · intro hle he
      have : ¬ (positionB.open_timestamp.getD 0 > 0) := not_lt.mpr hle
      rcases he with he | he
      · simp [this, he, hkeep]
      · simp [this, he, hkeep]
  · intro hside
    exact (processSnapshot_noSide (processSnapshot w0 (gainersA, A)) gainersB B positionB
      (processSnapshot_idle _ _ hidle) hB hpB hside p1 p2 p3).2.1

/-- C15, as the code has it, on position `B` observed at client time 5000 and
carrying the server time 2000. -/
theorem start_time_from_position_witness :
    ({ sampleWorld with now := 5000 } : World).isUpdating = false ∧
    (processSnapshot (processSnapshot { sampleWorld with now := 5000 }
        (sampleGainers, samplePositionA))
      (sampleGainers,
        { in_position := true,
          position := some { id := some "B", side := some "long",
                             open_timestamp := some 2000 } })).positionStartTime
      = some (.ofTimestamp 2000) :=
  ⟨rfl,
   ((start_time_from_position { sampleWorld with now := 5000 } sampleGainers sampleGainers
      samplePositionA
      { in_position := true,
        position := some { id := some "B", side := some "long", open_timestamp := some 2000 } }
      { id := some "B", side := some "long", open_timestamp := some 2000 }
      rfl rfl rfl rfl rfl rfl rfl rfl).1 "long" rfl).1 2000 rfl (by decide)⟩

/-- C15 fails as stated: after position `A` (server time 1000) and then
position `B`, which carries no timestamp, both observed at client time 5000, the
start time is still the one of `A`, and it is not the client time. -/
theorem start_time_not_reset :
    (processSnapshot (processSnapshot { sampleWorld with now := 5000 }
        (sampleGainers, samplePositionA)) (sampleGainers, samplePositionB)).positionStartTime
      = some (.ofTimestamp 1000) ∧
    (processSnapshot (processSnapshot { sampleWorld with now := 5000 }
        (sampleGainers, samplePositionA)) (sampleGainers, samplePositionB)).positionStartTime
      ≠ some (.ofTimestamp 5000) := by
  decide

/-- C17 at the failing input: from the freshly constructed dashboard, one run on
the snapshot that opens a position on `BBB` leaves `currentSymbol` at its
initial value, and a second run on the same snapshot (same leaderboard answer)
changes it to `BBB`. -/
theorem currentSymbol_not_idempotent :
    (processSnapshot sampleWorld (sampleGainers, sampleOpen)).currentSymbol = "TOP1/USDT" ∧
    (processSnapshot (processSnapshot sampleWorld (sampleGainers, sampleOpen))
      (sampleGainers, sampleOpen)).currentSymbol = "BBB" := by
  decide

/-- C18, as the code has it.  A snapshot with `in_position = true` and no
position object is handled like a snapshot without a position: after a started
run on a page with `bot-status`, `balance`, `available` and `position-status`,
`positionSymbolLocked` is false, `lockedSymbol` and `positionStartTime` are null
and the position timer is stopped. -/
theorem missing_position_object_releases (w : World) (gainers : Fetch GainersData)
    (data : Status) (hidle : w.isUpdating = false) (hin : data.in_position = true)
    (hnone : data.position = none)
    (h1 : (w.page "bot-status").isSome = true) (h2 : (w.page "balance").isSome = true)
    (h3 : (w.page "available").isSome = true)
    (h4 : (w.page "position-status").isSome = true) :
    (processSnapshot w (gainers, data)).positionSymbolLocked = false ∧
    (processSnapshot w (gainers, data)).lockedSymbol = none ∧
    (processSnapshot w (gainers, data)).positionStartTime = none ∧
    (processSnapshot w (gainers, data)).positionTimerInterval = none ∧
    ∀ id, w.positionTimerInterval = some id →
      ∀ t ∈ (processSnapshot w (gainers, data)).timers, t.id ≠ id := by
  have _ := hin
  obtain ⟨a1, a2, a3, a4, a5⟩ :=
    processSnapshot_released w gainers data hidle (Or.inr hnone) h1 h2 h3 h4
  exact ⟨a1, a2, a4, a3, a5⟩

/-- C18, as the code has it, on a dashboard that holds a lock on `BBB`. -/
theorem missing_position_object_releases_witness :
    (processSnapshot sampleWorld (sampleGainers, sampleOpen)).isUpdating = false ∧
    sampleNoObject.position = none ∧
    (processSnapshot (processSnapshot sampleWorld (sampleGainers, sampleOpen))
      (sampleGainers, sampleNoObject)).lockedSymbol = none :=
  ⟨by decide, rfl,
   (missing_position_object_releases (processSnapshot sampleWorld (sampleGainers, sampleOpen))
      sampleGainers sampleNoObject (by decide) rfl rfl (by decide) (by decide) (by decide)
      (by decide)).2.1⟩

/-- C18 fails as stated: on a dashboard locked on `BBB`, a snapshot with
`in_position = true` and no position object does not keep the lock. -/
theorem missing_position_object_not_ignored :
    (processSnapshot sampleWorld (sampleGainers, sampleOpen)).lockedSymbol = some "BBB" ∧
    (processSnapshot (processSnapshot sampleWorld (sampleGainers, sampleOpen))
      (sampleGainers, sampleNoObject)).lockedSymbol
      ≠ (processSnapshot sampleWorld (sampleGainers, sampleOpen)).lockedSymbol := by
  decide

/-- C19, as the code has it.  A started run of `updateDashboard` on a status
snapshot sets the active mode button from the snapshot: when `trading_mode` is a
non-empty string the active button is the one whose `data-mode` equals it, and
otherwise the buttons are left as they were. -/
theorem snapshot_syncs_mode (w : World) (gainers : Fetch GainersData) (data : Status)
    (hidle : w.isUpdating = false) :
    (processSnapshot w (gainers, data)).modeButtons =
      if truthy data.trading_mode = true then
        w.modeButtons.map (fun btn => (btn.1, btn.1 == data.trading_mode.getD ""))
      else w.modeButtons := by
  rw [processSnapshot_modes w gainers data hidle]
  rfl

/-- C19, as the code has it, on a snapshot that carries no `trading_mode`. -/
theorem snapshot_syncs_mode_witness :
    sampleModes.isUpdating = false ∧
    (processSnapshot sampleModes (sampleGainers, sampleFlat)).modeButtons
      = sampleModes.modeButtons :=
  ⟨rfl, snapshot_syncs_mode sampleModes sampleGainers sampleFlat rfl⟩

/-- C19 fails as stated: with `demo` selected, processing a snapshot whose
`trading_mode` is `real` makes `real` the active button. -/
theorem snapshot_changes_mode :
    (processSnapshot sampleModes
      (sampleGainers, { trading_mode := some "real" })).modeButtons
      = [("demo", false), ("real", true)] ∧
    (processSnapshot sampleModes
      (sampleGainers, { trading_mode := some "real" })).modeButtons
      ≠ sampleModes.modeButtons := by
  decide

/-- C24 at the failing input: on a dashboard locked on `BBB`, an answer of the
symbol poll without `symbol` makes `updateCurrentSymbol` write `TOP1/USDT` to
`chart-symbol` while the lock is still held, and an answer with the symbol
`AAA/USDT` makes it write `AAA/USDT`. -/
theorem updateCurrentSymbol_ignores_lock :
    (processSnapshot sampleWorld (sampleGainers, sampleOpen)).page "chart-symbol" = some "BBB" ∧
    (updateCurrentSymbol (.response true (some { }))
      (processSnapshot sampleWorld (sampleGainers, sampleOpen))).positionSymbolLocked = true ∧
    (updateCurrentSymbol (.response true (some { }))
      (processSnapshot sampleWorld (sampleGainers, sampleOpen))).lockedSymbol = some "BBB" ∧
    (updateCurrentSymbol (.response true (some { }))
      (processSnapshot sampleWorld (sampleGainers, sampleOpen))).page "chart-symbol"
      = some "TOP1/USDT" ∧
    (updateCurrentSymbol (.response true (some { symbol := some "AAA/USDT" }))
      (processSnapshot sampleWorld (sampleGainers, sampleOpen))).page "chart-symbol"
      = some "AAA/USDT" := by
  decide

/-- C26. For elapsed seconds `e ≥ 0`, the hours `h`, minutes `m` and seconds `s`
of `updatePositionTimer` satisfy `h * 3600 + m * 60 + s = e`, `0 ≤ m < 60` and
`0 ≤ s < 60`; the text has no hours part exactly when `h = 0`; and this text is
what the method writes to `pos-time`. -/
theorem timerText_parts (e : Nat) :
    Int.fdiv e 3600 * 3600 + Int.fdiv (Int.tmod e 3600) 60 * 60 + Int.tmod e 60 = e ∧
    0 ≤ Int.fdiv (Int.tmod e 3600) 60 ∧ Int.fdiv (Int.tmod e 3600) 60 < 60 ∧
    0 ≤ Int.tmod e 60 ∧ Int.tmod e 60 < 60 ∧
    (Int.fdiv e 3600 = 0 →
      timerText e = toString (Int.fdiv (Int.tmod e 3600) 60) ++ "м "
        ++ toString (Int.tmod e 60) ++ "с") ∧
    (Int.fdiv e 3600 ≠ 0 →
      timerText e = toString (Int.fdiv e 3600) ++ "ч "
        ++ toString (Int.fdiv (Int.tmod e 3600) 60) ++ "м " ++ toString (Int.tmod e 60) ++ "с") ∧
    ∀ (w : World) (start : StartTime), w.positionStartTime = some start →
      (w.page "pos-time").isSome = true → Int.fdiv (elapsedMs w start) 1000 = e →
      (updatePositionTimer w).page "pos-time" = some (timerText e) := by
  have e0 : (0 : Int) ≤ e := Int.ofNat_nonneg e
  have h1 : Int.fdiv e 3600 = (e : Int) / 3600 := Int.fdiv_eq_ediv _ (by norm_num)
  have h2 : Int.tmod e 3600 = (e : Int) % 3600 := Int.tmod_eq_emod e0 (by norm_num)
  have h3 : Int.tmod e 60 = (e : Int) % 60 := Int.tmod_eq_emod e0 (by norm_num)
  have h4 : Int.fdiv ((e : Int) % 3600) 60 = ((e : Int) % 3600) / 60 :=
    Int.fdiv_eq_ediv _ (by norm_num)
  refine ⟨?_, ?_, ?_, ?_, ?_, ?_, ?_, ?_⟩
  · rw [h1, h2, h3, h4]; omega
  · rw [h2, h4]; omega
  · rw [h2, h4]; omega
  · rw [h3]; omega
  · rw [h3]; omega
  · intro hz
    have : ¬ (Int.fdiv e 3600 > 0) := by rw [hz]; decide
    simp only [timerText, this, if_false]
  · intro hz
    have hpos : Int.fdiv e 3600 > 0 := by
      rw [h1] at hz ⊢
      omega
    simp only [timerText, hpos, if_true]
  · intro w start hs hel he
    obtain ⟨t, ht⟩ := Option.isSome_iff_exists.mp hel
    unfold updatePositionTimer
    simp only [hs, ht, he, setText_page_self]
    rfl

/-- C26 at 3725 elapsed seconds: 1 h 2 min 5 s. -/
theorem timerText_parts_witness :
    Int.fdiv (3725 : Nat) 3600 ≠ 0 ∧
    timerText (3725 : Nat) = toString (Int.fdiv (3725 : Nat) 3600) ++ "ч "
      ++ toString (Int.fdiv (Int.tmod (3725 : Nat) 3600) 60) ++ "м "
      ++ toString (Int.tmod (3725 : Nat) 60) ++ "с" :=
  ⟨by decide, (timerText_parts 3725).2.2.2.2.2.2.1 (by decide)⟩

/-- C27. `toggleOpenLevel(level)` flips the membership of `level` in
`openLevels`, keeps the membership of every other level and leaves
`closeLevels` as it was, so two calls with the same level give back the
original set; and the same for `toggleCloseLevel` with the two sets exchanged.
This holds whatever the save requests answer. -/
theorem toggle_level_flips (level : String) (r1 r2 : Fetch CommandData) (w : World) :
    ((∀ l, l ∈ (toggleOpenLevel level r1 w).openLevels ↔
        if l = level then l ∉ w.openLevels else l ∈ w.openLevels) ∧
      (toggleOpenLevel level r1 w).closeLevels = w.closeLevels ∧
      (∀ l, l ∈ (toggleOpenLevel level r2 (toggleOpenLevel level r1 w)).openLevels ↔
        l ∈ w.openLevels) ∧
      (toggleOpenLevel level r2 (toggleOpenLevel level r1 w)).closeLevels = w.closeLevels) ∧
    ((∀ l, l ∈ (toggleCloseLevel level r1 w).closeLevels ↔
        if l = level then l ∉ w.closeLevels else l ∈ w.closeLevels) ∧
      (toggleCloseLevel level r1 w).openLevels = w.openLevels ∧
      (∀ l, l ∈ (toggleCloseLevel level r2 (toggleCloseLevel level r1 w)).closeLevels ↔
        l ∈ w.closeLevels) ∧
      (toggleCloseLevel level r2 (toggleCloseLevel level r1 w)).openLevels = w.openLevels) := by
  have key : ∀ (xs : List String) (l : String),
      (l ∈ (if xs.elem level = true then xs.filter (fun x => x != level) else xs ++ [level]) ↔
        if l = level then l ∉ xs else l ∈ xs) := by
    intro xs l
    by_cases hm : level ∈ xs <;> by_cases hl : l = level
    · subst hl; simp [hm]
    · simp [hm, hl]
    · subst hl; simp [hm]
    · simp [hm, hl]
  have hO : ∀ r w, (toggleOpenLevel level r w).openLevels =
      (if w.openLevels.elem level = true then w.openLevels.filter (fun x => x != level)
        else w.openLevels ++ [level]) ∧ (toggleOpenLevel level r w).closeLevels = w.closeLevels := by
    intro r w
    unfold toggleOpenLevel saveStrategyConfig fetch
    constructor <;> (simp only; split_ifs) <;> rfl
  have hC : ∀ r w, (toggleCloseLevel level r w).closeLevels =
      (if w.closeLevels.elem level = true then w.closeLevels.filter (fun x => x != level)
        else w.closeLevels ++ [level]) ∧ (toggleCloseLevel level r w).openLevels = w.openLevels := by
    intro r w
    unfold toggleCloseLevel saveStrategyConfig fetch
    constructor <;> (simp only; split_ifs) <;> rfl
  have twice : ∀ (xs ys zs : List String),
      (∀ l, l ∈ ys ↔ if l = level then l ∉ xs else l ∈ xs) →
      (∀ l, l ∈ zs ↔ if l = level then l ∉ ys else l ∈ ys) → ∀ l, l ∈ zs ↔ l ∈ xs := by
    intro xs ys zs h1 h2 l
    rw [h2 l]
    by_cases hl : l = level
    · simp only [hl, if_true]
      rw [h1 level]
      simp
    · simp only [hl, if_false]
      rw [h1 l]
      simp [hl]
  refine ⟨⟨?_, (hO r1 w).2, ?_, ?_⟩, ⟨?_, (hC r1 w).2, ?_, ?_⟩⟩
  · intro l; rw [(hO r1 w).1]; exact key _ l
  · apply twice w.openLevels (toggleOpenLevel level r1 w).openLevels
    · intro l; rw [(hO r1 w).1]; exact key _ l
    · intro l; rw [(hO r2 _).1]; exact key _ l
  · rw [(hO r2 _).2, (hO r1 w).2]
  · intro l; rw [(hC r1 w).1]; exact key _ l
  · apply twice w.closeLevels (toggleCloseLevel level r1 w).closeLevels
    · intro l; rw [(hC r1 w).1]; exact key _ l
    · intro l; rw [(hC r2 _).1]; exact key _ l
  · rw [(hC r2 _).2, (hC r1 w).2]

/-- C28 at the failing input: with one candle and two SAR points the marker
callback reads `candles[1]`, which is `undefined`; the `TypeError` is caught,
`setMarkers` is never called and `fitContent` is skipped. -/
theorem updateChart_markers_overrun :
    sarMarkers (chartCandles 1000 [{ close := some 10 }]) 0
      [{ value := some 9 }, { value := some 8 }] = none ∧
    (updateChartResponse 1000000 sampleChartData { }).markers = [] ∧
    (updateChartResponse 1000000 sampleChartData { }).errorsLogged = 1 ∧
    (updateChartResponse 1000000 sampleChartData { }).fitContentCalls = 0 ∧
    (updateChartResponse 1000000 sampleChartData { }).sarData.length = 1 := by
  decide

/-- C29 at the failing input: after the page load one timer invokes
`updateDashboard`; after a completed mode switch two do. -/
theorem mode_switch_adds_status_poll :
    (statusPollTimers sampleLoaded).length = 1 ∧
    (statusPollTimers (setTradingMode "real" (.response true (some { })) sampleGainers
      (.response true (some sampleFlat)) sampleLoaded)).length = 2 := by
  decide

/-- C30 at the failing input: after a position on `BBB_USDT` and then a
snapshot without position, `lastPosition` still holds the closed position and
`updateTopGainers` marks the row of `BBB_USDT` as locked. -/
theorem closed_position_still_marked :
    (processSnapshot (processSnapshot sampleWorld (sampleGainers, sampleOpen))
      (sampleGainers, sampleFlat)).positionSymbolLocked = false ∧
    (updateTopGainersRows sampleLeaderboard
      (processSnapshot (processSnapshot sampleWorld (sampleGainers, sampleOpen))
        (sampleGainers, sampleFlat))).map (fun rows => rows.map (fun row => (row.1.symbol, row.2)))
      = some [(some "BBB_USDT", true), (some "AAA_USDT", false)] := by
  decide

section Signal

theorem sarStep_fst_congr (directions : List (String × String)) (st1 st2 : SarAcc × World)
    (tf : String) (hacc : st1.1 = st2.1)
    (h1 : (st1.2.page ("sar-" ++ tf)).isSome = (st2.2.page ("sar-" ++ tf)).isSome)
    (h2 : (st1.2.page ("sar-" ++ tf ++ "-container")).isSome
      = (st2.2.page ("sar-" ++ tf ++ "-container")).isSome) :
    (sarStep directions st1 tf).1 = (sarStep directions st2 tf).1 := by
  unfold sarStep
  simp only [h1, h2, hacc]
  split_ifs <;> rfl

theorem sarFold_fst_congr (directions : List (String × String)) (l : List String) :
    ∀ (st1 st2 : SarAcc × World), st1.1 = st2.1 →
      (∀ tf ∈ l, (st1.2.page ("sar-" ++ tf)).isSome = (st2.2.page ("sar-" ++ tf)).isSome ∧
        (st1.2.page ("sar-" ++ tf ++ "-container")).isSome
          = (st2.2.page ("sar-" ++ tf ++ "-container")).isSome) →
      (l.foldl (sarStep directions) st1).1 = (l.foldl (sarStep directions) st2).1 := by
  induction l with
  | nil => intro st1 st2 h _; exact h
  | cons tf rest ih =>
    intro st1 st2 hacc h
    rw [List.foldl_cons, List.foldl_cons]
    apply ih
    · exact sarStep_fst_congr directions st1 st2 tf hacc (h tf (List.mem_cons_self _ _)).1
        (h tf (List.mem_cons_self _ _)).2
    · intro tf2 h2
      rw [sarStep_isSome, sarStep_isSome, sarStep_isSome, sarStep_isSome]
      exact h tf2 (List.mem_cons_of_mem _ h2)

theorem updateSARDirections_shown (directions : List (String × String)) (w : World)
    (h : (w.page "signal-status").isSome = true) :
    (updateSARDirections directions w).page "signal-status"
      = some (sarSignal (timeframes.foldl (sarStep directions) ({}, w)).1) := by
  have hpres : ((timeframes.foldl (sarStep directions) ({}, w)).2.page "signal-status").isSome
      = true := by rw [sarFold_isSome]; exact h
  obtain ⟨t0, ht0⟩ := Option.isSome_iff_exists.mp hpres
  unfold updateSARDirections sarSignal
  simp only
  split_ifs <;> simp [ht0]

end Signal

section Clock

theorem panelInv_congr (w w' : World) (h1 : w'.timers = w.timers)
    (h2 : w'.positionTimerInterval = w.positionTimerInterval) (h : PanelInv w) : PanelInv w' := by
  unfold PanelInv positionTimers at *
  rw [h1, h2]
  exact h

theorem panelInv_length (w : World) (h : PanelInv w) : (positionTimers w).length ≤ 1 := by
  unfold PanelInv at h
  split at h
  · rw [h]; simp
  · obtain ⟨t, ht, -⟩ := h
    rw [ht]; simp

theorem positionTimers_clear (w : World) (id : Nat) (h : PanelInv w)
    (hid : w.positionTimerInterval = some id) : positionTimers (clearInterval id w) = [] := by
  unfold PanelInv at h
  rw [hid] at h
  obtain ⟨t, ht, htid⟩ := h
  unfold positionTimers clearInterval at *
  simp only
  rw [List.filter_filter]
  have : (w.timers.filter fun a => (decide (a.task = TimerTask.updatePositionTimer)
      && (a.id != id))) = (w.timers.filter fun t =>
        decide (t.task = TimerTask.updatePositionTimer)).filter (fun a => a.id != id) := by
    rw [List.filter_filter]
    congr 1
    funext a
    exact Bool.and_comm _ _
  rw [this, ht]
  simp [htid]

theorem startPositionTimer_panelInv (w : World) (h : PanelInv w) :
    PanelInv (startPositionTimer w) := by
  cases hid : w.positionTimerInterval with
  | none =>
    have h0 : positionTimers w = [] := by
      unfold PanelInv at h; rw [hid] at h; exact h
    unfold startPositionTimer setInterval PanelInv
    simp only [hid]
    unfold positionTimers at *
    simp [List.filter_append, h0]
  | some id =>
    have h0 := positionTimers_clear w id h hid
    unfold startPositionTimer setInterval PanelInv
    simp only [hid]
    unfold positionTimers at *
    simp only [List.filter_append, h0]
    simp [clearInterval]

theorem clearPosition_panelInv (w : World) (h : PanelInv w) : PanelInv (clearPosition w) := by
  cases hid : w.positionTimerInterval with
  | none =>
    unfold clearPosition
    simp only [hid]
    exact panelInv_congr w _ rfl hid.symm h
  | some id =>
    have h0 := positionTimers_clear w id h hid
    unfold clearPosition PanelInv
    simp only [hid]
    exact h0

theorem updatePositionTimer_clock (w : World) :
    (updatePositionTimer w).timers = w.timers ∧
    (updatePositionTimer w).positionTimerInterval = w.positionTimerInterval := by
  unfold updatePositionTimer setText
  constructor <;> (split <;> rfl)

theorem updatePositionTime_panelInv (position : Position) (w : World) (h : PanelInv w) :
    PanelInv (updatePositionTime position w) := by
  unfold updatePositionTime
  simp only
  have key : ∀ w1 : World, PanelInv w1 →
      PanelInv (match w1.positionStartTime with
        | some _ =>
          if (updatePositionTimer w1).positionTimerInterval.isNone = true
          then startPositionTimer (updatePositionTimer w1) else updatePositionTimer w1
        | none => setText "pos-time" "N/A" w1) := by
    intro w1 h1
    have h2 : PanelInv (updatePositionTimer w1) :=
      panelInv_congr w1 _ (updatePositionTimer_clock w1).1 (updatePositionTimer_clock w1).2 h1
    split
    · split_ifs
      · exact startPositionTimer_panelInv _ h2
      · exact h2
    · exact panelInv_congr w1 _ rfl rfl h1
  apply key
  split_ifs
  · exact panelInv_congr w _ rfl rfl h
  · split
    · split_ifs
      · exact panelInv_congr w _ rfl rfl h
      · exact h
    · exact h

theorem updatePosition_panelInv (position : Position) (data : Status) (w : World)
    (h : PanelInv w) : PanelInv (updatePosition position data w).world := by
  unfold updatePosition
  simp only
  apply Res.andThen_inv PanelInv
  · split
    · exact panelInv_congr w _ rfl rfl h
    · exact panelInv_congr w _ rfl rfl h
    · exact panelInv_congr w _ rfl rfl h
  · intro w1 h1
    show PanelInv (setText "pos-pnl" _ (match (setText "pos-size" _ w1).page "pos-time" with
      | some _ => updatePositionTime position (setText "pos-size" _ w1)
      | none => setText "pos-size" _ w1))
    apply panelInv_congr _ _ rfl rfl
    split
    · exact updatePositionTime_panelInv _ _ (panelInv_congr w1 _ rfl rfl h1)
    · exact panelInv_congr w1 _ rfl rfl h1

theorem updatePositionTime_running (position : Position) (w : World) (id : Nat)
    (h : w.positionTimerInterval = some id) :
    (updatePositionTime position w).timers = w.timers ∧
    (updatePositionTime position w).positionTimerInterval = some id := by
  unfold updatePositionTime
  simp only
  have key : ∀ w1 : World, w1.timers = w.timers → w1.positionTimerInterval = some id →
      (match w1.positionStartTime with
        | some _ =>
          if (updatePositionTimer w1).positionTimerInterval.isNone = true
          then startPositionTimer (updatePositionTimer w1) else updatePositionTimer w1
        | none => setText "pos-time" "N/A" w1).timers = w.timers ∧
      (match w1.positionStartTime with
        | some _ =>
          if (updatePositionTimer w1).positionTimerInterval.isNone = true
          then startPositionTimer (updatePositionTimer w1) else updatePositionTimer w1
        | none => setText "pos-time" "N/A" w1).positionTimerInterval = some id := by
    intro w1 h1 h2
    have h3 : (updatePositionTimer w1).positionTimerInterval.isNone = false := by
      rw [(updatePositionTimer_clock w1).2, h2]; rfl
    split
    · simp only [h3, Bool.false_eq_true, if_false]
      exact ⟨(updatePositionTimer_clock w1).1.trans h1, (updatePositionTimer_clock w1).2.trans h2⟩
    · exact ⟨h1, h2⟩
  apply key
  · split_ifs
    · rfl
    · split
      · split_ifs <;> rfl
      · rfl
  · split_ifs
    · exact h
    · split
      · split_ifs
        · exact h
        · exact h
      · exact h

theorem updatePosition_running (position : Position) (data : Status) (w : World) (id : Nat)
    (h : w.positionTimerInterval = some id) :
    (updatePosition position data w).world.timers = w.timers ∧
    (updatePosition position data w).world.positionTimerInterval = some id := by
  unfold updatePosition
  simp only
  apply Res.andThen_inv (fun w' => w'.timers = w.timers ∧ w'.positionTimerInterval = some id)
  · split
    · exact ⟨rfl, h⟩
    · exact ⟨rfl, h⟩
    · exact ⟨rfl, h⟩
  · intro w1 h1
    show (setText "pos-pnl" _ (match (setText "pos-size" _ w1).page "pos-time" with
      | some _ => updatePositionTime position (setText "pos-size" _ w1)
      | none => setText "pos-size" _ w1)).timers = w.timers ∧
      (setText "pos-pnl" _ (match (setText "pos-size" _ w1).page "pos-time" with
      | some _ => updatePositionTime position (setText "pos-size" _ w1)
      | none => setText "pos-size" _ w1)).positionTimerInterval = some id
    split
    · have := updatePositionTime_running position (setText "pos-size"
        (orElse data.top1_display (orElse position.top1_display "N/A")) w1) id h1.2
      exact ⟨this.1.trans h1.1, this.2⟩
    · exact h1

end Clock

section LockFlag

theorem lockSymbol_lockIff (position : Position) (w : World)
    (h : w.positionSymbolLocked = true ↔ w.lockedSymbol.isSome = true) :
    (lockSymbol position w).positionSymbolLocked = true ↔
      (lockSymbol position w).lockedSymbol.isSome = true := by
  unfold lockSymbol
  split
  · split_ifs <;> first | exact h | exact ⟨fun _ => rfl, fun _ => rfl⟩
  · exact h

theorem statusPosition_lockIff (data : Status) (w : World)
    (h : w.positionSymbolLocked = true ↔ w.lockedSymbol.isSome = true) :
    (statusPosition data w).world.positionSymbolLocked = true ↔
      (statusPosition data w).world.lockedSymbol.isSome = true := by
  have hclosed : ∀ a b : World, LockSame a b →
      (a.positionSymbolLocked = true ↔ a.lockedSymbol.isSome = true) →
      (b.positionSymbolLocked = true ↔ b.lockedSymbol.isSome = true) := by
    intro a b hab ha
    rw [hab.1, hab.2.1]
    exact ha
  unfold statusPosition
  split
  · unfold statusOpenPosition
    simp only
    apply Res.andThen_inv
      (fun w' => w'.positionSymbolLocked = true ↔ w'.lockedSymbol.isSome = true)
    · exact hclosed _ _ (statusOpenPosition_pre _ w) h
    · intro w1 h1
      exact hclosed _ _ (updatePosition_lockSame _ _ _) (lockSymbol_lockIff _ w1 h1)
  · unfold statusNoPosition
    apply Res.andThen_inv
      (fun w' => w'.positionSymbolLocked = true ↔ w'.lockedSymbol.isSome = true)
    · exact hclosed _ _ (setTextStrict_lockSame _ _ _ (by decide)) h
    · intro w1 _
      apply hclosed _ _ (clearPosition_lockSame _)
      simp

theorem foldl_processSnapshot_lockIff (ticks : List (Fetch GainersData × Status)) :
    ∀ w : World, (w.positionSymbolLocked = true ↔ w.lockedSymbol.isSome = true) →
      ((ticks.foldl processSnapshot w).positionSymbolLocked = true ↔
        (ticks.foldl processSnapshot w).lockedSymbol.isSome = true) := by
  induction ticks with
  | nil => intro w h; exact h
  | cons tick rest ih =>
    intro w h
    rw [List.foldl_cons]
    apply ih
    apply processSnapshot_inv
      (fun w => w.positionSymbolLocked = true ↔ w.lockedSymbol.isSome = true) tick _ _ _ w h
    · intro a b hab ha
      rw [hab.1, hab.2.1]
      exact ha
    · intro w1 h1
      rw [(updateDashboardGainers_lockFields _ _).1, (updateDashboardGainers_lockFields _ _).2]
      exact h1
    · intro w1 h1
      exact statusPosition_lockIff _ w1 h1

end LockFlag

/-- C21, as the code has it.  After `checkSavedAPIConnection` runs,
`apiConnected` is true exactly when it was true before or the server reports a
trading mode other than `demo` and the saved item carries `connected: true`; the
status response plays no part in it. -/
theorem checkSaved_connected_iff (modeResponse : Fetch ModeData) (saved : SavedItem)
    (status status2 : Fetch Status) (w : World) :
    ((checkSavedAPIConnection modeResponse saved status w).apiConnected = true ↔
      (w.apiConnected = true ∨
        (saved = .data true ∧ ∃ modeData, modeResponse = .response true (some modeData) ∧
          orElse modeData.mode "demo" ≠ "demo"))) ∧
    (checkSavedAPIConnection modeResponse saved status2 w).apiConnected
      = (checkSavedAPIConnection modeResponse saved status w).apiConnected := by
  have hshow : ∀ w1 : World,
      (match showAPIConnectedIndicator w1 with
        | .ok w2 => fetch "/api/status" w2
        | .threw w2 => w2).apiConnected = true := by
    intro w1
    unfold showAPIConnectedIndicator touchStrict setTextStrict
    cases h1 : w1.page "api-status-indicator" <;>
      cases h2 : w1.page "api-status-text" <;>
        simp [Res.andThen, h1, h2, fetch, setText]
  constructor
  · unfold checkSavedAPIConnection
    simp only
    rcases modeResponse with _ | ⟨_ | _, _ | modeData⟩
    · simp [fetch]
    · simp [fetch]
    · simp [fetch]
    · simp [fetch]
    · by_cases hm : orElse modeData.mode "demo" = "demo"
      · simp [hm, fetch]
      · simp only [hm, if_false]
        rcases saved with _ | _ | _ | _
        · simp [fetch]
        · simp [fetch]
        · simp [fetch]
        · rw [hshow]
          exact ⟨fun _ => Or.inr ⟨rfl, modeData, rfl, hm⟩, fun _ => rfl⟩
  · rfl

/-- C21 fails as stated: with the server in `real` mode and a saved item with
`connected: true`, `apiConnected` is true after the method although the status
response reports `api_connected: false`. -/
theorem checkSaved_trusts_cache :
    (checkSavedAPIConnection (.response true (some { mode := some "real" })) (.data true)
      (.response true (some { api_connected := some false })) sampleWorld).apiConnected
      = true := by
  decide

/-- C22, as the code has it.  The signal `updateSARDirections` shows is a
function of the directions map and of which badge and container elements of the
six timeframes exist: on two pages that have the signal element and the same
badge elements, calls with the same map show the same signal. -/
theorem signal_depends_on_map_and_badges (directions : List (String × String))
    (w1 w2 : World)
    (hsame : ∀ tf ∈ timeframes,
      (w1.page ("sar-" ++ tf)).isSome = (w2.page ("sar-" ++ tf)).isSome ∧
      (w1.page ("sar-" ++ tf ++ "-container")).isSome
        = (w2.page ("sar-" ++ tf ++ "-container")).isSome)
    (h1 : (w1.page "signal-status").isSome = true)
    (h2 : (w2.page "signal-status").isSome = true) :
    (updateSARDirections directions w1).page "signal-status"
      = (updateSARDirections directions w2).page "signal-status" := by
  rw [updateSARDirections_shown directions w1 h1, updateSARDirections_shown directions w2 h2,
    sarFold_fst_congr directions timeframes ({}, w1) ({}, w2) rfl hsame]

/-- C22, as the code has it, on the sample page before and after another
call. -/
theorem signal_depends_on_map_and_badges_witness :
    (sampleWorld.page "signal-status").isSome = true ∧
    (updateSARDirections sampleDirections sampleWorld).page "signal-status"
      = (updateSARDirections sampleDirections
          (updateSARDirections [("1m", "short")] sampleWorld)).page "signal-status" :=
  ⟨rfl, signal_depends_on_map_and_badges sampleDirections sampleWorld
    (updateSARDirections [("1m", "short")] sampleWorld)
    (fun tf _ => by
      rw [updateSARDirections_isSome, updateSARDirections_isSome]
      exact ⟨rfl, rfl⟩)
    rfl (by rw [updateSARDirections_isSome]; rfl)⟩

/-- C22 fails as stated: the same map, `1m` long and nothing else, shows
`NO SIGNAL` on a page with all badges and `LONG SIGNAL` on a page that has the
badge of `1m` only. -/
theorem signal_depends_on_page :
    (updateSARDirections [("1m", "long")] sampleWorld).page "signal-status"
      = some "NO SIGNAL" ∧
    (updateSARDirections [("1m", "long")] sampleNarrowPage).page "signal-status"
      = some "LONG SIGNAL" := by
  decide

/-- C23. In every state reached through `updatePosition`, `startPositionTimer`
and `clearPosition` from a dashboard without position clock, at most one
position clock is active, and it is the one whose handle is stored; and while a
handle is stored, `updatePosition` on another snapshot leaves the active timers
and the stored handle as they are. -/
theorem position_clock_single (w : World) (h : PanelReachable w) :
    (positionTimers w).length ≤ 1 ∧ PanelInv w ∧
    ∀ (position : Position) (data : Status) (id : Nat), w.positionTimerInterval = some id →
      (updatePosition position data w).world.timers = w.timers ∧
      (updatePosition position data w).world.positionTimerInterval = some id := by
  have hinv : PanelInv w := by
    induction h with
    | start w h1 h2 =>
      unfold PanelInv
      rw [h1]
      exact h2
    | updatePosition position data w _ ih => exact updatePosition_panelInv _ _ _ ih
    | startPositionTimer w _ ih => exact startPositionTimer_panelInv _ ih
    | clearPosition w _ ih => exact clearPosition_panelInv _ ih
  exact ⟨panelInv_length w hinv, hinv,
    fun position data id hid => updatePosition_running position data w id hid⟩

/-- C23 on the sample dashboard after two snapshots of the same position. -/
theorem position_clock_single_witness :
    (positionTimers (updatePosition { side := some "long", open_timestamp := some 1000 } { }
      (updatePosition { side := some "long", open_timestamp := some 1000 } { }
        sampleWorld).world).world).length ≤ 1 :=
  (position_clock_single _
    (PanelReachable.updatePosition _ _ _
      (PanelReachable.updatePosition _ _ _ (PanelReachable.start sampleWorld rfl rfl)))).1

/-- C25, as the code has it.  In every state reached from a dashboard without
lock by processing status snapshots, `positionSymbolLocked` is true exactly when
`lockedSymbol` is not null, and `lockedSymbol` is null exactly when
`positionSymbolLocked` is false. -/
theorem lock_flag_iff_symbol (w0 : World) (ticks : List (Fetch GainersData × Status))
    (h1 : w0.positionSymbolLocked = false) (h2 : w0.lockedSymbol = none) :
    ((ticks.foldl processSnapshot w0).positionSymbolLocked = true ↔
      (ticks.foldl processSnapshot w0).lockedSymbol ≠ none) ∧
    ((ticks.foldl processSnapshot w0).lockedSymbol = none ↔
      (ticks.foldl processSnapshot w0).positionSymbolLocked = false) := by
  have h := foldl_processSnapshot_lockIff ticks w0 (by rw [h1, h2]; simp)
  revert h
  generalize ticks.foldl processSnapshot w0 = w
  intro h
  cases hl : w.positionSymbolLocked <;> cases hs : w.lockedSymbol <;> simp_all

/-- C25, as the code has it, after a position on `BBB` was opened. -/
theorem lock_flag_iff_symbol_witness :
    sampleWorld.positionSymbolLocked = false ∧ sampleWorld.lockedSymbol = none ∧
    (([(sampleGainers, sampleOpen)].foldl processSnapshot sampleWorld).positionSymbolLocked
        = true ↔
      ([(sampleGainers, sampleOpen)].foldl processSnapshot sampleWorld).lockedSymbol ≠ none) :=
  ⟨rfl, rfl, (lock_flag_iff_symbol sampleWorld [(sampleGainers, sampleOpen)] rfl rfl).1⟩

/-- C25 fails as stated: a position whose symbol is `_USDT` sets the lock with
the empty string as `lockedSymbol`. -/
theorem lock_with_empty_symbol :
    (processSnapshot sampleWorld
      (sampleGainers,
        { in_position := true,
          position := some { symbol := some "_USDT", side := some "long" } })).positionSymbolLocked
      = true ∧
    (processSnapshot sampleWorld
      (sampleGainers,
        { in_position := true,
          position := some { symbol := some "_USDT", side := some "long" } })).lockedSymbol
      = some "" := by
  decide

end TradingDashboard
